import Mathlib

/-!
# LiquidCrystal_MCP23017_I2C: HD44780 character LCD behind an MCP23017 port expander

Shallow embedding of `src/LiquidCrystal_MCP23017_I2C.{h,cpp}`.

* `uint8_t` / `uint16_t` values are natural numbers; a reduction `% 256` is written
  wherever an `int` expression is narrowed to `uint8_t` and can exceed eight bits.
* The driver object is the record `Driver`.  Its effects on the outside world
  (`Wire`, `delayMicroseconds`, `Serial`) are recorded in the fields `trace`,
  `wireStatus`, `serialReady` and `serialOut` of the same record.
* Every member function `f(args)` becomes `f args : Driver → Driver` (state last), so
  that a sequence of calls reads as a pipeline `s |> f a |> g b`.
-/

namespace LiquidCrystal_MCP23017_I2C

/-! ## Constants -/

abbrev MCP23017_IODIRA : Nat := 0x00
abbrev MCP23017_IODIRB : Nat := 0x01
abbrev MCP23017_GPIOA : Nat := 0x12
abbrev MCP23017_GPIOB : Nat := 0x13

abbrev MCP23017_PA0 : Nat := 0x0001
abbrev MCP23017_PA1 : Nat := 0x0002
abbrev MCP23017_PA2 : Nat := 0x0004
abbrev MCP23017_PA3 : Nat := 0x0008
abbrev MCP23017_PA4 : Nat := 0x0010
abbrev MCP23017_PA5 : Nat := 0x0020
abbrev MCP23017_PA6 : Nat := 0x0040
abbrev MCP23017_PA7 : Nat := 0x0080
abbrev MCP23017_PB0 : Nat := 0x0100
abbrev MCP23017_PB1 : Nat := 0x0200
abbrev MCP23017_PB2 : Nat := 0x0400
abbrev MCP23017_PB3 : Nat := 0x0800
abbrev MCP23017_PB4 : Nat := 0x1000
abbrev MCP23017_PB5 : Nat := 0x2000
abbrev MCP23017_PB6 : Nat := 0x4000
abbrev MCP23017_PB7 : Nat := 0x8000

abbrev LCD_CLEARDISPLAY : Nat := 0x01
abbrev LCD_RETURNHOME : Nat := 0x02
abbrev LCD_ENTRYMODESET : Nat := 0x04
abbrev LCD_DISPLAYCONTROL : Nat := 0x08
abbrev LCD_CURSORSHIFT : Nat := 0x10
abbrev LCD_FUNCTIONSET : Nat := 0x20
abbrev LCD_SETCGRAMADDR : Nat := 0x40
abbrev LCD_SETDDRAMADDR : Nat := 0x80

abbrev LCD_ENTRYRIGHT : Nat := 0x00
abbrev LCD_ENTRYLEFT : Nat := 0x02
abbrev LCD_ENTRYSHIFTINCREMENT : Nat := 0x01
abbrev LCD_ENTRYSHIFTDECREMENT : Nat := 0x00

abbrev LCD_DISPLAYON : Nat := 0x04
abbrev LCD_DISPLAYOFF : Nat := 0x00
abbrev LCD_CURSORON : Nat := 0x02
abbrev LCD_CURSOROFF : Nat := 0x00
abbrev LCD_BLINKON : Nat := 0x01
abbrev LCD_BLINKOFF : Nat := 0x00

abbrev LCD_DISPLAYMOVE : Nat := 0x08
abbrev LCD_CURSORMOVE : Nat := 0x00
abbrev LCD_MOVERIGHT : Nat := 0x04
abbrev LCD_MOVELEFT : Nat := 0x00

abbrev LCD_8BITMODE : Nat := 0x10
abbrev LCD_4BITMODE : Nat := 0x00
abbrev LCD_2LINE : Nat := 0x08
abbrev LCD_1LINE : Nat := 0x00
abbrev LCD_5x10DOTS : Nat := 0x04
abbrev LCD_5x8DOTS : Nat := 0x00

abbrev LOW : Nat := 0
abbrev HIGH : Nat := 1

/-- Complement of a byte: the low eight bits of the C expression `~x` for `x < 256`. -/
def not8 (x : Nat) : Nat := 0xFF ^^^ x

/-- The macro `MCP23017_digitalPinToPort(P)`, with its cast to `uint16_t`. -/
def MCP23017_digitalPinToPort (P : Nat) : Nat :=
  if P % 65536 > 0x00ff then MCP23017_GPIOB else MCP23017_GPIOA

/-- The macro `MCP23017_digitalPinToBitMask(P)`. -/
def MCP23017_digitalPinToBitMask (P : Nat) : Nat :=
  if P % 65536 > 0x00ff then P >>> 8 else P

/-! ## Observable effects and driver state -/

/-- One effect of the driver on the outside world: `wireBegin` is `Wire.begin()`;
`tx addr reg val` is one transmission `Wire.beginTransmission(addr)`,
`Wire.write(reg)`, `Wire.write(val)`, `Wire.endTransmission()`, that is two bytes sent
to the device `addr`; `delay us` is `delayMicroseconds(us)`. -/
inductive Event where
  | wireBegin : Event
  | tx (addr reg val : Nat) : Event
  | delay (us : Nat) : Event
  deriving DecidableEq, Repr

/-- The driver object (the data members of the class; `_initialized` is never read or
written and is left out) together with the outside world: `trace` is the chronological
list of effects, `wireStatus` the status codes that the coming calls of
`Wire.endTransmission()` return (none left: `0`), `serialReady` the value of
`if (Serial)`, `serialOut` the error codes printed. -/
structure Driver where
  i2c_addr : Nat
  rs_pin : Nat
  rw_pin : Nat
  en_pin : Nat
  data_pins : Fin 8 → Nat
  data_port : Nat
  backlight_pin : Nat
  gpioa_value : Nat
  gpiob_value : Nat
  displayfunction : Nat
  displaycontrol : Nat
  displaymode : Nat
  numlines : Nat
  row_offsets : Fin 4 → Nat
  trace : List Event
  wireStatus : List Nat
  serialReady : Bool
  serialOut : List Nat

/-- The call `delayMicroseconds(us)`. -/
def delayMicroseconds (us : Nat) (s : Driver) : Driver :=
  { s with trace := s.trace ++ [Event.delay us] }

/-- The call `Wire.begin()`. -/
def wireBegin (s : Driver) : Driver :=
  { s with trace := s.trace ++ [Event.wireBegin] }

/-! ## Low level MCP23017 data pushing commands -/

def writeRegister (regAddr regValue : Nat) (s : Driver) : Driver :=
  let error := s.wireStatus.headD 0
  let s1 : Driver :=
    { s with trace := s.trace ++ [Event.tx s.i2c_addr regAddr regValue],
             wireStatus := s.wireStatus.tail }
  if 0 ≠ error then
    if s1.serialReady then { s1 with serialOut := s1.serialOut ++ [error] } else s1
  else s1

def writePin (pin value : Nat) (s : Driver) : Driver :=
  let regAddr := MCP23017_digitalPinToPort pin
  let bitmask := MCP23017_digitalPinToBitMask pin % 256
  if MCP23017_GPIOA = regAddr then
    let s1 : Driver :=
      if value ≠ 0 then { s with gpioa_value := s.gpioa_value ||| bitmask }
      else { s with gpioa_value := s.gpioa_value &&& not8 bitmask }
    writeRegister regAddr s1.gpioa_value s1
  else
    let s1 : Driver :=
      if value ≠ 0 then { s with gpiob_value := s.gpiob_value ||| bitmask }
      else { s with gpiob_value := s.gpiob_value &&& not8 bitmask }
    writeRegister regAddr s1.gpiob_value s1

def writeRS (value : Nat) (s : Driver) : Driver := writePin s.rs_pin value s

def writeRW (value : Nat) (s : Driver) : Driver := writePin s.rw_pin value s

def writeEnable (value : Nat) (s : Driver) : Driver := writePin s.en_pin value s

/-! ## Low level data pushing commands -/

def pulseEnable (s : Driver) : Driver :=
  s |> writeEnable LOW |> delayMicroseconds 1
    |> writeEnable HIGH |> delayMicroseconds 1
    |> writeEnable LOW |> delayMicroseconds 100

/-- The slow-path loop `for (i ...) writePin(_data_pins[i], (value >> i) & 0x01)`. -/
def writeDataPins (value : Nat) (idx : List (Fin 8)) (s : Driver) : Driver :=
  idx.foldl (fun st i => writePin (st.data_pins i) ((value >>> i.val) &&& 0x01) st) s

def write4bits (value : Nat) (s : Driver) : Driver :=
  let s1 : Driver :=
    if 0 = s.data_port then writeDataPins value [4, 5, 6, 7] s
    else if MCP23017_GPIOA = s.data_port then
      let g := (s.gpioa_value &&& 0x0f) ||| (value &&& 0xf0)
      writeRegister s.data_port g { s with gpioa_value := g }
    else
      let g := (s.gpiob_value &&& 0x0f) ||| (value &&& 0xf0)
      writeRegister s.data_port g { s with gpiob_value := g }
  pulseEnable s1

def write8bits (value : Nat) (s : Driver) : Driver :=
  let s1 : Driver :=
    if 0 = s.data_port then writeDataPins value [0, 1, 2, 3, 4, 5, 6, 7] s
    else writeRegister s.data_port value s
  pulseEnable s1

/-- Write either command or data, with automatic 4/8-bit selection. -/
def send (value mode : Nat) (s : Driver) : Driver :=
  let s1 := s |> writeRS mode |> writeRW LOW
  if s1.displayfunction &&& LCD_8BITMODE ≠ 0 then write8bits value s1
  else s1 |> write4bits (value &&& 0xf0) |> write4bits ((value <<< 4) % 256)

/-! ## Mid level commands -/

def command (value : Nat) (s : Driver) : Driver := send value LOW s

/-- The virtual `write(uint8_t)`: returns the number of bytes accepted and the state. -/
def write (value : Nat) (s : Driver) : Nat × Driver := (1, send value HIGH s)

/-! ## Construction -/

/-- The scan of `init` over the remaining data pins: any pin on another port than
`port` collapses the result to `0` (the `break`). -/
def scanDataPort (pins : Fin 8 → Nat) (port : Nat) : List (Fin 8) → Nat
  | [] => port
  | i :: rest =>
    if port ≠ MCP23017_digitalPinToPort (pins i) then 0 else scanDataPort pins port rest

/-- The array `_data_pins` as filled by `init`. -/
def dataPinsOf (d0 d1 d2 d3 d4 d5 d6 d7 : Nat) : Fin 8 → Nat :=
  fun i => [d0, d1, d2, d3, d4, d5, d6, d7].getD i.val 0

/-- The member `init`, on the object `s` (every constructor calls it on a new object). -/
def init (fourbitmode : Bool) (i2c_addr rs rw en backlight d0 d1 d2 d3 d4 d5 d6 d7 : Nat)
    (s : Driver) : Driver :=
  let pins := dataPinsOf d0 d1 d2 d3 d4 d5 d6 d7
  let port :=
    if fourbitmode then
      scanDataPort pins (MCP23017_digitalPinToPort (pins 4)) [5, 6, 7]
    else
      scanDataPort pins (MCP23017_digitalPinToPort (pins 0)) [1, 2, 3, 4, 5, 6, 7]
  { s with
    i2c_addr := i2c_addr, rs_pin := rs, rw_pin := rw, en_pin := en,
    backlight_pin := backlight, data_pins := pins, data_port := port,
    gpioa_value := 0x00, gpiob_value := 0x00,
    displayfunction :=
      if fourbitmode then LCD_4BITMODE ||| LCD_1LINE ||| LCD_5x8DOTS
      else LCD_8BITMODE ||| LCD_1LINE ||| LCD_5x8DOTS }

/-- A new object before its constructor body runs: the members hold arbitrary values
(here zero), nothing has been emitted; `status` and `serial` describe the outside world. -/
def blank (status : List Nat) (serial : Bool) : Driver :=
  { i2c_addr := 0, rs_pin := 0, rw_pin := 0, en_pin := 0, data_pins := fun _ => 0,
    data_port := 0, backlight_pin := 0, gpioa_value := 0, gpiob_value := 0,
    displayfunction := 0, displaycontrol := 0, displaymode := 0, numlines := 0,
    row_offsets := fun _ => 0, trace := [], wireStatus := status, serialReady := serial,
    serialOut := [] }

/-! ## High level commands -/

def setRowOffsets (row0 row1 row2 row3 : Nat) (s : Driver) : Driver :=
  { s with row_offsets := fun i => [row0 % 256, row1 % 256, row2 % 256, row3 % 256].getD i.val 0 }

def display (s : Driver) : Driver :=
  let s1 : Driver := { s with displaycontrol := s.displaycontrol ||| LCD_DISPLAYON }
  command (LCD_DISPLAYCONTROL ||| s1.displaycontrol) s1

def noDisplay (s : Driver) : Driver :=
  let s1 : Driver := { s with displaycontrol := s.displaycontrol &&& not8 LCD_DISPLAYON }
  command (LCD_DISPLAYCONTROL ||| s1.displaycontrol) s1

def noCursor (s : Driver) : Driver :=
  let s1 : Driver := { s with displaycontrol := s.displaycontrol &&& not8 LCD_CURSORON }
  command (LCD_DISPLAYCONTROL ||| s1.displaycontrol) s1

def cursor (s : Driver) : Driver :=
  let s1 : Driver := { s with displaycontrol := s.displaycontrol ||| LCD_CURSORON }
  command (LCD_DISPLAYCONTROL ||| s1.displaycontrol) s1

def noBlink (s : Driver) : Driver :=
  let s1 : Driver := { s with displaycontrol := s.displaycontrol &&& not8 LCD_BLINKON }
  command (LCD_DISPLAYCONTROL ||| s1.displaycontrol) s1

def blink (s : Driver) : Driver :=
  let s1 : Driver := { s with displaycontrol := s.displaycontrol ||| LCD_BLINKON }
  command (LCD_DISPLAYCONTROL ||| s1.displaycontrol) s1

def scrollDisplayLeft (s : Driver) : Driver :=
  command (LCD_CURSORSHIFT ||| LCD_DISPLAYMOVE ||| LCD_MOVELEFT) s

def scrollDisplayRight (s : Driver) : Driver :=
  command (LCD_CURSORSHIFT ||| LCD_DISPLAYMOVE ||| LCD_MOVERIGHT) s

def leftToRight (s : Driver) : Driver :=
  let s1 : Driver := { s with displaymode := s.displaymode ||| LCD_ENTRYLEFT }
  command (LCD_ENTRYMODESET ||| s1.displaymode) s1

def rightToLeft (s : Driver) : Driver :=
  let s1 : Driver := { s with displaymode := s.displaymode &&& not8 LCD_ENTRYLEFT }
  command (LCD_ENTRYMODESET ||| s1.displaymode) s1

def noBacklight (s : Driver) : Driver :=
  if 0 ≠ s.backlight_pin then writePin s.backlight_pin LOW s else s

def backlight (s : Driver) : Driver :=
  if 0 ≠ s.backlight_pin then writePin s.backlight_pin HIGH s else s

def autoscroll (s : Driver) : Driver :=
  let s1 : Driver := { s with displaymode := s.displaymode ||| LCD_ENTRYSHIFTINCREMENT }
  command (LCD_ENTRYMODESET ||| s1.displaymode) s1

def noAutoscroll (s : Driver) : Driver :=
  let s1 : Driver := { s with displaymode := s.displaymode &&& not8 LCD_ENTRYSHIFTINCREMENT }
  command (LCD_ENTRYMODESET ||| s1.displaymode) s1

def clear (s : Driver) : Driver :=
  s |> command LCD_CLEARDISPLAY |> delayMicroseconds 2000

def home (s : Driver) : Driver :=
  s |> command LCD_RETURNHOME |> delayMicroseconds 2000

/-- The row index with which `setCursor` reads `_row_offsets`: the two clamps, the
second one computed in `int` and narrowed to `uint8_t`. -/
def cursorRow (numlines row : Nat) : Nat :=
  let max_lines := 4
  let row1 := if row ≥ max_lines then max_lines - 1 else row
  if row1 ≥ numlines then (numlines + 256 - 1) % 256 else row1

/-- The index `min(r, 3)` into the four-entry array `_row_offsets`. -/
def rowIndex (r : Nat) : Fin 4 := ⟨min r 3, by omega⟩

/-- The member `setCursor`; `none` when the read of `_row_offsets` is out of bounds. -/
def setCursor (col row : Nat) (s : Driver) : Option Driver :=
  if h : cursorRow s.numlines row < 4 then
    some (command ((LCD_SETDDRAMADDR ||| (col + s.row_offsets ⟨cursorRow s.numlines row, h⟩)) % 256) s)
  else none

/-- The member `createChar`: the glyph is an array of eight bytes. -/
def createChar (location : Nat) (charmap : Fin 8 → Nat) (s : Driver) : Driver :=
  let location := location &&& 0x7
  let s1 := command (LCD_SETCGRAMADDR ||| (location <<< 3)) s
  [0, 1, 2, 3, 4, 5, 6, 7].foldl (fun st (i : Fin 8) => (write (charmap i) st).2) s1

/-- The 4-bit branch of the mode negotiation in `begin`. -/
def handshake4 (s : Driver) : Driver :=
  s |> write4bits 0x03 |> delayMicroseconds 4500
    |> write4bits 0x03 |> delayMicroseconds 4500
    |> write4bits 0x03 |> delayMicroseconds 150
    |> write4bits 0x02

/-- The statement `command(LCD_FUNCTIONSET | _displayfunction)` of `begin`. -/
def functionSet (s : Driver) : Driver := command (LCD_FUNCTIONSET ||| s.displayfunction) s

/-- The 8-bit branch of the mode negotiation in `begin`. -/
def handshake8 (s : Driver) : Driver :=
  s |> functionSet |> delayMicroseconds 4500
    |> functionSet |> delayMicroseconds 150
    |> functionSet

/-- First part of `begin`: line count, row offsets and font in the members. -/
def beginConfig (cols lines dotsize : Nat) (s : Driver) : Driver :=
  let s1 : Driver :=
    if lines > 1 then { s with displayfunction := s.displayfunction ||| LCD_2LINE } else s
  let s2 : Driver := { s1 with numlines := lines }
  let s3 := setRowOffsets 0x00 0x40 (0x00 + cols) (0x40 + cols) s2
  if dotsize ≠ LCD_5x8DOTS ∧ lines = 1 then
    { s3 with displayfunction := s3.displayfunction ||| LCD_5x10DOTS }
  else s3

/-- Second part of `begin`: bus start, both ports output and low, power-up wait,
RS, enable and R/W low. -/
def beginReset (s : Driver) : Driver :=
  s |> wireBegin
    |> writeRegister MCP23017_IODIRA 0x00 |> writeRegister MCP23017_IODIRB 0x00
    |> writeRegister MCP23017_GPIOA 0x00 |> writeRegister MCP23017_GPIOB 0x00
    |> delayMicroseconds 50000
    |> writeRS LOW |> writeEnable LOW |> writeRW LOW

/-- Third part of `begin`: put the LCD into 4 bit or 8 bit mode. -/
def negotiate (s : Driver) : Driver :=
  if ¬ (s.displayfunction &&& LCD_8BITMODE ≠ 0) then handshake4 s else handshake8 s

/-- Last part of `begin`: final function set, display on, backlight, clear, entry mode. -/
def beginFinish (s : Driver) : Driver :=
  let s7 := functionSet s
  let s8 : Driver := { s7 with displaycontrol := LCD_DISPLAYON ||| LCD_CURSOROFF ||| LCD_BLINKOFF }
  let s9 := s8 |> display |> backlight |> clear
  let s10 : Driver := { s9 with displaymode := LCD_ENTRYLEFT ||| LCD_ENTRYSHIFTDECREMENT }
  command (LCD_ENTRYMODESET ||| s10.displaymode) s10

def begin (cols lines dotsize : Nat) (s : Driver) : Driver :=
  s |> beginConfig cols lines dotsize |> beginReset |> negotiate |> beginFinish

/-! ## The public operations as data -/

/-- The public operations of a constructed driver object. -/
inductive Op where
  | begin (cols lines dotsize : Nat) : Op
  | clear : Op
  | home : Op
  | noDisplay : Op
  | display : Op
  | noBlink : Op
  | blink : Op
  | noCursor : Op
  | cursor : Op
  | scrollDisplayLeft : Op
  | scrollDisplayRight : Op
  | leftToRight : Op
  | rightToLeft : Op
  | noBacklight : Op
  | backlight : Op
  | autoscroll : Op
  | noAutoscroll : Op
  | setRowOffsets (row0 row1 row2 row3 : Nat) : Op
  | createChar (location : Nat) (charmap : Fin 8 → Nat) : Op
  | setCursor (col row : Nat) : Op
  | write (value : Nat) : Op
  | command (value : Nat) : Op

/-- Run one public operation: the value it returns (`none` for `void`) and the new
state; `none` altogether when the operation reads outside an array. -/
def Op.run : Op → Driver → Option (Option Nat × Driver)
  | Op.begin c l d, s => some (none, LiquidCrystal_MCP23017_I2C.begin c l d s)
  | Op.clear, s => some (none, LiquidCrystal_MCP23017_I2C.clear s)
  | Op.home, s => some (none, LiquidCrystal_MCP23017_I2C.home s)
  | Op.noDisplay, s => some (none, LiquidCrystal_MCP23017_I2C.noDisplay s)
  | Op.display, s => some (none, LiquidCrystal_MCP23017_I2C.display s)
  | Op.noBlink, s => some (none, LiquidCrystal_MCP23017_I2C.noBlink s)
  | Op.blink, s => some (none, LiquidCrystal_MCP23017_I2C.blink s)
  | Op.noCursor, s => some (none, LiquidCrystal_MCP23017_I2C.noCursor s)
  | Op.cursor, s => some (none, LiquidCrystal_MCP23017_I2C.cursor s)
  | Op.scrollDisplayLeft, s => some (none, LiquidCrystal_MCP23017_I2C.scrollDisplayLeft s)
  | Op.scrollDisplayRight, s => some (none, LiquidCrystal_MCP23017_I2C.scrollDisplayRight s)
  | Op.leftToRight, s => some (none, LiquidCrystal_MCP23017_I2C.leftToRight s)
  | Op.rightToLeft, s => some (none, LiquidCrystal_MCP23017_I2C.rightToLeft s)
  | Op.noBacklight, s => some (none, LiquidCrystal_MCP23017_I2C.noBacklight s)
  | Op.backlight, s => some (none, LiquidCrystal_MCP23017_I2C.backlight s)
  | Op.autoscroll, s => some (none, LiquidCrystal_MCP23017_I2C.autoscroll s)
  | Op.noAutoscroll, s => some (none, LiquidCrystal_MCP23017_I2C.noAutoscroll s)
  | Op.setRowOffsets a b c d, s => some (none, LiquidCrystal_MCP23017_I2C.setRowOffsets a b c d s)
  | Op.createChar l m, s => some (none, LiquidCrystal_MCP23017_I2C.createChar l m s)
  | Op.setCursor c r, s => (LiquidCrystal_MCP23017_I2C.setCursor c r s).map (fun t => (none, t))
  | Op.write v, s => some (some (LiquidCrystal_MCP23017_I2C.write v s).1, (LiquidCrystal_MCP23017_I2C.write v s).2)
  | Op.command v, s => some (none, LiquidCrystal_MCP23017_I2C.command v s)

/-! ## The display side of the wires -/

/-- Output latches of the two expander ports. -/
structure Ports where
  a : Nat
  b : Nat

/-- Effect of one register write on the output latches. -/
def Ports.write (p : Ports) (reg val : Nat) : Ports :=
  if reg = MCP23017_GPIOA then { p with a := val }
  else if reg = MCP23017_GPIOB then { p with b := val }
  else p

/-- Level (`0` or `1`) of the wire attached to the logical pin `pin`. -/
def Ports.level (p : Ports) (pin : Nat) : Nat :=
  let port := if MCP23017_digitalPinToPort pin = MCP23017_GPIOA then p.a else p.b
  if port &&& (MCP23017_digitalPinToBitMask pin % 256) ≠ 0 then 1 else 0

/-- The number shown on the wires `lines`, least significant line first. -/
def Ports.value (p : Ports) (lines : List Nat) : Nat :=
  lines.foldr (fun pin acc => p.level pin + 2 * acc) 0

/-- What a display wired to `rs`, `en` and the data lines `lines` is presented with:
for every register write that raises the enable line, the level of RS and the number
on the data lines right after that write. -/
def latched (rs en : Nat) (lines : List Nat) : Ports → List Event → List (Nat × Nat)
  | _, [] => []
  | p, Event.tx _ reg val :: t =>
    if p.level en = 0 ∧ (p.write reg val).level en = 1 then
      ((p.write reg val).level rs, (p.write reg val).value lines)
        :: latched rs en lines (p.write reg val) t
    else latched rs en lines (p.write reg val) t
  | p, _ :: t => latched rs en lines p t

/-- The transfers seen by the display wired as the driver `s` is configured: on the
lines `d4..d7` in 4-bit mode, on `d0..d7` in 8-bit mode. -/
def transfers (s : Driver) : List (Nat × Nat) :=
  let lines :=
    if s.displayfunction &&& LCD_8BITMODE ≠ 0 then List.ofFn s.data_pins
    else (List.ofFn s.data_pins).drop 4
  latched s.rs_pin s.en_pin lines { a := 0, b := 0 } s.trace

/-- The bytes transferred with RS low, in order. -/
def commandBytes (s : Driver) : List Nat :=
  ((transfers s).filter (fun x => x.1 = 0)).map Prod.snd

/-! ## Example instances -/

/-- A 4-bit instance whose data pins share port B (consolidated fast path). -/
def fast4 : Driver :=
  init true 0x20 MCP23017_PA7 MCP23017_PA6 MCP23017_PA5 MCP23017_PA1 0 0 0 0
    MCP23017_PB4 MCP23017_PB5 MCP23017_PB6 MCP23017_PB7 (blank [] false)

/-- A 4-bit instance whose data pins are spread over both ports (per-pin slow path). -/
def slow4 : Driver :=
  init true 0x20 MCP23017_PA7 MCP23017_PA6 MCP23017_PA5 MCP23017_PA1 0 0 0 0
    MCP23017_PA0 MCP23017_PB1 MCP23017_PA2 MCP23017_PB3 (blank [] false)

/-- An 8-bit instance with all eight data pins on port A. -/
def portA8 : Driver :=
  init false 0x20 MCP23017_PB0 MCP23017_PB1 MCP23017_PB2 MCP23017_PB3
    MCP23017_PA0 MCP23017_PA1 MCP23017_PA2 MCP23017_PA3
    MCP23017_PA4 MCP23017_PA5 MCP23017_PA6 MCP23017_PA7 (blank [] false)

/-- The instance built by the one-argument constructor: 8-bit mode, control pins on
port A, data pins `d0..d7` on PB0..PB7. -/
def default8 : Driver :=
  init false 0x20 MCP23017_PA7 MCP23017_PA6 MCP23017_PA5 MCP23017_PA1
    MCP23017_PB0 MCP23017_PB1 MCP23017_PB2 MCP23017_PB3
    MCP23017_PB4 MCP23017_PB5 MCP23017_PB6 MCP23017_PB7 (blank [] false)

/-- A 4-bit instance whose data pins `d4..d7` are the distinct pins PB0..PB3: all on
port B, but not on the bits 4..7 of that port. -/
def lowNibble4 : Driver :=
  init true 0x20 MCP23017_PA7 MCP23017_PA6 MCP23017_PA5 MCP23017_PA1 0 0 0 0
    MCP23017_PB0 MCP23017_PB1 MCP23017_PB2 MCP23017_PB3 (blank [] false)

/-- A 4-bit instance without R/W and without backlight pin (both the sentinel 0). -/
def plain4 : Driver :=
  init true 0x20 MCP23017_PA7 0 MCP23017_PA5 0 0 0 0 0
    MCP23017_PB4 MCP23017_PB5 MCP23017_PB6 MCP23017_PB7 (blank [] false)

/-- An 8-bit instance with all eight data pins on port A in reverse order: `d0..d7` are
PA7..PA0. -/
def reversedA8 : Driver :=
  init false 0x20 MCP23017_PB0 MCP23017_PB1 MCP23017_PB2 MCP23017_PB3
    MCP23017_PA7 MCP23017_PA6 MCP23017_PA5 MCP23017_PA4
    MCP23017_PA3 MCP23017_PA2 MCP23017_PA1 MCP23017_PA0 (blank [] false)

/-- An example glyph: a hollow box. -/
def boxGlyph : Fin 8 → Nat :=
  fun i => [0x1F, 0x11, 0x11, 0x11, 0x11, 0x11, 0x11, 0x1F].getD i.val 0

/-! ## Vocabulary of the statements -/

/-- The driver object and the effects emitted so far, without the answers of the
outside world: the pending transport status codes and the diagnostics printed. -/
def Driver.core (s : Driver) : Driver :=
  { s with wireStatus := [], serialOut := [] }

/-- A bus transaction is addressed to `addr` and writes one of the two output
registers; effects that are not bus transactions are not constrained. -/
def Event.gpioOnly (addr : Nat) : Event → Prop
  | Event.tx a reg _ => a = addr ∧ (reg = MCP23017_GPIOA ∨ reg = MCP23017_GPIOB)
  | _ => True

instance (addr : Nat) (e : Event) : Decidable (e.gpioOnly addr) := by
  cases e <;> unfold Event.gpioOnly <;> infer_instance

/-- The transactions of `t` that write the register `reg`. -/
def writesTo (reg : Nat) (t : List Event) : List Event :=
  t.filter (fun e => match e with
    | Event.tx _ r _ => decide (r = reg)
    | _ => false)

/-- The number `new` has bit `k` equal to `v` and every other bit as in `old`. -/
def bitChanged (k : Nat) (v : Bool) (old new : Nat) : Prop :=
  new.testBit k = v ∧ ∀ i, i ≠ k → new.testBit i = old.testBit i

/-- The value most recently written to the register `reg` in the trace `t`, if any. -/
def lastWrite (reg : Nat) (t : List Event) : Option Nat :=
  t.foldl (fun acc e => match e with
    | Event.tx _ r v => if r = reg then some v else acc
    | _ => acc) none

/-- Each shadow byte is the value most recently written to its output register. -/
def Mirror (s : Driver) : Prop :=
  lastWrite MCP23017_GPIOA s.trace = some s.gpioa_value ∧
  lastWrite MCP23017_GPIOB s.trace = some s.gpiob_value

instance (s : Driver) : Decidable (Mirror s) := by
  unfold Mirror
  infer_instance

/-- The shadow byte of the port of the logical pin `pin`. -/
def Driver.shadow (s : Driver) (pin : Nat) : Nat :=
  if MCP23017_GPIOA = MCP23017_digitalPinToPort pin then s.gpioa_value else s.gpiob_value

/-- The enable pulse as seen on the bus from the state `s`: the enable pin written
low, high, low through the shadow byte of its port, each write followed by its delay. -/
def pulseEvents (s : Driver) : List Event :=
  [Event.tx s.i2c_addr (MCP23017_digitalPinToPort s.en_pin)
      (s.shadow s.en_pin &&& not8 (MCP23017_digitalPinToBitMask s.en_pin % 256)),
    Event.delay 1,
    Event.tx s.i2c_addr (MCP23017_digitalPinToPort s.en_pin)
      ((s.shadow s.en_pin &&& not8 (MCP23017_digitalPinToBitMask s.en_pin % 256)) |||
        (MCP23017_digitalPinToBitMask s.en_pin % 256)),
    Event.delay 1,
    Event.tx s.i2c_addr (MCP23017_digitalPinToPort s.en_pin)
      (s.shadow s.en_pin &&& not8 (MCP23017_digitalPinToBitMask s.en_pin % 256)),
    Event.delay 100]

/-- The level (`0` or `1`) that the byte `byte`, written to the port of `pin`, puts on
the wire of `pin`. -/
def pinLevel (byte pin : Nat) : Nat :=
  if byte &&& (MCP23017_digitalPinToBitMask pin % 256) ≠ 0 then 1 else 0

/-- The refinement asked of a data write, in the words of the specification: the byte
`byte` written to the data port has, at the position of every active data pin
`pins i` (`i` in `idx`), the level of bit `i` of `v`, which is the level
`(v >> i) & 1` that the per-pin path writes to that pin. -/
def carries (pins : Fin 8 → Nat) (idx : List (Fin 8)) (v byte : Nat) : Prop :=
  ∀ i ∈ idx, pinLevel byte (pins i) = (v >>> i.val) &&& 0x01

instance (pins : Fin 8 → Nat) (idx : List (Fin 8)) (v byte : Nat) :
    Decidable (carries pins idx v byte) := by
  unfold carries
  infer_instance

/-- The values `init` can leave in `_data_port`. -/
def validPort (p : Nat) : Prop := p = 0 ∨ p = MCP23017_GPIOA ∨ p = MCP23017_GPIOB

instance (p : Nat) : Decidable (validPort p) := by
  unfold validPort
  infer_instance

/-- From a state with a valid `_data_port`, `t` is reached keeping the address and the
data port and emitting only transactions to the output registers. -/
def GpioStep (s t : Driver) : Prop :=
  validPort s.data_port →
    t.data_port = s.data_port ∧ t.i2c_addr = s.i2c_addr ∧
    ∃ new, t.trace = s.trace ++ new ∧ ∀ e ∈ new, e.gpioOnly s.i2c_addr

/-- Whether the operation is `begin`. -/
def Op.isBegin : Op → Bool
  | Op.begin _ _ _ => true
  | _ => false

/-- The states of a driver object: constructed by `init` from any wiring, then driven
by any sequence of public operations. -/
inductive Reachable : Driver → Prop where
  | constructed (fourbitmode : Bool) (i2c_addr rs rw en bl d0 d1 d2 d3 d4 d5 d6 d7 : Nat)
      (s0 : Driver) :
      Reachable (init fourbitmode i2c_addr rs rw en bl d0 d1 d2 d3 d4 d5 d6 d7 s0)
  | step (op : Op) (s t : Driver) (r : Option Nat) :
      Reachable s → op.run s = some (r, t) → Reachable t

/-- The states of a driver object on which `begin()` has been called: `begin` on any
state of the object, then any sequence of public operations. -/
inductive Ready : Driver → Prop where
  | begun (cols lines dotsize : Nat) (s : Driver) :
      Reachable s → Ready (begin cols lines dotsize s)
  | step (op : Op) (s t : Driver) (r : Option Nat) :
      Ready s → op.run s = some (r, t) → Ready t

/-- The output latches after the register writes among the events `t`, from `p`. -/
def Ports.run (p : Ports) : List Event → Ports
  | [] => p
  | Event.tx _ reg val :: t => (p.write reg val).run t
  | _ :: t => p.run t

/-- The eight data lines `d0..d7` wired to PA0..PA7, in this order. -/
def portALines : List Nat :=
  [MCP23017_PA0, MCP23017_PA1, MCP23017_PA2, MCP23017_PA3,
    MCP23017_PA4, MCP23017_PA5, MCP23017_PA6, MCP23017_PA7]

/-- An 8-bit driver whose data pins `d0..d7` are PA0..PA7 in this order, whose RS pin
`rs` and enable pin `en` are on port B with disjoint masks, and whose backlight pin,
when it is on port B, does not share the mask of the enable pin. -/
def Wired (rs en : Nat) (t : Driver) : Prop :=
  t.rs_pin = rs ∧ t.en_pin = en ∧
  List.ofFn t.data_pins = portALines ∧ t.data_port = MCP23017_GPIOA ∧
  t.displayfunction = 0x10 ∧
  MCP23017_digitalPinToPort rs = MCP23017_GPIOB ∧
  MCP23017_digitalPinToPort en = MCP23017_GPIOB ∧
  MCP23017_digitalPinToBitMask en % 256 ≠ 0 ∧
  (MCP23017_digitalPinToBitMask en % 256) &&& (MCP23017_digitalPinToBitMask rs % 256) = 0 ∧
  (MCP23017_digitalPinToPort t.backlight_pin = MCP23017_GPIOB →
    (MCP23017_digitalPinToBitMask t.backlight_pin % 256) &&&
      (MCP23017_digitalPinToBitMask en % 256) = 0)

/-- The display wired to `t` is in step with the driver: it has been presented with the
transfers `out`, the latch of port B holds the shadow byte, and enable is low. -/
def InStep (rs en : Nat) (t : Driver) (out : List (Nat × Nat)) : Prop :=
  Wired rs en t ∧
  latched rs en portALines { a := 0, b := 0 } t.trace = out ∧
  (Ports.run { a := 0, b := 0 } t.trace).b = t.gpiob_value ∧
  t.gpiob_value &&& (MCP23017_digitalPinToBitMask en % 256) = 0

/-- The eight pins of port B. -/
def portBPins : List Nat :=
  [MCP23017_PB0, MCP23017_PB1, MCP23017_PB2, MCP23017_PB3,
    MCP23017_PB4, MCP23017_PB5, MCP23017_PB6, MCP23017_PB7]

/-! ## Frame of the low level functions

The functions below `begin` and the flag operations touch only the two shadow bytes
and the outside world. -/

/-- The members that the data pushing functions never assign. -/
def Driver.frame (s : Driver) : Driver :=
  { s with gpioa_value := 0, gpiob_value := 0, trace := [], wireStatus := [], serialOut := [] }

theorem frame_delayMicroseconds (us : Nat) (s : Driver) :
    (delayMicroseconds us s).frame = s.frame := rfl

theorem frame_wireBegin (s : Driver) : (wireBegin s).frame = s.frame := rfl

theorem frame_writeRegister (a v : Nat) (s : Driver) : (writeRegister a v s).frame = s.frame := by
  unfold writeRegister
  dsimp only
  split_ifs <;> rfl

theorem frame_writePin (pin v : Nat) (s : Driver) : (writePin pin v s).frame = s.frame := by
  unfold writePin
  dsimp only
  by_cases hp : MCP23017_GPIOA = MCP23017_digitalPinToPort pin <;>
    by_cases hv : v = 0 <;>
    simp only [hp, hv, ne_eq, not_true_eq_false, not_false_eq_true, if_true, if_false,
      frame_writeRegister] <;> rfl

theorem frame_writeRS (v : Nat) (s : Driver) : (writeRS v s).frame = s.frame :=
  frame_writePin _ _ _

theorem frame_writeRW (v : Nat) (s : Driver) : (writeRW v s).frame = s.frame :=
  frame_writePin _ _ _

theorem frame_writeEnable (v : Nat) (s : Driver) : (writeEnable v s).frame = s.frame :=
  frame_writePin _ _ _

theorem frame_pulseEnable (s : Driver) : (pulseEnable s).frame = s.frame := by
  simp only [pulseEnable, frame_delayMicroseconds, frame_writeEnable]

theorem frame_writeDataPins (v : Nat) (idx : List (Fin 8)) (s : Driver) :
    (writeDataPins v idx s).frame = s.frame := by
  induction idx generalizing s with
  | nil => rfl
  | cons i rest ih =>
    have h := ih (writePin (s.data_pins i) ((v >>> i.val) &&& 0x01) s)
    rw [frame_writePin] at h
    exact h

theorem frame_write4bits (v : Nat) (s : Driver) : (write4bits v s).frame = s.frame := by
  unfold write4bits
  dsimp only
  split_ifs <;> simp only [frame_pulseEnable, frame_writeDataPins, frame_writeRegister] <;> rfl

theorem frame_write8bits (v : Nat) (s : Driver) : (write8bits v s).frame = s.frame := by
  unfold write8bits
  dsimp only
  split_ifs <;> simp only [frame_pulseEnable, frame_writeDataPins, frame_writeRegister]

theorem frame_send (v m : Nat) (s : Driver) : (send v m s).frame = s.frame := by
  unfold send
  dsimp only
  split_ifs <;> simp only [frame_write8bits, frame_write4bits, frame_writeRW, frame_writeRS]

theorem frame_command (v : Nat) (s : Driver) : (command v s).frame = s.frame :=
  frame_send _ _ _

theorem frame_backlight (s : Driver) : (backlight s).frame = s.frame := by
  unfold backlight
  split_ifs
  · exact frame_writePin _ _ _
  · rfl

theorem frame_noBacklight (s : Driver) : (noBacklight s).frame = s.frame := by
  unfold noBacklight
  split_ifs
  · exact frame_writePin _ _ _
  · rfl

theorem frame_clear (s : Driver) : (clear s).frame = s.frame := by
  simp only [clear, frame_delayMicroseconds, frame_command]

theorem frame_home (s : Driver) : (home s).frame = s.frame := by
  simp only [home, frame_delayMicroseconds, frame_command]

theorem frame_handshake4 (s : Driver) : (handshake4 s).frame = s.frame := by
  simp only [handshake4, frame_delayMicroseconds, frame_write4bits]

theorem frame_functionSet (s : Driver) : (functionSet s).frame = s.frame :=
  frame_command _ _

theorem frame_handshake8 (s : Driver) : (handshake8 s).frame = s.frame := by
  simp only [handshake8, frame_delayMicroseconds, frame_functionSet]

theorem frame_beginReset (s : Driver) : (beginReset s).frame = s.frame := by
  simp only [beginReset, frame_writeRW, frame_writeEnable, frame_writeRS,
    frame_delayMicroseconds, frame_writeRegister, frame_wireBegin]

theorem displayfunction_of_frame {s t : Driver} (h : t.frame = s.frame) :
    t.displayfunction = s.displayfunction := by
  have h1 : t.frame.displayfunction = s.frame.displayfunction := by rw [h]
  exact h1

theorem numlines_of_frame {s t : Driver} (h : t.frame = s.frame) :
    t.numlines = s.numlines := by
  have h1 : t.frame.numlines = s.frame.numlines := by rw [h]
  exact h1

theorem row_offsets_of_frame {s t : Driver} (h : t.frame = s.frame) :
    t.row_offsets = s.row_offsets := by
  have h1 : t.frame.row_offsets = s.frame.row_offsets := by rw [h]
  exact h1

theorem data_port_of_frame {s t : Driver} (h : t.frame = s.frame) :
    t.data_port = s.data_port := by
  have h1 : t.frame.data_port = s.frame.data_port := by rw [h]
  exact h1

theorem i2c_addr_of_frame {s t : Driver} (h : t.frame = s.frame) :
    t.i2c_addr = s.i2c_addr := by
  have h1 : t.frame.i2c_addr = s.frame.i2c_addr := by rw [h]
  exact h1

/-! ## Members kept by the data pushing functions -/

theorem numlines_delayMicroseconds (us : Nat) (s : Driver) :
    (delayMicroseconds us s).numlines = s.numlines :=
  numlines_of_frame (frame_delayMicroseconds us s)

theorem numlines_wireBegin (s : Driver) :
    (wireBegin s).numlines = s.numlines :=
  numlines_of_frame (frame_wireBegin s)

theorem numlines_writeRegister (a v : Nat) (s : Driver) :
    (writeRegister a v s).numlines = s.numlines :=
  numlines_of_frame (frame_writeRegister a v s)

theorem numlines_writeRS (v : Nat) (s : Driver) :
    (writeRS v s).numlines = s.numlines :=
  numlines_of_frame (frame_writeRS v s)

theorem numlines_writeRW (v : Nat) (s : Driver) :
    (writeRW v s).numlines = s.numlines :=
  numlines_of_frame (frame_writeRW v s)

theorem numlines_writeEnable (v : Nat) (s : Driver) :
    (writeEnable v s).numlines = s.numlines :=
  numlines_of_frame (frame_writeEnable v s)

theorem numlines_command (v : Nat) (s : Driver) :
    (command v s).numlines = s.numlines :=
  numlines_of_frame (frame_command v s)

theorem numlines_backlight (s : Driver) :
    (backlight s).numlines = s.numlines :=
  numlines_of_frame (frame_backlight s)

theorem numlines_functionSet (s : Driver) :
    (functionSet s).numlines = s.numlines :=
  numlines_of_frame (frame_functionSet s)

theorem numlines_handshake4 (s : Driver) :
    (handshake4 s).numlines = s.numlines :=
  numlines_of_frame (frame_handshake4 s)

theorem numlines_handshake8 (s : Driver) :
    (handshake8 s).numlines = s.numlines :=
  numlines_of_frame (frame_handshake8 s)

theorem numlines_beginReset (s : Driver) :
    (beginReset s).numlines = s.numlines :=
  numlines_of_frame (frame_beginReset s)

theorem row_offsets_delayMicroseconds (us : Nat) (s : Driver) :
    (delayMicroseconds us s).row_offsets = s.row_offsets :=
  row_offsets_of_frame (frame_delayMicroseconds us s)

theorem row_offsets_wireBegin (s : Driver) :
    (wireBegin s).row_offsets = s.row_offsets :=
  row_offsets_of_frame (frame_wireBegin s)

theorem row_offsets_writeRegister (a v : Nat) (s : Driver) :
    (writeRegister a v s).row_offsets = s.row_offsets :=
  row_offsets_of_frame (frame_writeRegister a v s)

theorem row_offsets_writeRS (v : Nat) (s : Driver) :
    (writeRS v s).row_offsets = s.row_offsets :=
  row_offsets_of_frame (frame_writeRS v s)

theorem row_offsets_writeRW (v : Nat) (s : Driver) :
    (writeRW v s).row_offsets = s.row_offsets :=
  row_offsets_of_frame (frame_writeRW v s)

theorem row_offsets_writeEnable (v : Nat) (s : Driver) :
    (writeEnable v s).row_offsets = s.row_offsets :=
  row_offsets_of_frame (frame_writeEnable v s)

theorem row_offsets_command (v : Nat) (s : Driver) :
    (command v s).row_offsets = s.row_offsets :=
  row_offsets_of_frame (frame_command v s)

theorem row_offsets_backlight (s : Driver) :
    (backlight s).row_offsets = s.row_offsets :=
  row_offsets_of_frame (frame_backlight s)

theorem row_offsets_functionSet (s : Driver) :
    (functionSet s).row_offsets = s.row_offsets :=
  row_offsets_of_frame (frame_functionSet s)

theorem row_offsets_handshake4 (s : Driver) :
    (handshake4 s).row_offsets = s.row_offsets :=
  row_offsets_of_frame (frame_handshake4 s)

theorem row_offsets_handshake8 (s : Driver) :
    (handshake8 s).row_offsets = s.row_offsets :=
  row_offsets_of_frame (frame_handshake8 s)

theorem row_offsets_beginReset (s : Driver) :
    (beginReset s).row_offsets = s.row_offsets :=
  row_offsets_of_frame (frame_beginReset s)

/-! ## C1: the 4-bit handshake of `begin` -/

theorem writeDataPins_high_nibble (v w : Nat) (s : Driver)
    (h4 : (v >>> 4) &&& 0x01 = (w >>> 4) &&& 0x01) (h5 : (v >>> 5) &&& 0x01 = (w >>> 5) &&& 0x01)
    (h6 : (v >>> 6) &&& 0x01 = (w >>> 6) &&& 0x01) (h7 : (v >>> 7) &&& 0x01 = (w >>> 7) &&& 0x01) :
    writeDataPins v [4, 5, 6, 7] s = writeDataPins w [4, 5, 6, 7] s := by
  simp only [writeDataPins, List.foldl]
  have e4 : ((4 : Fin 8) : Nat) = 4 := rfl
  have e5 : ((5 : Fin 8) : Nat) = 5 := rfl
  have e6 : ((6 : Fin 8) : Nat) = 6 := rfl
  have e7 : ((7 : Fin 8) : Nat) = 7 := rfl
  rw [e4, e5, e6, e7, h4, h5, h6, h7]

/-- Only the bits 4..7 of its argument reach the wires in `write4bits`. -/
theorem write4bits_high_nibble (v w : Nat) (s : Driver)
    (h : v &&& 0xf0 = w &&& 0xf0)
    (h4 : (v >>> 4) &&& 0x01 = (w >>> 4) &&& 0x01) (h5 : (v >>> 5) &&& 0x01 = (w >>> 5) &&& 0x01)
    (h6 : (v >>> 6) &&& 0x01 = (w >>> 6) &&& 0x01) (h7 : (v >>> 7) &&& 0x01 = (w >>> 7) &&& 0x01) :
    write4bits v s = write4bits w s := by
  unfold write4bits
  rw [writeDataPins_high_nibble v w s h4 h5 h6 h7, h]

/-- C1 (defect of the code): in 4-bit mode the four handshake transfers of `begin` are
meant to present the nibbles 3, 3, 3, 2 on the lines D7..D4, but `write4bits` puts the
HIGH nibble of its argument on those lines and `begin` passes `0x03` and `0x02`: the
calls are the same as `write4bits(0x00)`, in every state and on both paths, and the
display wired to the consolidated instance `fast4` and to the scattered instance
`slow4` is presented with the nibble 0 at each of the first four enable pulses
(followed by the nibble pairs of the commands 0x28, 0x0C, 0x01, 0x06). -/
theorem begin_4bit_handshake_presents_zero :
    (∀ s : Driver, write4bits 0x03 s = write4bits 0x00 s ∧ write4bits 0x02 s = write4bits 0x00 s) ∧
    (∀ s : Driver, handshake4 s =
      (s |> write4bits 0x00 |> delayMicroseconds 4500 |> write4bits 0x00 |> delayMicroseconds 4500
         |> write4bits 0x00 |> delayMicroseconds 150 |> write4bits 0x00)) ∧
    fast4.data_port = MCP23017_GPIOB ∧ slow4.data_port = 0 ∧
    transfers (begin 16 2 LCD_5x8DOTS fast4) =
      [(0, 0), (0, 0), (0, 0), (0, 0), (0, 2), (0, 8), (0, 0), (0, 12), (0, 0), (0, 1), (0, 0), (0, 6)] ∧
    transfers (begin 16 2 LCD_5x8DOTS slow4) =
      [(0, 0), (0, 0), (0, 0), (0, 0), (0, 2), (0, 8), (0, 0), (0, 12), (0, 0), (0, 1), (0, 0), (0, 6)] := by
  have h3 : ∀ s : Driver, write4bits 0x03 s = write4bits 0x00 s := fun s =>
    write4bits_high_nibble 0x03 0x00 s (by decide) (by decide) (by decide) (by decide) (by decide)
  have h2 : ∀ s : Driver, write4bits 0x02 s = write4bits 0x00 s := fun s =>
    write4bits_high_nibble 0x02 0x00 s (by decide) (by decide) (by decide) (by decide) (by decide)
  refine ⟨fun s => ⟨h3 s, h2 s⟩, ?_, by decide, by decide, ?_, ?_⟩
  · intro s
    simp only [handshake4, h3, h2]
  · set_option maxRecDepth 100000 in decide
  · set_option maxRecDepth 100000 in decide

/-! ## C2: `begin(16, 1)` on an 8-bit instance with the data pins on port A -/

theorem displayfunction_delayMicroseconds (us : Nat) (s : Driver) :
    (delayMicroseconds us s).displayfunction = s.displayfunction :=
  displayfunction_of_frame (frame_delayMicroseconds us s)

theorem displayfunction_wireBegin (s : Driver) :
    (wireBegin s).displayfunction = s.displayfunction :=
  displayfunction_of_frame (frame_wireBegin s)

theorem displayfunction_writeRegister (a v : Nat) (s : Driver) :
    (writeRegister a v s).displayfunction = s.displayfunction :=
  displayfunction_of_frame (frame_writeRegister a v s)

theorem displayfunction_writeRS (v : Nat) (s : Driver) :
    (writeRS v s).displayfunction = s.displayfunction :=
  displayfunction_of_frame (frame_writeRS v s)

theorem displayfunction_writeRW (v : Nat) (s : Driver) :
    (writeRW v s).displayfunction = s.displayfunction :=
  displayfunction_of_frame (frame_writeRW v s)

theorem displayfunction_writeEnable (v : Nat) (s : Driver) :
    (writeEnable v s).displayfunction = s.displayfunction :=
  displayfunction_of_frame (frame_writeEnable v s)

theorem displayfunction_command (v : Nat) (s : Driver) :
    (command v s).displayfunction = s.displayfunction :=
  displayfunction_of_frame (frame_command v s)

theorem displayfunction_backlight (s : Driver) :
    (backlight s).displayfunction = s.displayfunction :=
  displayfunction_of_frame (frame_backlight s)

theorem displayfunction_functionSet (s : Driver) :
    (functionSet s).displayfunction = s.displayfunction :=
  displayfunction_of_frame (frame_functionSet s)

theorem displayfunction_handshake4 (s : Driver) :
    (handshake4 s).displayfunction = s.displayfunction :=
  displayfunction_of_frame (frame_handshake4 s)

theorem displayfunction_handshake8 (s : Driver) :
    (handshake8 s).displayfunction = s.displayfunction :=
  displayfunction_of_frame (frame_handshake8 s)

theorem displayfunction_beginReset (s : Driver) :
    (beginReset s).displayfunction = s.displayfunction :=
  displayfunction_of_frame (frame_beginReset s)

theorem digitalPinToPort_of_le {P : Nat} (h : P ≤ 0x00ff) :
    MCP23017_digitalPinToPort P = MCP23017_GPIOA := by
  unfold MCP23017_digitalPinToPort
  have h1 : P % 65536 = P := Nat.mod_eq_of_lt (by omega)
  rw [h1, if_neg (by omega)]

/-- In 8-bit mode with the data port consolidated, a transfer is: RS, then R/W low,
then ONE write of the byte to the data port, then the enable pulse. -/
theorem send_8bit_consolidated (b mode : Nat) (t : Driver)
    (h8 : t.displayfunction &&& LCD_8BITMODE ≠ 0) (hp : 0 ≠ t.data_port) :
    send b mode t =
      (t |> writeRS mode |> writeRW LOW |> writeRegister t.data_port b |> pulseEnable) := by
  have hf : (writeRW LOW (writeRS mode t)).frame = t.frame := by
    rw [frame_writeRW, frame_writeRS]
  unfold send write8bits
  dsimp only
  rw [displayfunction_of_frame hf, data_port_of_frame hf, if_pos h8, if_neg hp]

theorem init_8bit_portA (i2c_addr rs rw en bl d0 d1 d2 d3 d4 d5 d6 d7 : Nat) (s0 : Driver)
    (h0 : d0 ≤ 0x00ff) (h1 : d1 ≤ 0x00ff) (h2 : d2 ≤ 0x00ff) (h3 : d3 ≤ 0x00ff)
    (h4 : d4 ≤ 0x00ff) (h5 : d5 ≤ 0x00ff) (h6 : d6 ≤ 0x00ff) (h7 : d7 ≤ 0x00ff) :
    (init false i2c_addr rs rw en bl d0 d1 d2 d3 d4 d5 d6 d7 s0).data_port = MCP23017_GPIOA := by
  have e0 : dataPinsOf d0 d1 d2 d3 d4 d5 d6 d7 0 = d0 := rfl
  have e1 : dataPinsOf d0 d1 d2 d3 d4 d5 d6 d7 1 = d1 := rfl
  have e2 : dataPinsOf d0 d1 d2 d3 d4 d5 d6 d7 2 = d2 := rfl
  have e3 : dataPinsOf d0 d1 d2 d3 d4 d5 d6 d7 3 = d3 := rfl
  have e4 : dataPinsOf d0 d1 d2 d3 d4 d5 d6 d7 4 = d4 := rfl
  have e5 : dataPinsOf d0 d1 d2 d3 d4 d5 d6 d7 5 = d5 := rfl
  have e6 : dataPinsOf d0 d1 d2 d3 d4 d5 d6 d7 6 = d6 := rfl
  have e7 : dataPinsOf d0 d1 d2 d3 d4 d5 d6 d7 7 = d7 := rfl
  simp only [init, scanDataPort, e0, e1, e2, e3, e4, e5, e6, e7, digitalPinToPort_of_le h0,
    digitalPinToPort_of_le h1, digitalPinToPort_of_le h2, digitalPinToPort_of_le h3,
    digitalPinToPort_of_le h4, digitalPinToPort_of_le h5, digitalPinToPort_of_le h6,
    digitalPinToPort_of_le h7, ne_eq, not_true_eq_false, if_false, Bool.false_eq_true]

theorem functionSet_8bit (t : Driver) (h : t.displayfunction = 0x10) :
    functionSet t = command 0x30 t := by
  unfold functionSet
  rw [h]
  rfl

theorem negotiate_8bit (t : Driver) (h : t.displayfunction = 0x10) :
    negotiate t =
      (t |> command 0x30 |> delayMicroseconds 4500 |> command 0x30 |> delayMicroseconds 150
         |> command 0x30) := by
  have e : ¬ ¬ (t.displayfunction &&& LCD_8BITMODE ≠ 0) := by rw [h]; decide
  unfold negotiate handshake8
  rw [if_neg e, functionSet_8bit t h,
    functionSet_8bit (delayMicroseconds 4500 (command 0x30 t))
      (by rw [displayfunction_delayMicroseconds, displayfunction_command, h]),
    functionSet_8bit (delayMicroseconds 150 (command 0x30 (delayMicroseconds 4500 (command 0x30 t))))
      (by rw [displayfunction_delayMicroseconds, displayfunction_command,
        displayfunction_delayMicroseconds, displayfunction_command, h])]

theorem beginFinish_8bit (t : Driver) (h : t.displayfunction = 0x10) :
    beginFinish t =
      (t |> command 0x30
         |> (fun t => { t with displaycontrol := 0x04 })
         |> command 0x0C
         |> backlight
         |> command 0x01 |> delayMicroseconds 2000
         |> (fun t => { t with displaymode := 0x02 })
         |> command 0x06) := by
  unfold beginFinish
  rw [functionSet_8bit t h]
  simp only [display, clear]
  rfl

/-- On an 8-bit driver whose function flags are 0x10, `begin(16, 1)` as the sequence
of its calls. -/
theorem begin_8bit_eq (s : Driver) (hs : s.displayfunction = 0x10) :
    begin 16 1 LCD_5x8DOTS s =
      (s
        |> (fun t => { t with numlines := 1 })
        |> setRowOffsets 0x00 0x40 16 0x50
        |> wireBegin
        |> writeRegister MCP23017_IODIRA 0x00 |> writeRegister MCP23017_IODIRB 0x00
        |> writeRegister MCP23017_GPIOA 0x00 |> writeRegister MCP23017_GPIOB 0x00
        |> delayMicroseconds 50000
        |> writeRS LOW |> writeEnable LOW |> writeRW LOW
        |> command 0x30 |> delayMicroseconds 4500
        |> command 0x30 |> delayMicroseconds 150
        |> command 0x30
        |> command 0x30
        |> (fun t => { t with displaycontrol := 0x04 })
        |> command 0x0C
        |> backlight
        |> command 0x01 |> delayMicroseconds 2000
        |> (fun t => { t with displaymode := 0x02 })
        |> command 0x06) := by
  have hc : beginConfig 16 1 LCD_5x8DOTS s
      = setRowOffsets 0x00 0x40 16 0x50 { s with numlines := 1 } := rfl
  have h1 : (setRowOffsets 0x00 0x40 16 0x50 { s with numlines := 1 }).displayfunction
      = 0x10 := hs
  have h2 : (beginReset (setRowOffsets 0x00 0x40 16 0x50 { s with numlines := 1 })).displayfunction
      = 0x10 := by
    rw [displayfunction_of_frame (frame_beginReset _)]
    exact h1
  have h3 : (negotiate (beginReset
      (setRowOffsets 0x00 0x40 16 0x50 { s with numlines := 1 }))).displayfunction = 0x10 := by
    rw [negotiate_8bit _ h2]
    simp only [displayfunction_delayMicroseconds, displayfunction_command]
    exact h2
  unfold begin
  rw [hc, beginFinish_8bit _ h3, negotiate_8bit _ h2]
  rfl

/-- C2 (counterexample): on the 8-bit instance `portA8`, whose eight data pins are
PA0..PA7, the bytes that `begin(16, 1)` transfers with RS low are 0x30 FOUR times and
then 0x0C, 0x01, 0x06: not the six bytes of the claim. -/
theorem begin_8bit_three_function_sets_refuted :
    portA8.data_port = MCP23017_GPIOA ∧
    commandBytes (begin 16 1 LCD_5x8DOTS portA8) = [0x30, 0x30, 0x30, 0x30, 0x0C, 0x01, 0x06] ∧
    ¬ (commandBytes (begin 16 1 LCD_5x8DOTS portA8) = [0x30, 0x30, 0x30, 0x0C, 0x01, 0x06]) := by
  set_option maxRecDepth 100000 in decide

/-! ## C3: `send` in 4-bit and in 8-bit mode -/

theorem nibbles_reassemble : ∀ v : Nat, v < 256 →
    ((v &&& 0xf0) &&& 0xF0) ||| ((((v <<< 4) % 256) &&& 0xF0) >>> 4) = v := by
  set_option maxRecDepth 100000 in decide

/-- C3: `send(v, mode)` sets RS to `mode` and R/W low and then, on a 4-bit instance,
performs exactly two `write4bits` transfers, the first with `v & 0xF0` and the second
with `(v << 4) mod 256`, from which `v` is recovered as
`(first & 0xF0) | ((second & 0xF0) >> 4)`; on an 8-bit instance it performs exactly one
`write8bits(v)`.  On the wires of the 4-bit instance `fast4`, after `begin(16, 2)`,
`send(0xA5, HIGH)` presents the nibbles 0xA and 0x5 with RS high. -/
theorem send_transfers (v mode : Nat) (s : Driver) (hv : v < 256) :
    send v mode s =
      (if s.displayfunction &&& LCD_8BITMODE ≠ 0 then
        (s |> writeRS mode |> writeRW LOW |> write8bits v)
      else
        (s |> writeRS mode |> writeRW LOW
           |> write4bits (v &&& 0xF0) |> write4bits ((v <<< 4) % 256))) ∧
    ((v &&& 0xF0) &&& 0xF0) ||| ((((v <<< 4) % 256) &&& 0xF0) >>> 4) = v ∧
    transfers (send 0xA5 HIGH (begin 16 2 LCD_5x8DOTS fast4)) =
      transfers (begin 16 2 LCD_5x8DOTS fast4) ++ [(1, 0xA), (1, 0x5)] := by
  refine ⟨?_, nibbles_reassemble v hv, ?_⟩
  · unfold send
    dsimp only
    rw [displayfunction_writeRW, displayfunction_writeRS]
  · set_option maxRecDepth 100000 in decide

/-- Witness of C3: the byte 0xA5 sent as data on the 4-bit instance `fast4`. -/
theorem send_transfers_witness :
    0xA5 < 256 ∧
    send 0xA5 HIGH fast4 =
      (if fast4.displayfunction &&& LCD_8BITMODE ≠ 0 then
        (fast4 |> writeRS HIGH |> writeRW LOW |> write8bits 0xA5)
      else
        (fast4 |> writeRS HIGH |> writeRW LOW
           |> write4bits (0xA5 &&& 0xF0) |> write4bits ((0xA5 <<< 4) % 256))) ∧
    ((0xA5 &&& 0xF0) &&& 0xF0) ||| ((((0xA5 <<< 4) % 256) &&& 0xF0) >>> 4) = 0xA5 :=
  ⟨by decide, (send_transfers 0xA5 HIGH fast4 (by decide)).1,
    (send_transfers 0xA5 HIGH fast4 (by decide)).2.1⟩

/-! ## C4, C5: `setCursor` -/

theorem setCursor_eq (col row : Nat) (s : Driver) (i : Fin 4)
    (hr : cursorRow s.numlines row = i.val) :
    setCursor col row s =
      some (command ((LCD_SETDDRAMADDR ||| (col + s.row_offsets i)) % 256) s) := by
  have h4 : cursorRow s.numlines row < 4 := by
    rw [hr]
    exact i.isLt
  have hi : (⟨cursorRow s.numlines row, h4⟩ : Fin 4) = i := Fin.ext hr
  unfold setCursor
  rw [dif_pos h4, hi]

theorem cursorRow_of_four_le (n row : Nat) (hrow : 4 ≤ row) (hn : 1 ≤ n) :
    cursorRow n row = min 3 (n - 1) := by
  unfold cursorRow
  dsimp only
  rw [if_pos hrow]
  split_ifs <;> omega

theorem cursorRow_of_le_four (n row : Nat) (h1 : 1 ≤ n) (h4 : n ≤ 4) :
    cursorRow n row = min row (n - 1) := by
  unfold cursorRow
  dsimp only
  split_ifs <;> omega

/-- C4 (as amended): for every `col`, every `row ≥ 4` and every configured line count
`numLines ≥ 1`, `setCursor(col, row)` clamps the row to `min(numLines - 1, 3)`: it is
exactly the command `(0x80 | (col + rowOffsets[min(numLines - 1, 3)])) mod 256`; the
offset is `rowOffsets[3]` when `numLines ≥ 4`. -/
theorem setCursor_row_ge_four (col row : Nat) (s : Driver) (hrow : 4 ≤ row)
    (hn : 1 ≤ s.numlines) :
    setCursor col row s =
      some (command ((0x80 ||| (col + s.row_offsets (rowIndex (s.numlines - 1)))) % 256) s) ∧
    (4 ≤ s.numlines → rowIndex (s.numlines - 1) = 3) := by
  refine ⟨setCursor_eq col row s (rowIndex (s.numlines - 1)) ?_, fun h => Fin.ext ?_⟩
  · rw [cursorRow_of_four_le _ _ hrow hn]
    exact Nat.min_comm _ _
  · show min (s.numlines - 1) 3 = 3
    omega

theorem frame_negotiate (s : Driver) : (negotiate s).frame = s.frame := by
  unfold negotiate
  split_ifs <;> simp only [frame_handshake4, frame_handshake8]

theorem numlines_beginFinish (s : Driver) : (beginFinish s).numlines = s.numlines := by
  simp only [beginFinish, display, clear, numlines_command, numlines_delayMicroseconds,
    numlines_backlight, numlines_functionSet]

theorem row_offsets_beginFinish (s : Driver) : (beginFinish s).row_offsets = s.row_offsets := by
  simp only [beginFinish, display, clear, row_offsets_command, row_offsets_delayMicroseconds,
    row_offsets_backlight, row_offsets_functionSet]

theorem displayfunction_beginFinish (s : Driver) :
    (beginFinish s).displayfunction = s.displayfunction := by
  simp only [beginFinish, display, clear, displayfunction_command,
    displayfunction_delayMicroseconds, displayfunction_backlight, displayfunction_functionSet]

theorem numlines_begin (cols lines dotsize : Nat) (s : Driver) :
    (begin cols lines dotsize s).numlines = lines := by
  unfold begin
  rw [numlines_beginFinish, numlines_of_frame (frame_negotiate _),
    numlines_of_frame (frame_beginReset _)]
  unfold beginConfig
  dsimp only
  split_ifs <;> rfl

theorem row_offsets_begin (cols lines dotsize : Nat) (s : Driver) :
    (begin cols lines dotsize s).row_offsets =
      fun i => [0x00 % 256, 0x40 % 256, (0x00 + cols) % 256, (0x40 + cols) % 256].getD i.val 0 := by
  unfold begin
  rw [row_offsets_beginFinish, row_offsets_of_frame (frame_negotiate _),
    row_offsets_of_frame (frame_beginReset _)]
  unfold beginConfig
  dsimp only
  split_ifs <;> rfl

/-- Witness of C4 (amended): row 7 on the two-line display driven by `fast4`. -/
theorem setCursor_row_ge_four_witness :
    4 ≤ 7 ∧ 1 ≤ (begin 16 2 LCD_5x8DOTS fast4).numlines ∧
    setCursor 5 7 (begin 16 2 LCD_5x8DOTS fast4) =
      some (command ((0x80 ||| (5 + (begin 16 2 LCD_5x8DOTS fast4).row_offsets
        (rowIndex ((begin 16 2 LCD_5x8DOTS fast4).numlines - 1)))) % 256)
        (begin 16 2 LCD_5x8DOTS fast4)) := by
  have h1 : 1 ≤ (begin 16 2 LCD_5x8DOTS fast4).numlines := by
    rw [numlines_begin]
    decide
  have h4 : 4 ≤ 7 := by decide
  exact ⟨h4, h1, (setCursor_row_ge_four 5 7 (begin 16 2 LCD_5x8DOTS fast4) h4 h1).left⟩

/-- C4 (counterexample): after `begin(16, 2)` on `fast4` the configured line count is 2
and `rowOffsets[3]` is 0x50, yet `setCursor(0, 4)` is the command 0xC0, built from
`rowOffsets[1] = 0x40`: the display receives the nibbles 0xC, 0x0 after those of
`begin`, whereas the command `0x80 | (0 + rowOffsets[3]) = 0xD0` of the claim would
present 0xD, 0x0. -/
theorem setCursor_row_four_not_clamped_to_three :
    (begin 16 2 LCD_5x8DOTS fast4).numlines = 2 ∧
    (begin 16 2 LCD_5x8DOTS fast4).row_offsets 3 = 0x50 ∧
    (begin 16 2 LCD_5x8DOTS fast4).row_offsets 1 = 0x40 ∧
    setCursor 0 4 (begin 16 2 LCD_5x8DOTS fast4)
      = some (command 0xC0 (begin 16 2 LCD_5x8DOTS fast4)) ∧
    transfers (command 0xC0 (begin 16 2 LCD_5x8DOTS fast4)) =
      transfers (begin 16 2 LCD_5x8DOTS fast4) ++ [(0, 0xC), (0, 0x0)] ∧
    transfers (command (0x80 ||| (0 + 0x50)) (begin 16 2 LCD_5x8DOTS fast4)) =
      transfers (begin 16 2 LCD_5x8DOTS fast4) ++ [(0, 0xD), (0, 0x0)] := by
  have hn := numlines_begin 16 2 LCD_5x8DOTS fast4
  have ho := row_offsets_begin 16 2 LCD_5x8DOTS fast4
  refine ⟨hn, by rw [ho]; rfl, by rw [ho]; rfl, ?_, ?_, ?_⟩
  · rw [setCursor_eq 0 4 _ 1 (by rw [hn]; rfl), ho]
    rfl
  · set_option maxRecDepth 100000 in decide
  · set_option maxRecDepth 100000 in decide

/-- C5: after `begin(cols, lines)` with `1 ≤ lines ≤ 4`, for every `col` and `row`,
`setCursor(col, row)` is exactly one command, whose byte is
`(0x80 | (col + off[r])) mod 256` with `off = [0x00, 0x40, cols, 0x40 + cols]` (each
mod 256) and `r = min(row, lines - 1)`. -/
theorem setCursor_after_begin (cols lines dotsize col row : Nat) (s : Driver)
    (h1 : 1 ≤ lines) (h4 : lines ≤ 4) :
    setCursor col row (begin cols lines dotsize s) =
      some (command
        ((0x80 ||| (col + [0x00, 0x40, cols % 256, (0x40 + cols) % 256].getD
          (min row (lines - 1)) 0)) % 256)
        (begin cols lines dotsize s)) := by
  have hn := numlines_begin cols lines dotsize s
  have hr : cursorRow (begin cols lines dotsize s).numlines row = min row (lines - 1) := by
    rw [hn]
    exact cursorRow_of_le_four lines row h1 h4
  have hlt : min row (lines - 1) < 4 := by omega
  rw [setCursor_eq col row _ ⟨min row (lines - 1), hlt⟩ hr, row_offsets_begin]
  simp only [Nat.zero_mod, Nat.zero_add, Nat.reduceMod]

/-- Witness of C5: a 20x4 display driven by `fast4`, cursor sent to row 9. -/
theorem setCursor_after_begin_witness :
    1 ≤ 4 ∧ 4 ≤ 4 ∧
    setCursor 3 9 (begin 20 4 LCD_5x8DOTS fast4) =
      some (command
        ((0x80 ||| (3 + [0x00, 0x40, 20 % 256, (0x40 + 20) % 256].getD (min 9 (4 - 1)) 0)) % 256)
        (begin 20 4 LCD_5x8DOTS fast4)) :=
  ⟨by decide, by decide, setCursor_after_begin 20 4 LCD_5x8DOTS 3 9 fast4 (by decide) (by decide)⟩

/-! ## C6: a pin written HIGH and then LOW -/

theorem testBit_of_lt_256 {x i : Nat} (hx : x < 256) (hi : 8 ≤ i) : x.testBit i = false := by
  apply Nat.testBit_lt_two_pow
  calc x < 2 ^ 8 := hx
    _ ≤ 2 ^ i := Nat.pow_le_pow_right (by decide) hi

theorem testBit_not8 (m i : Nat) : (not8 m).testBit i = (decide (i < 8) ^^ m.testBit i) := by
  have h : (0xFF : Nat) = 2 ^ 8 - 1 := by decide
  unfold not8
  rw [Nat.testBit_xor, h, Nat.testBit_two_pow_sub_one]

theorem or_and_not8 (a m : Nat) (hm : m < 256) : (a ||| m) &&& not8 m = a &&& not8 m := by
  apply Nat.eq_of_testBit_eq
  intro i
  rw [Nat.testBit_and, Nat.testBit_and, Nat.testBit_or, testBit_not8]
  by_cases hi : i < 8
  · cases a.testBit i <;> cases m.testBit i <;> simp [hi]
  · rw [testBit_of_lt_256 hm (by omega)]
    simp

theorem and_not8_of_disjoint (a m : Nat) (ha : a < 256) (h : a &&& m = 0) :
    a &&& not8 m = a := by
  apply Nat.eq_of_testBit_eq
  intro i
  have hb : (a &&& m).testBit i = false := by
    rw [h]
    exact Nat.zero_testBit i
  rw [Nat.testBit_and] at hb
  rw [Nat.testBit_and, testBit_not8]
  by_cases hi : i < 8
  · revert hb
    cases a.testBit i <;> cases m.testBit i <;> simp [hi]
  · rw [testBit_of_lt_256 ha (by omega)]
    simp

theorem disjoint_of_and_not8 (a m : Nat) (ha : a < 256) (h : a &&& not8 m = a) :
    a &&& m = 0 := by
  apply Nat.eq_of_testBit_eq
  intro i
  have hb : (a &&& not8 m).testBit i = a.testBit i := by rw [h]
  rw [Nat.testBit_and, testBit_not8] at hb
  rw [Nat.testBit_and, Nat.zero_testBit]
  by_cases hi : i < 8
  · revert hb
    cases a.testBit i <;> cases m.testBit i <;> simp [hi]
  · rw [testBit_of_lt_256 ha (by omega)]
    simp

theorem gpioa_writeRegister (a v : Nat) (s : Driver) :
    (writeRegister a v s).gpioa_value = s.gpioa_value := by
  unfold writeRegister
  dsimp only
  split_ifs <;> rfl

theorem gpiob_writeRegister (a v : Nat) (s : Driver) :
    (writeRegister a v s).gpiob_value = s.gpiob_value := by
  unfold writeRegister
  dsimp only
  split_ifs <;> rfl

/-- The shadow byte of port A after `writePin`. -/
theorem gpioa_writePin (pin v : Nat) (s : Driver) :
    (writePin pin v s).gpioa_value =
      if MCP23017_GPIOA = MCP23017_digitalPinToPort pin then
        (if v ≠ 0 then s.gpioa_value ||| (MCP23017_digitalPinToBitMask pin % 256)
         else s.gpioa_value &&& not8 (MCP23017_digitalPinToBitMask pin % 256))
      else s.gpioa_value := by
  unfold writePin
  dsimp only
  by_cases hp : MCP23017_GPIOA = MCP23017_digitalPinToPort pin <;>
    by_cases hv : v = 0 <;>
    simp only [hp, hv, ne_eq, not_true_eq_false, not_false_eq_true, if_true, if_false,
      gpioa_writeRegister]

/-- The shadow byte of port B after `writePin`. -/
theorem gpiob_writePin (pin v : Nat) (s : Driver) :
    (writePin pin v s).gpiob_value =
      if MCP23017_GPIOA = MCP23017_digitalPinToPort pin then s.gpiob_value
      else
        (if v ≠ 0 then s.gpiob_value ||| (MCP23017_digitalPinToBitMask pin % 256)
         else s.gpiob_value &&& not8 (MCP23017_digitalPinToBitMask pin % 256)) := by
  unfold writePin
  dsimp only
  by_cases hp : MCP23017_GPIOA = MCP23017_digitalPinToPort pin <;>
    by_cases hv : v = 0 <;>
    simp only [hp, hv, ne_eq, not_true_eq_false, not_false_eq_true, if_true, if_false,
      gpiob_writeRegister]

/-- C6 (as amended): for every pin and every shadow state, `writePin(pin, HIGH)`
followed by `writePin(pin, LOW)` leaves the shadow byte of the other port unchanged and
the shadow byte of the pin's port equal to its previous value with the pin's bit
cleared; that byte is restored bit for bit exactly when the pin's bit was low before
the two writes. -/
theorem writePin_high_low (pin : Nat) (s : Driver)
    (ha : s.gpioa_value < 256) (hb : s.gpiob_value < 256) :
    (MCP23017_GPIOA = MCP23017_digitalPinToPort pin →
      (writePin pin LOW (writePin pin HIGH s)).gpioa_value
        = s.gpioa_value &&& not8 (MCP23017_digitalPinToBitMask pin % 256) ∧
      (writePin pin LOW (writePin pin HIGH s)).gpiob_value = s.gpiob_value ∧
      ((writePin pin LOW (writePin pin HIGH s)).gpioa_value = s.gpioa_value ↔
        s.gpioa_value &&& (MCP23017_digitalPinToBitMask pin % 256) = 0)) ∧
    (MCP23017_GPIOA ≠ MCP23017_digitalPinToPort pin →
      (writePin pin LOW (writePin pin HIGH s)).gpiob_value
        = s.gpiob_value &&& not8 (MCP23017_digitalPinToBitMask pin % 256) ∧
      (writePin pin LOW (writePin pin HIGH s)).gpioa_value = s.gpioa_value ∧
      ((writePin pin LOW (writePin pin HIGH s)).gpiob_value = s.gpiob_value ↔
        s.gpiob_value &&& (MCP23017_digitalPinToBitMask pin % 256) = 0)) := by
  have hm : MCP23017_digitalPinToBitMask pin % 256 < 256 := Nat.mod_lt _ (by decide)
  have h1 : (HIGH : Nat) ≠ 0 := by decide
  have h0 : ¬ ((LOW : Nat) ≠ 0) := by decide
  constructor
  · intro hp
    have ea : (writePin pin LOW (writePin pin HIGH s)).gpioa_value
        = s.gpioa_value &&& not8 (MCP23017_digitalPinToBitMask pin % 256) := by
      rw [gpioa_writePin, gpioa_writePin]
      simp only [if_pos hp, if_pos h1, if_neg h0]
      exact or_and_not8 _ _ hm
    have eb : (writePin pin LOW (writePin pin HIGH s)).gpiob_value = s.gpiob_value := by
      rw [gpiob_writePin, gpiob_writePin]
      simp only [if_pos hp]
    refine ⟨ea, eb, ?_⟩
    rw [ea]
    exact ⟨disjoint_of_and_not8 _ _ ha, and_not8_of_disjoint _ _ ha⟩
  · intro hp
    have eb : (writePin pin LOW (writePin pin HIGH s)).gpiob_value
        = s.gpiob_value &&& not8 (MCP23017_digitalPinToBitMask pin % 256) := by
      rw [gpiob_writePin, gpiob_writePin]
      simp only [if_neg hp, if_pos h1, if_neg h0]
      exact or_and_not8 _ _ hm
    have ea : (writePin pin LOW (writePin pin HIGH s)).gpioa_value = s.gpioa_value := by
      rw [gpioa_writePin, gpioa_writePin]
      simp only [if_neg hp]
    refine ⟨eb, ea, ?_⟩
    rw [eb]
    exact ⟨disjoint_of_and_not8 _ _ hb, and_not8_of_disjoint _ _ hb⟩

/-- Witness of C6 (amended): the enable pin PA5 on the freshly constructed `fast4`. -/
theorem writePin_high_low_witness :
    fast4.gpioa_value < 256 ∧ fast4.gpiob_value < 256 ∧
    (MCP23017_GPIOA = MCP23017_digitalPinToPort MCP23017_PA5 →
      (writePin MCP23017_PA5 LOW (writePin MCP23017_PA5 HIGH fast4)).gpioa_value
        = fast4.gpioa_value &&& not8 (MCP23017_digitalPinToBitMask MCP23017_PA5 % 256) ∧
      (writePin MCP23017_PA5 LOW (writePin MCP23017_PA5 HIGH fast4)).gpiob_value
        = fast4.gpiob_value ∧
      ((writePin MCP23017_PA5 LOW (writePin MCP23017_PA5 HIGH fast4)).gpioa_value
          = fast4.gpioa_value ↔
        fast4.gpioa_value &&& (MCP23017_digitalPinToBitMask MCP23017_PA5 % 256) = 0)) :=
  ⟨by decide, by decide, (writePin_high_low MCP23017_PA5 fast4 (by decide) (by decide)).1⟩

/-- C6 (counterexample): after `begin(16, 2)` on `fast4` the backlight pin PA1 is high
and the shadow byte of port A is 0x02; writing PA1 HIGH and then LOW leaves it 0x00. -/
theorem writePin_high_low_not_restored :
    (begin 16 2 LCD_5x8DOTS fast4).gpioa_value = 0x02 ∧
    (writePin MCP23017_PA1 LOW
      (writePin MCP23017_PA1 HIGH (begin 16 2 LCD_5x8DOTS fast4))).gpioa_value = 0x00 ∧
    (writePin MCP23017_PA1 LOW
      (writePin MCP23017_PA1 HIGH (begin 16 2 LCD_5x8DOTS fast4))).gpioa_value
      ≠ (begin 16 2 LCD_5x8DOTS fast4).gpioa_value := by
  set_option maxRecDepth 100000 in decide

/-! ## C7: `createChar` -/

/-- C7: for every slot and every 8-byte glyph, `createChar(slot, glyph)` is exactly one
command transfer (`send` with RS low) of the byte `0x40 | ((slot & 7) << 3)` followed
by exactly eight data transfers (`write`, that is `send` with RS high) of `glyph[0]`,
..., `glyph[7]` in array order; for slot 2 the command byte is `0x40 | 0x10`.  On the
wires of the 8-bit instance `portA8`, after `begin(16, 1)`, `createChar(2, boxGlyph)`
presents the byte 0x50 with RS low and then the eight glyph bytes with RS high. -/
theorem createChar_sequence (location : Nat) (charmap : Fin 8 → Nat) (s : Driver) :
    createChar location charmap s =
      (s |> send (0x40 ||| ((location &&& 7) <<< 3)) LOW
         |> send (charmap 0) HIGH |> send (charmap 1) HIGH
         |> send (charmap 2) HIGH |> send (charmap 3) HIGH
         |> send (charmap 4) HIGH |> send (charmap 5) HIGH
         |> send (charmap 6) HIGH |> send (charmap 7) HIGH) ∧
    (∀ (v : Nat) (t : Driver), write v t = (1, send v HIGH t)) ∧
    (∀ (v : Nat) (t : Driver), command v t = send v LOW t) ∧
    0x40 ||| ((2 &&& 7) <<< 3) = 0x40 ||| 0x10 ∧
    transfers (createChar 2 boxGlyph (begin 16 1 LCD_5x8DOTS portA8)) =
      transfers (begin 16 1 LCD_5x8DOTS portA8) ++
        [(0, 0x50), (1, 0x1F), (1, 0x11), (1, 0x11), (1, 0x11), (1, 0x11), (1, 0x11),
          (1, 0x11), (1, 0x1F)] := by
  refine ⟨rfl, fun _ _ => rfl, fun _ _ => rfl, by decide, ?_⟩
  set_option maxRecDepth 100000 in decide

/-! ## C10: the function flags after `begin` -/

theorem displayfunction_beginConfig (cols lines dotsize : Nat) (s : Driver) :
    (beginConfig cols lines dotsize s).displayfunction =
      if dotsize ≠ LCD_5x8DOTS ∧ lines = 1 then
        (if lines > 1 then s.displayfunction ||| LCD_2LINE else s.displayfunction) ||| LCD_5x10DOTS
      else (if lines > 1 then s.displayfunction ||| LCD_2LINE else s.displayfunction) := by
  unfold beginConfig setRowOffsets
  dsimp only
  split_ifs <;> rfl

theorem displayfunction_init (fourbitmode : Bool)
    (i2c_addr rs rw en bl d0 d1 d2 d3 d4 d5 d6 d7 : Nat) (s0 : Driver) :
    (init fourbitmode i2c_addr rs rw en bl d0 d1 d2 d3 d4 d5 d6 d7 s0).displayfunction =
      if fourbitmode then 0x00 else 0x10 := by
  cases fourbitmode <;> rfl

/-- C10: for a freshly constructed instance and every `cols`, `lines` and `dotsize`,
after `begin(cols, lines, dotsize)` the function flags are
`(0x10 if 8-bit else 0) | (0x08 if lines > 1 else 0) | (0x04 if dotsize ≠ 5x8 and
lines = 1 else 0)`. -/
theorem begin_displayfunction (fourbitmode : Bool)
    (i2c_addr rs rw en bl d0 d1 d2 d3 d4 d5 d6 d7 cols lines dotsize : Nat) (s0 : Driver) :
    (begin cols lines dotsize
      (init fourbitmode i2c_addr rs rw en bl d0 d1 d2 d3 d4 d5 d6 d7 s0)).displayfunction =
      (if fourbitmode then 0x00 else 0x10) |||
      (if lines > 1 then 0x08 else 0x00) |||
      (if dotsize ≠ LCD_5x8DOTS ∧ lines = 1 then 0x04 else 0x00) := by
  unfold begin
  rw [displayfunction_beginFinish, displayfunction_of_frame (frame_negotiate _),
    displayfunction_of_frame (frame_beginReset _)]
  rw [displayfunction_beginConfig, displayfunction_init]
  cases fourbitmode <;> simp only [Bool.false_eq_true, if_false, if_true] <;>
    split_ifs <;> decide

/-! ## C9: which registers are written -/

theorem trace_writeRegister (a v : Nat) (s : Driver) :
    (writeRegister a v s).trace = s.trace ++ [Event.tx s.i2c_addr a v] := by
  unfold writeRegister
  dsimp only
  split_ifs <;> rfl

theorem GpioStep.refl (s : Driver) : GpioStep s s :=
  fun _ => ⟨rfl, rfl, [], (List.append_nil _).symm, fun _ h => absurd h (List.not_mem_nil _)⟩

theorem GpioStep.trans {s t u : Driver} (h1 : GpioStep s t) (h2 : GpioStep t u) :
    GpioStep s u := by
  intro hv
  obtain ⟨hp1, ha1, new1, ht1, hn1⟩ := h1 hv
  obtain ⟨hp2, ha2, new2, ht2, hn2⟩ := h2 (by rw [hp1]; exact hv)
  refine ⟨hp2.trans hp1, ha2.trans ha1, new1 ++ new2, ?_, ?_⟩
  · rw [ht2, ht1, List.append_assoc]
  · intro e he
    rcases List.mem_append.1 he with h | h
    · exact hn1 e h
    · have h3 := hn2 e h
      rw [ha1] at h3
      exact h3

/-- A step that keeps the frame and appends nothing or only good events. -/
theorem GpioStep.of_frame {s t : Driver} (hf : t.frame = s.frame) (new : List Event)
    (ht : t.trace = s.trace ++ new) (hn : ∀ e ∈ new, e.gpioOnly s.i2c_addr) : GpioStep s t :=
  fun _ => ⟨data_port_of_frame hf, i2c_addr_of_frame hf, new, ht, hn⟩

theorem gpio_delayMicroseconds (us : Nat) (s : Driver) : GpioStep s (delayMicroseconds us s) :=
  GpioStep.of_frame rfl [Event.delay us] rfl (by
    intro e he
    rw [List.mem_singleton] at he
    subst he
    exact True.intro)

theorem gpio_writeRegister (a v : Nat) (s : Driver)
    (ha : a = MCP23017_GPIOA ∨ a = MCP23017_GPIOB) : GpioStep s (writeRegister a v s) :=
  GpioStep.of_frame (frame_writeRegister a v s) [Event.tx s.i2c_addr a v]
    (trace_writeRegister a v s) (by
    intro e he
    rw [List.mem_singleton] at he
    subst he
    exact ⟨rfl, ha⟩)

theorem digitalPinToPort_cases (pin : Nat) :
    MCP23017_digitalPinToPort pin = MCP23017_GPIOA ∨
    MCP23017_digitalPinToPort pin = MCP23017_GPIOB := by
  unfold MCP23017_digitalPinToPort
  split_ifs
  · exact Or.inr rfl
  · exact Or.inl rfl

/-- The one transaction of `writePin`: the register of the pin's port and the new
shadow byte of that port. -/
theorem trace_writePin (pin v : Nat) (s : Driver) :
    (writePin pin v s).trace = s.trace ++
      [Event.tx s.i2c_addr (MCP23017_digitalPinToPort pin)
        (if MCP23017_GPIOA = MCP23017_digitalPinToPort pin then (writePin pin v s).gpioa_value
         else (writePin pin v s).gpiob_value)] := by
  rw [gpioa_writePin, gpiob_writePin]
  unfold writePin
  dsimp only
  by_cases hp : MCP23017_GPIOA = MCP23017_digitalPinToPort pin <;>
    by_cases hv : v = 0 <;>
    simp only [hp, hv, ne_eq, not_true_eq_false, not_false_eq_true, if_true, if_false,
      trace_writeRegister]

theorem gpio_writePin (pin v : Nat) (s : Driver) : GpioStep s (writePin pin v s) :=
  GpioStep.of_frame (frame_writePin pin v s) _ (trace_writePin pin v s) (by
    intro e he
    rw [List.mem_singleton] at he
    subst he
    exact ⟨rfl, digitalPinToPort_cases pin⟩)

theorem gpio_writeRS (v : Nat) (s : Driver) : GpioStep s (writeRS v s) := gpio_writePin _ _ _

theorem gpio_writeRW (v : Nat) (s : Driver) : GpioStep s (writeRW v s) := gpio_writePin _ _ _

theorem gpio_writeEnable (v : Nat) (s : Driver) : GpioStep s (writeEnable v s) :=
  gpio_writePin _ _ _

theorem gpio_pulseEnable (s : Driver) : GpioStep s (pulseEnable s) := by
  unfold pulseEnable
  exact (((((gpio_writeEnable LOW s).trans (gpio_delayMicroseconds 1 _)).trans
    (gpio_writeEnable HIGH _)).trans (gpio_delayMicroseconds 1 _)).trans
    (gpio_writeEnable LOW _)).trans (gpio_delayMicroseconds 100 _)

theorem gpio_writeDataPins (v : Nat) (idx : List (Fin 8)) (s : Driver) :
    GpioStep s (writeDataPins v idx s) := by
  induction idx generalizing s with
  | nil => exact GpioStep.refl s
  | cons i rest ih =>
    exact (gpio_writePin (s.data_pins i) ((v >>> i.val) &&& 0x01) s).trans (ih _)

/-- A member assignment that touches neither the wiring nor the trace. -/
theorem GpioStep.of_eq {s t : Driver} (hp : t.data_port = s.data_port)
    (ha : t.i2c_addr = s.i2c_addr) (ht : t.trace = s.trace) : GpioStep s t :=
  fun _ => ⟨hp, ha, [], by rw [ht, List.append_nil], fun _ h => absurd h (List.not_mem_nil _)⟩

theorem gpio_write4bits (v : Nat) (s : Driver) : GpioStep s (write4bits v s) := by
  intro hv
  have key : GpioStep s (write4bits v s) := by
    unfold write4bits
    dsimp only
    split_ifs with h0 hA
    · exact (gpio_writeDataPins v _ s).trans (gpio_pulseEnable _)
    · refine GpioStep.trans ?_ (gpio_pulseEnable _)
      refine GpioStep.trans (GpioStep.of_eq (t := { s with gpioa_value :=
        (s.gpioa_value &&& 0x0f) ||| (v &&& 0xf0) }) rfl rfl rfl) ?_
      exact gpio_writeRegister _ _ _ (Or.inl hA.symm)
    · refine GpioStep.trans ?_ (gpio_pulseEnable _)
      refine GpioStep.trans (GpioStep.of_eq (t := { s with gpiob_value :=
        (s.gpiob_value &&& 0x0f) ||| (v &&& 0xf0) }) rfl rfl rfl) ?_
      refine gpio_writeRegister _ _ _ (Or.inr ?_)
      rcases hv with h | h | h
      · exact absurd h.symm h0
      · exact absurd h.symm hA
      · exact h
  exact key hv

theorem gpio_write8bits (v : Nat) (s : Driver) : GpioStep s (write8bits v s) := by
  intro hv
  have key : GpioStep s (write8bits v s) := by
    unfold write8bits
    dsimp only
    split_ifs with h0
    · exact (gpio_writeDataPins v _ s).trans (gpio_pulseEnable _)
    · refine GpioStep.trans ?_ (gpio_pulseEnable _)
      refine gpio_writeRegister _ _ _ ?_
      rcases hv with h | h | h
      · exact absurd h.symm h0
      · exact Or.inl h
      · exact Or.inr h
  exact key hv

theorem gpio_send (v m : Nat) (s : Driver) : GpioStep s (send v m s) := by
  unfold send
  dsimp only
  split_ifs
  · exact ((gpio_writeRS m s).trans (gpio_writeRW LOW _)).trans (gpio_write8bits v _)
  · exact (((gpio_writeRS m s).trans (gpio_writeRW LOW _)).trans (gpio_write4bits _ _)).trans
      (gpio_write4bits _ _)

theorem gpio_command (v : Nat) (s : Driver) : GpioStep s (command v s) := gpio_send _ _ _

theorem gpio_display (s : Driver) : GpioStep s (display s) :=
  (GpioStep.of_eq (t := { s with displaycontrol := s.displaycontrol ||| LCD_DISPLAYON }) rfl rfl rfl).trans
    (gpio_command _ _)

theorem gpio_noDisplay (s : Driver) : GpioStep s (noDisplay s) :=
  (GpioStep.of_eq (t := { s with displaycontrol := s.displaycontrol &&& not8 LCD_DISPLAYON }) rfl rfl rfl).trans
    (gpio_command _ _)

theorem gpio_cursor (s : Driver) : GpioStep s (cursor s) :=
  (GpioStep.of_eq (t := { s with displaycontrol := s.displaycontrol ||| LCD_CURSORON }) rfl rfl rfl).trans
    (gpio_command _ _)

theorem gpio_noCursor (s : Driver) : GpioStep s (noCursor s) :=
  (GpioStep.of_eq (t := { s with displaycontrol := s.displaycontrol &&& not8 LCD_CURSORON }) rfl rfl rfl).trans
    (gpio_command _ _)

theorem gpio_blink (s : Driver) : GpioStep s (blink s) :=
  (GpioStep.of_eq (t := { s with displaycontrol := s.displaycontrol ||| LCD_BLINKON }) rfl rfl rfl).trans
    (gpio_command _ _)

theorem gpio_noBlink (s : Driver) : GpioStep s (noBlink s) :=
  (GpioStep.of_eq (t := { s with displaycontrol := s.displaycontrol &&& not8 LCD_BLINKON }) rfl rfl rfl).trans
    (gpio_command _ _)

theorem gpio_leftToRight (s : Driver) : GpioStep s (leftToRight s) :=
  (GpioStep.of_eq (t := { s with displaymode := s.displaymode ||| LCD_ENTRYLEFT }) rfl rfl rfl).trans
    (gpio_command _ _)

theorem gpio_rightToLeft (s : Driver) : GpioStep s (rightToLeft s) :=
  (GpioStep.of_eq (t := { s with displaymode := s.displaymode &&& not8 LCD_ENTRYLEFT }) rfl rfl rfl).trans
    (gpio_command _ _)

theorem gpio_autoscroll (s : Driver) : GpioStep s (autoscroll s) :=
  (GpioStep.of_eq (t := { s with displaymode := s.displaymode ||| LCD_ENTRYSHIFTINCREMENT }) rfl rfl rfl).trans
    (gpio_command _ _)

theorem gpio_noAutoscroll (s : Driver) : GpioStep s (noAutoscroll s) :=
  (GpioStep.of_eq (t := { s with displaymode := s.displaymode &&& not8 LCD_ENTRYSHIFTINCREMENT }) rfl rfl rfl).trans
    (gpio_command _ _)

theorem gpio_scrollDisplayLeft (s : Driver) : GpioStep s (scrollDisplayLeft s) :=
  gpio_command _ _

theorem gpio_scrollDisplayRight (s : Driver) : GpioStep s (scrollDisplayRight s) :=
  gpio_command _ _

theorem gpio_clear (s : Driver) : GpioStep s (clear s) :=
  (gpio_command _ s).trans (gpio_delayMicroseconds _ _)

theorem gpio_home (s : Driver) : GpioStep s (home s) :=
  (gpio_command _ s).trans (gpio_delayMicroseconds _ _)

theorem gpio_backlight (s : Driver) : GpioStep s (backlight s) := by
  unfold backlight
  split_ifs
  · exact gpio_writePin _ _ _
  · exact GpioStep.refl s

theorem gpio_noBacklight (s : Driver) : GpioStep s (noBacklight s) := by
  unfold noBacklight
  split_ifs
  · exact gpio_writePin _ _ _
  · exact GpioStep.refl s

theorem gpio_setRowOffsets (a b c d : Nat) (s : Driver) :
    GpioStep s (setRowOffsets a b c d s) :=
  GpioStep.of_eq rfl rfl rfl

theorem gpio_writeGlyph (charmap : Fin 8 → Nat) (idx : List (Fin 8)) (s : Driver) :
    GpioStep s (idx.foldl (fun st (i : Fin 8) => (write (charmap i) st).2) s) := by
  induction idx generalizing s with
  | nil => exact GpioStep.refl s
  | cons i rest ih => exact (gpio_send (charmap i) HIGH s).trans (ih _)

theorem gpio_createChar (location : Nat) (charmap : Fin 8 → Nat) (s : Driver) :
    GpioStep s (createChar location charmap s) :=
  (gpio_command _ s).trans (gpio_writeGlyph charmap _ _)

theorem gpio_setCursor (col row : Nat) (s t : Driver) (h : setCursor col row s = some t) :
    GpioStep s t := by
  unfold setCursor at h
  split_ifs at h
  rw [Option.some.injEq] at h
  rw [← h]
  exact gpio_command _ _

/-- Every public operation other than `begin` is a `GpioStep`. -/
theorem gpio_run (op : Op) (s t : Driver) (r : Option Nat) (hb : op.isBegin = false)
    (h : op.run s = some (r, t)) : GpioStep s t := by
  cases op <;> simp only [Op.run, Op.isBegin, Option.some.injEq, Prod.mk.injEq,
    Option.map_eq_some', Bool.true_eq_false] at h hb
  case clear => rw [← h.2]; exact gpio_clear s
  case home => rw [← h.2]; exact gpio_home s
  case noDisplay => rw [← h.2]; exact gpio_noDisplay s
  case display => rw [← h.2]; exact gpio_display s
  case noBlink => rw [← h.2]; exact gpio_noBlink s
  case blink => rw [← h.2]; exact gpio_blink s
  case noCursor => rw [← h.2]; exact gpio_noCursor s
  case cursor => rw [← h.2]; exact gpio_cursor s
  case scrollDisplayLeft => rw [← h.2]; exact gpio_scrollDisplayLeft s
  case scrollDisplayRight => rw [← h.2]; exact gpio_scrollDisplayRight s
  case leftToRight => rw [← h.2]; exact gpio_leftToRight s
  case rightToLeft => rw [← h.2]; exact gpio_rightToLeft s
  case noBacklight => rw [← h.2]; exact gpio_noBacklight s
  case backlight => rw [← h.2]; exact gpio_backlight s
  case autoscroll => rw [← h.2]; exact gpio_autoscroll s
  case noAutoscroll => rw [← h.2]; exact gpio_noAutoscroll s
  case setRowOffsets a b c d => rw [← h.2]; exact gpio_setRowOffsets a b c d s
  case createChar l m => rw [← h.2]; exact gpio_createChar l m s
  case setCursor c r0 =>
    obtain ⟨u, hu, hr⟩ := h
    rw [← hr.2]
    exact gpio_setCursor c r0 s u hu
  case write v => rw [← h.2]; exact gpio_send v HIGH s
  case command v => rw [← h.2]; exact gpio_command v s

theorem gpio_functionSet (s : Driver) : GpioStep s (functionSet s) := gpio_command _ _

theorem gpio_handshake4 (s : Driver) : GpioStep s (handshake4 s) := by
  unfold handshake4
  exact ((((((gpio_write4bits _ s).trans (gpio_delayMicroseconds _ _)).trans
    (gpio_write4bits _ _)).trans (gpio_delayMicroseconds _ _)).trans
    (gpio_write4bits _ _)).trans (gpio_delayMicroseconds _ _)).trans (gpio_write4bits _ _)

theorem gpio_handshake8 (s : Driver) : GpioStep s (handshake8 s) := by
  unfold handshake8
  exact ((((gpio_functionSet s).trans (gpio_delayMicroseconds _ _)).trans
    (gpio_functionSet _)).trans (gpio_delayMicroseconds _ _)).trans (gpio_functionSet _)

theorem gpio_negotiate (s : Driver) : GpioStep s (negotiate s) := by
  unfold negotiate
  split_ifs
  · exact gpio_handshake8 s
  · exact gpio_handshake4 s

theorem gpio_beginFinish (s : Driver) : GpioStep s (beginFinish s) := by
  unfold beginFinish
  dsimp only
  refine GpioStep.trans (gpio_functionSet s) ?_
  refine GpioStep.trans (GpioStep.of_eq (t := { functionSet s with
    displaycontrol := LCD_DISPLAYON ||| LCD_CURSOROFF ||| LCD_BLINKOFF }) rfl rfl rfl) ?_
  refine GpioStep.trans (gpio_display _) ?_
  refine GpioStep.trans (gpio_backlight _) ?_
  refine GpioStep.trans (gpio_clear _) ?_
  refine GpioStep.trans (GpioStep.of_eq (t := { clear (backlight (display { functionSet s with
    displaycontrol := LCD_DISPLAYON ||| LCD_CURSOROFF ||| LCD_BLINKOFF })) with
    displaymode := LCD_ENTRYLEFT ||| LCD_ENTRYSHIFTDECREMENT }) rfl rfl rfl) ?_
  exact gpio_command _ _

/-- The part of `begin` that configures the expander: bus start and the two direction
registers. -/
theorem beginConfig_wiring (cols lines dotsize : Nat) (s : Driver) :
    (beginConfig cols lines dotsize s).data_port = s.data_port ∧
    (beginConfig cols lines dotsize s).i2c_addr = s.i2c_addr ∧
    (beginConfig cols lines dotsize s).trace = s.trace := by
  unfold beginConfig setRowOffsets
  dsimp only
  split_ifs <;> exact ⟨rfl, rfl, rfl⟩

/-- The transactions of `begin`: after `Wire.begin()` the two direction registers are
written once, with 0x00, and everything after that goes to the output registers. -/
theorem begin_trace (cols lines dotsize : Nat) (s : Driver) (hv : validPort s.data_port) :
    (begin cols lines dotsize s).data_port = s.data_port ∧
    (begin cols lines dotsize s).i2c_addr = s.i2c_addr ∧
    ∃ new, (begin cols lines dotsize s).trace =
        s.trace ++ ([Event.wireBegin, Event.tx s.i2c_addr MCP23017_IODIRA 0x00,
          Event.tx s.i2c_addr MCP23017_IODIRB 0x00] ++ new) ∧
      ∀ e ∈ new, e.gpioOnly s.i2c_addr := by
  obtain ⟨hcp, hca, hct⟩ := beginConfig_wiring cols lines dotsize s
  generalize hc : beginConfig cols lines dotsize s = c at hcp hca hct
  have h3f : (writeRegister MCP23017_IODIRB 0x00 (writeRegister MCP23017_IODIRA 0x00
      (wireBegin c))).frame = c.frame := by
    rw [frame_writeRegister, frame_writeRegister, frame_wireBegin]
  have h3t : (writeRegister MCP23017_IODIRB 0x00 (writeRegister MCP23017_IODIRA 0x00
      (wireBegin c))).trace = c.trace ++ [Event.wireBegin,
        Event.tx c.i2c_addr MCP23017_IODIRA 0x00, Event.tx c.i2c_addr MCP23017_IODIRB 0x00] := by
    rw [trace_writeRegister, trace_writeRegister, i2c_addr_of_frame (frame_writeRegister _ _ _)]
    show (c.trace ++ [Event.wireBegin]) ++ _ ++ _ = _
    simp only [List.append_assoc, List.singleton_append, List.cons_append, List.nil_append]
    rfl
  generalize h3 : writeRegister MCP23017_IODIRB 0x00 (writeRegister MCP23017_IODIRA 0x00
      (wireBegin c)) = c3 at h3f h3t
  have hrest : GpioStep c3 (begin cols lines dotsize s) := by
    have e : begin cols lines dotsize s =
        beginFinish (negotiate (writeRW LOW (writeEnable LOW (writeRS LOW
          (delayMicroseconds 50000 (writeRegister MCP23017_GPIOB 0x00
            (writeRegister MCP23017_GPIOA 0x00 c3))))))) := by
      rw [← h3, ← hc]
      rfl
    rw [e]
    exact (((((((gpio_writeRegister _ _ c3 (Or.inl rfl)).trans
      (gpio_writeRegister _ _ _ (Or.inr rfl))).trans (gpio_delayMicroseconds _ _)).trans
      (gpio_writeRS _ _)).trans (gpio_writeEnable _ _)).trans (gpio_writeRW _ _)).trans
      (gpio_negotiate _)).trans (gpio_beginFinish _)
  have hp3 : c3.data_port = s.data_port := (data_port_of_frame h3f).trans hcp
  have ha3 : c3.i2c_addr = s.i2c_addr := (i2c_addr_of_frame h3f).trans hca
  obtain ⟨hp, ha, new, ht, hn⟩ := hrest (by rw [hp3]; exact hv)
  refine ⟨hp.trans hp3, ha.trans ha3, new, ?_, ?_⟩
  · rw [ht, h3t, hct, hca, List.append_assoc]
  · intro e he
    have h := hn e he
    rw [ha3] at h
    exact h

theorem scanDataPort_valid (pins : Fin 8 → Nat) (port : Nat) (idx : List (Fin 8))
    (h : validPort port) : validPort (scanDataPort pins port idx) := by
  induction idx with
  | nil => exact h
  | cons i rest ih =>
    unfold scanDataPort
    split_ifs
    · exact Or.inl rfl
    · exact ih

theorem validPort_digitalPinToPort (pin : Nat) : validPort (MCP23017_digitalPinToPort pin) :=
  Or.inr (digitalPinToPort_cases pin)

theorem reachable_validPort (s : Driver) (h : Reachable s) : validPort s.data_port := by
  induction h with
  | constructed fourbitmode i2c_addr rs rw en bl d0 d1 d2 d3 d4 d5 d6 d7 s0 =>
    unfold init
    dsimp only
    split_ifs <;> exact scanDataPort_valid _ _ _ (validPort_digitalPinToPort _)
  | step op s t r _ hrun ih =>
    by_cases hb : op.isBegin = false
    · rw [(gpio_run op s t r hb hrun ih).1]
      exact ih
    · cases op <;> simp only [Op.isBegin, not_true_eq_false, Bool.true_eq_false,
        not_false_eq_true] at hb
      simp only [Op.run, Option.some.injEq, Prod.mk.injEq] at hrun
      rw [← hrun.2, (begin_trace _ _ _ s ih).1]
      exact ih

theorem writesTo_append (reg : Nat) (l1 l2 : List Event) :
    writesTo reg (l1 ++ l2) = writesTo reg l1 ++ writesTo reg l2 :=
  List.filter_append _ _

theorem writesTo_of_gpioOnly (reg addr : Nat) (new : List Event)
    (hreg : reg ≠ MCP23017_GPIOA ∧ reg ≠ MCP23017_GPIOB)
    (h : ∀ e ∈ new, e.gpioOnly addr) : writesTo reg new = [] := by
  unfold writesTo
  rw [List.filter_eq_nil_iff]
  intro e he
  have hg := h e he
  cases e with
  | wireBegin => simp
  | delay us => simp
  | tx a r v =>
    have hr : r = MCP23017_GPIOA ∨ r = MCP23017_GPIOB := hg.2
    have hne : r ≠ reg := by
      rcases hr with h1 | h1
      · rw [h1]; exact fun h2 => hreg.1 h2.symm
      · rw [h1]; exact fun h2 => hreg.2 h2.symm
    simp [hne]

/-- C9: in every state of a driver object (any wiring, any history of public
operations), every bus transaction that a public operation emits is addressed to the
configured I2C address; for every operation other than `begin()` its register is GPIOA
(0x12) or GPIOB (0x13); `begin()` writes each of the direction registers 0x00 and 0x01
exactly once, with the value 0x00, and otherwise only GPIOA and GPIOB. -/
theorem public_ops_registers (s : Driver) (hs : Reachable s) (op : Op) (r : Option Nat)
    (t : Driver) (hrun : op.run s = some (r, t)) :
    ∃ new, t.trace = s.trace ++ new ∧
      (∀ a reg val, Event.tx a reg val ∈ new → a = s.i2c_addr) ∧
      (op.isBegin = false → ∀ a reg val, Event.tx a reg val ∈ new →
        reg = MCP23017_GPIOA ∨ reg = MCP23017_GPIOB) ∧
      (op.isBegin = true →
        writesTo MCP23017_IODIRA new = [Event.tx s.i2c_addr MCP23017_IODIRA 0x00] ∧
        writesTo MCP23017_IODIRB new = [Event.tx s.i2c_addr MCP23017_IODIRB 0x00] ∧
        ∀ a reg val, Event.tx a reg val ∈ new →
          reg = MCP23017_IODIRA ∨ reg = MCP23017_IODIRB ∨
          reg = MCP23017_GPIOA ∨ reg = MCP23017_GPIOB) := by
  have hv := reachable_validPort s hs
  by_cases hb : op.isBegin = false
  · obtain ⟨_, _, new, ht, hn⟩ := gpio_run op s t r hb hrun hv
    refine ⟨new, ht, fun a reg val he => (hn _ he).1, fun _ a reg val he => (hn _ he).2, ?_⟩
    intro h
    rw [hb] at h
    exact absurd h (by decide)
  · cases op <;> simp only [Op.isBegin, not_true_eq_false, Bool.true_eq_false,
      not_false_eq_true] at hb
    simp only [Op.run, Option.some.injEq, Prod.mk.injEq] at hrun
    obtain ⟨_, _, new, ht, hn⟩ := begin_trace _ _ _ s hv
    rw [hrun.2] at ht
    refine ⟨_, ht, ?_, fun h => Bool.noConfusion h, fun _ => ⟨?_, ?_, ?_⟩⟩
    · intro a reg val he
      rcases List.mem_append.1 he with h | h
      · simp only [List.mem_cons, Event.tx.injEq, List.mem_singleton, false_or, reduceCtorEq,
          List.not_mem_nil, or_false] at h
        rcases h with h | h <;> exact h.1
      · exact (hn _ h).1
    · rw [writesTo_append, writesTo_of_gpioOnly _ _ new ⟨by decide, by decide⟩ hn]
      rfl
    · rw [writesTo_append, writesTo_of_gpioOnly _ _ new ⟨by decide, by decide⟩ hn]
      rfl
    · intro a reg val he
      rcases List.mem_append.1 he with h | h
      · simp only [List.mem_cons, Event.tx.injEq, List.mem_singleton, false_or, reduceCtorEq,
          List.not_mem_nil, or_false] at h
        rcases h with h | h
        · exact Or.inl h.2.1
        · exact Or.inr (Or.inl h.2.1)
      · exact Or.inr (Or.inr (hn _ h).2)

/-- Witness of C9: `begin(16, 2)` on the freshly constructed instance `fast4`. -/
theorem public_ops_registers_witness :
    Reachable fast4 ∧
    (Op.begin 16 2 LCD_5x8DOTS).run fast4 = some (none, begin 16 2 LCD_5x8DOTS fast4) ∧
    ∃ new, (begin 16 2 LCD_5x8DOTS fast4).trace = fast4.trace ++ new ∧
      (∀ a reg val, Event.tx a reg val ∈ new → a = fast4.i2c_addr) ∧
      ((Op.begin 16 2 LCD_5x8DOTS).isBegin = false → ∀ a reg val, Event.tx a reg val ∈ new →
        reg = MCP23017_GPIOA ∨ reg = MCP23017_GPIOB) ∧
      ((Op.begin 16 2 LCD_5x8DOTS).isBegin = true →
        writesTo MCP23017_IODIRA new = [Event.tx fast4.i2c_addr MCP23017_IODIRA 0x00] ∧
        writesTo MCP23017_IODIRB new = [Event.tx fast4.i2c_addr MCP23017_IODIRB 0x00] ∧
        ∀ a reg val, Event.tx a reg val ∈ new →
          reg = MCP23017_IODIRA ∨ reg = MCP23017_IODIRB ∨
          reg = MCP23017_GPIOA ∨ reg = MCP23017_GPIOB) :=
  ⟨Reachable.constructed _ _ _ _ _ _ _ _ _ _ _ _ _ _ _, rfl,
    public_ops_registers fast4 (Reachable.constructed _ _ _ _ _ _ _ _ _ _ _ _ _ _ _)
      (Op.begin 16 2 LCD_5x8DOTS) none (begin 16 2 LCD_5x8DOTS fast4) rfl⟩

/-! ## C8: transport errors change nothing but the diagnostics -/

/-- Two states with the same core differ only in the answers of the outside world. -/
theorem exists_of_core_eq {a b : Driver} (h : a.core = b.core) :
    ∃ w o, b = { a with wireStatus := w, serialOut := o } := by
  refine ⟨b.wireStatus, b.serialOut, ?_⟩
  cases a
  cases b
  simp only [Driver.core, Driver.mk.injEq] at h
  obtain ⟨h1, h2, h3, h4, h5, h6, h7, h8, h9, h10, h11, h12, h13, h14, h15, -, h17, -⟩ := h
  subst h1 h2 h3 h4 h5 h6 h7 h8 h9 h10 h11 h12 h13 h14 h15 h17
  rfl

theorem sim_delayMicroseconds (us : Nat) {a b : Driver} (h : a.core = b.core) :
    (delayMicroseconds us a).core = (delayMicroseconds us b).core := by
  obtain ⟨w, o, rfl⟩ := exists_of_core_eq h
  rfl

theorem sim_wireBegin {a b : Driver} (h : a.core = b.core) :
    (wireBegin a).core = (wireBegin b).core := by
  obtain ⟨w, o, rfl⟩ := exists_of_core_eq h
  rfl

theorem sim_writeRegister (r v : Nat) {a b : Driver} (h : a.core = b.core) :
    (writeRegister r v a).core = (writeRegister r v b).core := by
  obtain ⟨w, o, rfl⟩ := exists_of_core_eq h
  unfold writeRegister
  dsimp only
  split_ifs <;> rfl

theorem sim_writePin (pin v : Nat) {a b : Driver} (h : a.core = b.core) :
    (writePin pin v a).core = (writePin pin v b).core := by
  obtain ⟨w, o, rfl⟩ := exists_of_core_eq h
  unfold writePin
  dsimp only
  by_cases hp : MCP23017_GPIOA = MCP23017_digitalPinToPort pin <;>
    by_cases hv : v = 0 <;>
    simp only [hp, hv, ne_eq, not_true_eq_false, not_false_eq_true, if_true, if_false] <;>
    exact sim_writeRegister _ _ rfl

theorem sim_writeRS (v : Nat) {a b : Driver} (h : a.core = b.core) :
    (writeRS v a).core = (writeRS v b).core := by
  obtain ⟨w, o, rfl⟩ := exists_of_core_eq h
  exact sim_writePin _ _ rfl

theorem sim_writeRW (v : Nat) {a b : Driver} (h : a.core = b.core) :
    (writeRW v a).core = (writeRW v b).core := by
  obtain ⟨w, o, rfl⟩ := exists_of_core_eq h
  exact sim_writePin _ _ rfl

theorem sim_writeEnable (v : Nat) {a b : Driver} (h : a.core = b.core) :
    (writeEnable v a).core = (writeEnable v b).core := by
  obtain ⟨w, o, rfl⟩ := exists_of_core_eq h
  exact sim_writePin _ _ rfl

theorem sim_pulseEnable {a b : Driver} (h : a.core = b.core) :
    (pulseEnable a).core = (pulseEnable b).core := by
  unfold pulseEnable
  exact sim_delayMicroseconds _ (sim_writeEnable _ (sim_delayMicroseconds _
    (sim_writeEnable _ (sim_delayMicroseconds _ (sim_writeEnable _ h)))))

theorem sim_writeDataPins (v : Nat) (idx : List (Fin 8)) {a b : Driver} (h : a.core = b.core) :
    (writeDataPins v idx a).core = (writeDataPins v idx b).core := by
  induction idx generalizing a b with
  | nil => exact h
  | cons i rest ih =>
    obtain ⟨w, o, rfl⟩ := exists_of_core_eq h
    exact ih (sim_writePin _ _ rfl)

theorem sim_write4bits (v : Nat) {a b : Driver} (h : a.core = b.core) :
    (write4bits v a).core = (write4bits v b).core := by
  obtain ⟨w, o, rfl⟩ := exists_of_core_eq h
  unfold write4bits
  dsimp only
  split_ifs
  · exact sim_pulseEnable (sim_writeDataPins _ _ rfl)
  · exact sim_pulseEnable (sim_writeRegister _ _ rfl)
  · exact sim_pulseEnable (sim_writeRegister _ _ rfl)

theorem sim_write8bits (v : Nat) {a b : Driver} (h : a.core = b.core) :
    (write8bits v a).core = (write8bits v b).core := by
  obtain ⟨w, o, rfl⟩ := exists_of_core_eq h
  unfold write8bits
  dsimp only
  split_ifs
  · exact sim_pulseEnable (sim_writeDataPins _ _ rfl)
  · exact sim_pulseEnable (sim_writeRegister _ _ rfl)

theorem displayfunction_of_core {a b : Driver} (h : a.core = b.core) :
    a.displayfunction = b.displayfunction := by
  obtain ⟨w, o, rfl⟩ := exists_of_core_eq h
  rfl

theorem sim_send (v m : Nat) {a b : Driver} (h : a.core = b.core) :
    (send v m a).core = (send v m b).core := by
  have h1 : (writeRW LOW (writeRS m a)).core = (writeRW LOW (writeRS m b)).core :=
    sim_writeRW _ (sim_writeRS _ h)
  unfold send
  dsimp only
  rw [displayfunction_of_core h1]
  split_ifs
  · exact sim_write8bits _ h1
  · exact sim_write4bits _ (sim_write4bits _ h1)

theorem sim_command (v : Nat) {a b : Driver} (h : a.core = b.core) :
    (command v a).core = (command v b).core := sim_send _ _ h

theorem sim_display {a b : Driver} (h : a.core = b.core) :
    (display a).core = (display b).core := by
  obtain ⟨w, o, rfl⟩ := exists_of_core_eq h
  exact sim_command _ rfl

theorem sim_noDisplay {a b : Driver} (h : a.core = b.core) :
    (noDisplay a).core = (noDisplay b).core := by
  obtain ⟨w, o, rfl⟩ := exists_of_core_eq h
  exact sim_command _ rfl

theorem sim_cursor {a b : Driver} (h : a.core = b.core) :
    (cursor a).core = (cursor b).core := by
  obtain ⟨w, o, rfl⟩ := exists_of_core_eq h
  exact sim_command _ rfl

theorem sim_noCursor {a b : Driver} (h : a.core = b.core) :
    (noCursor a).core = (noCursor b).core := by
  obtain ⟨w, o, rfl⟩ := exists_of_core_eq h
  exact sim_command _ rfl

theorem sim_blink {a b : Driver} (h : a.core = b.core) :
    (blink a).core = (blink b).core := by
  obtain ⟨w, o, rfl⟩ := exists_of_core_eq h
  exact sim_command _ rfl

theorem sim_noBlink {a b : Driver} (h : a.core = b.core) :
    (noBlink a).core = (noBlink b).core := by
  obtain ⟨w, o, rfl⟩ := exists_of_core_eq h
  exact sim_command _ rfl

theorem sim_leftToRight {a b : Driver} (h : a.core = b.core) :
    (leftToRight a).core = (leftToRight b).core := by
  obtain ⟨w, o, rfl⟩ := exists_of_core_eq h
  exact sim_command _ rfl

theorem sim_rightToLeft {a b : Driver} (h : a.core = b.core) :
    (rightToLeft a).core = (rightToLeft b).core := by
  obtain ⟨w, o, rfl⟩ := exists_of_core_eq h
  exact sim_command _ rfl

theorem sim_autoscroll {a b : Driver} (h : a.core = b.core) :
    (autoscroll a).core = (autoscroll b).core := by
  obtain ⟨w, o, rfl⟩ := exists_of_core_eq h
  exact sim_command _ rfl

theorem sim_noAutoscroll {a b : Driver} (h : a.core = b.core) :
    (noAutoscroll a).core = (noAutoscroll b).core := by
  obtain ⟨w, o, rfl⟩ := exists_of_core_eq h
  exact sim_command _ rfl

theorem sim_scrollDisplayLeft {a b : Driver} (h : a.core = b.core) :
    (scrollDisplayLeft a).core = (scrollDisplayLeft b).core := sim_command _ h

theorem sim_scrollDisplayRight {a b : Driver} (h : a.core = b.core) :
    (scrollDisplayRight a).core = (scrollDisplayRight b).core := sim_command _ h

theorem sim_clear {a b : Driver} (h : a.core = b.core) : (clear a).core = (clear b).core :=
  sim_delayMicroseconds _ (sim_command _ h)

theorem sim_home {a b : Driver} (h : a.core = b.core) : (home a).core = (home b).core :=
  sim_delayMicroseconds _ (sim_command _ h)

theorem sim_backlight {a b : Driver} (h : a.core = b.core) :
    (backlight a).core = (backlight b).core := by
  obtain ⟨w, o, rfl⟩ := exists_of_core_eq h
  unfold backlight
  dsimp only
  split_ifs
  · exact sim_writePin _ _ rfl
  · rfl

theorem sim_noBacklight {a b : Driver} (h : a.core = b.core) :
    (noBacklight a).core = (noBacklight b).core := by
  obtain ⟨w, o, rfl⟩ := exists_of_core_eq h
  unfold noBacklight
  dsimp only
  split_ifs
  · exact sim_writePin _ _ rfl
  · rfl

theorem sim_setRowOffsets (r0 r1 r2 r3 : Nat) {a b : Driver} (h : a.core = b.core) :
    (setRowOffsets r0 r1 r2 r3 a).core = (setRowOffsets r0 r1 r2 r3 b).core := by
  obtain ⟨w, o, rfl⟩ := exists_of_core_eq h
  rfl

theorem sim_writeGlyph (charmap : Fin 8 → Nat) (idx : List (Fin 8)) {a b : Driver}
    (h : a.core = b.core) :
    (idx.foldl (fun st (i : Fin 8) => (write (charmap i) st).2) a).core =
      (idx.foldl (fun st (i : Fin 8) => (write (charmap i) st).2) b).core := by
  induction idx generalizing a b with
  | nil => exact h
  | cons i rest ih => exact ih (sim_send (charmap i) HIGH h)

theorem sim_createChar (location : Nat) (charmap : Fin 8 → Nat) {a b : Driver}
    (h : a.core = b.core) :
    (createChar location charmap a).core = (createChar location charmap b).core := by
  unfold createChar
  dsimp only
  exact sim_writeGlyph charmap _ (sim_command _ h)

theorem sim_setCursor (col row : Nat) {a b : Driver} (h : a.core = b.core) :
    (setCursor col row a).map Driver.core = (setCursor col row b).map Driver.core := by
  obtain ⟨w, o, rfl⟩ := exists_of_core_eq h
  unfold setCursor
  dsimp only
  split_ifs
  · simp only [Option.map_some', Option.some.injEq]
    exact sim_command _ rfl
  · rfl

theorem sim_functionSet {a b : Driver} (h : a.core = b.core) :
    (functionSet a).core = (functionSet b).core := by
  obtain ⟨w, o, rfl⟩ := exists_of_core_eq h
  exact sim_command _ rfl

theorem sim_handshake4 {a b : Driver} (h : a.core = b.core) :
    (handshake4 a).core = (handshake4 b).core := by
  unfold handshake4
  exact sim_write4bits _ (sim_delayMicroseconds _ (sim_write4bits _ (sim_delayMicroseconds _
    (sim_write4bits _ (sim_delayMicroseconds _ (sim_write4bits _ h))))))

theorem sim_handshake8 {a b : Driver} (h : a.core = b.core) :
    (handshake8 a).core = (handshake8 b).core := by
  unfold handshake8
  exact sim_functionSet (sim_delayMicroseconds _ (sim_functionSet (sim_delayMicroseconds _
    (sim_functionSet h))))

theorem sim_negotiate {a b : Driver} (h : a.core = b.core) :
    (negotiate a).core = (negotiate b).core := by
  unfold negotiate
  rw [displayfunction_of_core h]
  split_ifs
  · exact sim_handshake8 h
  · exact sim_handshake4 h

theorem sim_beginConfig (cols lines dotsize : Nat) {a b : Driver} (h : a.core = b.core) :
    (beginConfig cols lines dotsize a).core = (beginConfig cols lines dotsize b).core := by
  obtain ⟨w, o, rfl⟩ := exists_of_core_eq h
  unfold beginConfig setRowOffsets
  dsimp only
  split_ifs <;> rfl

theorem sim_beginReset {a b : Driver} (h : a.core = b.core) :
    (beginReset a).core = (beginReset b).core := by
  unfold beginReset
  exact sim_writeRW _ (sim_writeEnable _ (sim_writeRS _ (sim_delayMicroseconds _
    (sim_writeRegister _ _ (sim_writeRegister _ _ (sim_writeRegister _ _
      (sim_writeRegister _ _ (sim_wireBegin h))))))))

theorem sim_update (g : Driver → Driver)
    (hg : ∀ (u : Driver) (w : List Nat) (o : List Nat),
      (g { u with wireStatus := w, serialOut := o }).core = (g u).core)
    {a b : Driver} (h : a.core = b.core) : (g a).core = (g b).core := by
  obtain ⟨w, o, rfl⟩ := exists_of_core_eq h
  exact (hg a w o).symm

theorem sim_beginFinish {a b : Driver} (h : a.core = b.core) :
    (beginFinish a).core = (beginFinish b).core := by
  unfold beginFinish
  dsimp only
  have h7 := sim_functionSet h
  have h8 := sim_update (fun u => { u with
    displaycontrol := LCD_DISPLAYON ||| LCD_CURSOROFF ||| LCD_BLINKOFF }) (fun _ _ _ => rfl) h7
  have h9 := sim_clear (sim_backlight (sim_display h8))
  have h10 := sim_update (fun u => { u with
    displaymode := LCD_ENTRYLEFT ||| LCD_ENTRYSHIFTDECREMENT }) (fun _ _ _ => rfl) h9
  exact sim_command _ h10

theorem sim_begin (cols lines dotsize : Nat) {a b : Driver} (h : a.core = b.core) :
    (begin cols lines dotsize a).core = (begin cols lines dotsize b).core := by
  unfold begin
  exact sim_beginFinish (sim_negotiate (sim_beginReset (sim_beginConfig _ _ _ h)))

/-- C8: for every public operation, every state and every two assignments `st1`, `st2`
of transport status codes to the coming bus transactions, the operation returns the
same value (`write` returns 1) and ends in the same driver state - all members, shadow
bytes and display flags included - with the same sequence of emitted transactions and
delays: only the diagnostics printed can differ.  In particular a run with failing
writes emits exactly the transactions of the run without failures: nothing is retried,
skipped or rolled back. -/
theorem status_codes_irrelevant (op : Op) (s : Driver) (st1 st2 : List Nat) :
    (op.run { s with wireStatus := st1 }).map (fun x => (x.1, x.2.core)) =
      (op.run { s with wireStatus := st2 }).map (fun x => (x.1, x.2.core)) ∧
    (∀ v : Nat, (write v { s with wireStatus := st1 }).1 = 1) := by
  have h : ({ s with wireStatus := st1 } : Driver).core
      = ({ s with wireStatus := st2 } : Driver).core := rfl
  refine ⟨?_, fun _ => rfl⟩
  cases op <;> simp only [Op.run, Option.map_some', Option.some.injEq, Prod.mk.injEq,
    true_and, write]
  case begin c l d => exact sim_begin c l d h
  case clear => exact sim_clear h
  case home => exact sim_home h
  case noDisplay => exact sim_noDisplay h
  case display => exact sim_display h
  case noBlink => exact sim_noBlink h
  case blink => exact sim_blink h
  case noCursor => exact sim_noCursor h
  case cursor => exact sim_cursor h
  case scrollDisplayLeft => exact sim_scrollDisplayLeft h
  case scrollDisplayRight => exact sim_scrollDisplayRight h
  case leftToRight => exact sim_leftToRight h
  case rightToLeft => exact sim_rightToLeft h
  case noBacklight => exact sim_noBacklight h
  case backlight => exact sim_backlight h
  case autoscroll => exact sim_autoscroll h
  case noAutoscroll => exact sim_noAutoscroll h
  case setRowOffsets a b c d => exact sim_setRowOffsets a b c d h
  case createChar l m => exact sim_createChar l m h
  case setCursor c r =>
    have h2 := sim_setCursor c r h
    rw [Option.map_map, Option.map_map]
    cases h1 : setCursor c r { s with wireStatus := st1 } <;>
      cases h3 : setCursor c r { s with wireStatus := st2 } <;>
      rw [h1, h3] at h2 <;>
      simp only [Option.map_some', Option.map_none', Option.some.injEq, reduceCtorEq,
        Function.comp_apply, Prod.mk.injEq, true_and] at h2 ⊢
    exact h2
  case write v => exact sim_send v HIGH h
  case command v => exact sim_command v h

/-! ## C11: the flag operations -/

theorem displaycontrol_of_frame {s t : Driver} (h : t.frame = s.frame) :
    t.displaycontrol = s.displaycontrol := by
  have h1 : t.frame.displaycontrol = s.frame.displaycontrol := by rw [h]
  exact h1

theorem displaymode_of_frame {s t : Driver} (h : t.frame = s.frame) :
    t.displaymode = s.displaymode := by
  have h1 : t.frame.displaymode = s.frame.displaymode := by rw [h]
  exact h1

theorem bitChanged_or (x k : Nat) : bitChanged k true x (x ||| 2 ^ k) := by
  constructor
  · rw [Nat.testBit_or, Nat.testBit_two_pow_self, Bool.or_true]
  · intro i hi
    rw [Nat.testBit_or, Nat.testBit_two_pow_of_ne (Ne.symm hi), Bool.or_false]

theorem bitChanged_and_not8 (x k : Nat) (hx : x < 256) (hk : k < 8) :
    bitChanged k false x (x &&& not8 (2 ^ k)) := by
  constructor
  · rw [Nat.testBit_and, testBit_not8, Nat.testBit_two_pow_self]
    simp [hk]
  · intro i hi
    rw [Nat.testBit_and, testBit_not8, Nat.testBit_two_pow_of_ne (Ne.symm hi)]
    by_cases h8 : i < 8
    · simp [h8]
    · rw [testBit_of_lt_256 hx (by omega)]
      simp

/-- The members other than the two shadow bytes after a command sent from a state whose
control flags were just replaced by `c`. -/
theorem command_after_control (v c : Nat) (s : Driver) :
    (command v { s with displaycontrol := c }).displaycontrol = c ∧
    (command v { s with displaycontrol := c }).displaymode = s.displaymode ∧
    (command v { s with displaycontrol := c }).displayfunction = s.displayfunction ∧
    (command v { s with displaycontrol := c }).numlines = s.numlines ∧
    (command v { s with displaycontrol := c }).row_offsets = s.row_offsets := by
  have h := frame_command v { s with displaycontrol := c }
  have h1 := displaycontrol_of_frame h
  have h2 := displaymode_of_frame h
  have h3 := displayfunction_of_frame h
  have h4 := numlines_of_frame h
  have h5 := row_offsets_of_frame h
  exact ⟨h1, h2, h3, h4, h5⟩

/-- The same after the entry mode flags were replaced by `m`. -/
theorem command_after_mode (v m : Nat) (s : Driver) :
    (command v { s with displaymode := m }).displaymode = m ∧
    (command v { s with displaymode := m }).displaycontrol = s.displaycontrol ∧
    (command v { s with displaymode := m }).displayfunction = s.displayfunction ∧
    (command v { s with displaymode := m }).numlines = s.numlines ∧
    (command v { s with displaymode := m }).row_offsets = s.row_offsets := by
  have h := frame_command v { s with displaymode := m }
  have h1 := displaymode_of_frame h
  have h2 := displaycontrol_of_frame h
  have h3 := displayfunction_of_frame h
  have h4 := numlines_of_frame h
  have h5 := row_offsets_of_frame h
  exact ⟨h1, h2, h3, h4, h5⟩

/-- C11: each flag operation changes exactly its own flag bit and re-sends the owning
register.  `display` / `noDisplay`, `cursor` / `noCursor`, `blink` / `noBlink` replace
the control flags by the old ones with bit 0x04, 0x02, 0x01 set / cleared and are
exactly one command `0x08 | (new control flags)`; `leftToRight` / `rightToLeft`,
`autoscroll` / `noAutoscroll` do the same with bit 0x02, 0x01 of the entry mode flags
and the command `0x04 | (new entry mode flags)`.  In the replaced byte the named bit
has the new value and every other bit is unchanged; the other flag byte, the function
flags, the line count and the row offsets are the same after the command. -/
theorem flag_operations (s : Driver) (hc : s.displaycontrol < 256) (hm : s.displaymode < 256) :
    (display s = command (0x08 ||| (s.displaycontrol ||| 0x04)) { s with displaycontrol := s.displaycontrol ||| 0x04 }) ∧
    (noDisplay s = command (0x08 ||| (s.displaycontrol &&& not8 0x04)) { s with displaycontrol := s.displaycontrol &&& not8 0x04 }) ∧
    (cursor s = command (0x08 ||| (s.displaycontrol ||| 0x02)) { s with displaycontrol := s.displaycontrol ||| 0x02 }) ∧
    (noCursor s = command (0x08 ||| (s.displaycontrol &&& not8 0x02)) { s with displaycontrol := s.displaycontrol &&& not8 0x02 }) ∧
    (blink s = command (0x08 ||| (s.displaycontrol ||| 0x01)) { s with displaycontrol := s.displaycontrol ||| 0x01 }) ∧
    (noBlink s = command (0x08 ||| (s.displaycontrol &&& not8 0x01)) { s with displaycontrol := s.displaycontrol &&& not8 0x01 }) ∧
    (leftToRight s = command (0x04 ||| (s.displaymode ||| 0x02)) { s with displaymode := s.displaymode ||| 0x02 }) ∧
    (rightToLeft s = command (0x04 ||| (s.displaymode &&& not8 0x02)) { s with displaymode := s.displaymode &&& not8 0x02 }) ∧
    (autoscroll s = command (0x04 ||| (s.displaymode ||| 0x01)) { s with displaymode := s.displaymode ||| 0x01 }) ∧
    (noAutoscroll s = command (0x04 ||| (s.displaymode &&& not8 0x01)) { s with displaymode := s.displaymode &&& not8 0x01 }) ∧
    bitChanged 2 true s.displaycontrol (s.displaycontrol ||| 0x04) ∧
    bitChanged 2 false s.displaycontrol (s.displaycontrol &&& not8 0x04) ∧
    bitChanged 1 true s.displaycontrol (s.displaycontrol ||| 0x02) ∧
    bitChanged 1 false s.displaycontrol (s.displaycontrol &&& not8 0x02) ∧
    bitChanged 0 true s.displaycontrol (s.displaycontrol ||| 0x01) ∧
    bitChanged 0 false s.displaycontrol (s.displaycontrol &&& not8 0x01) ∧
    bitChanged 1 true s.displaymode (s.displaymode ||| 0x02) ∧
    bitChanged 1 false s.displaymode (s.displaymode &&& not8 0x02) ∧
    bitChanged 0 true s.displaymode (s.displaymode ||| 0x01) ∧
    bitChanged 0 false s.displaymode (s.displaymode &&& not8 0x01) ∧
    (∀ v c : Nat,
      (command v { s with displaycontrol := c }).displaycontrol = c ∧
      (command v { s with displaycontrol := c }).displaymode = s.displaymode ∧
      (command v { s with displaycontrol := c }).displayfunction = s.displayfunction ∧
      (command v { s with displaycontrol := c }).numlines = s.numlines ∧
      (command v { s with displaycontrol := c }).row_offsets = s.row_offsets) ∧
    (∀ v m : Nat,
      (command v { s with displaymode := m }).displaymode = m ∧
      (command v { s with displaymode := m }).displaycontrol = s.displaycontrol ∧
      (command v { s with displaymode := m }).displayfunction = s.displayfunction ∧
      (command v { s with displaymode := m }).numlines = s.numlines ∧
      (command v { s with displaymode := m }).row_offsets = s.row_offsets) :=
  ⟨rfl, rfl, rfl, rfl, rfl, rfl, rfl, rfl, rfl, rfl,
    bitChanged_or s.displaycontrol 2,
    bitChanged_and_not8 s.displaycontrol 2 hc (by decide),
    bitChanged_or s.displaycontrol 1,
    bitChanged_and_not8 s.displaycontrol 1 hc (by decide),
    bitChanged_or s.displaycontrol 0,
    bitChanged_and_not8 s.displaycontrol 0 hc (by decide),
    bitChanged_or s.displaymode 1,
    bitChanged_and_not8 s.displaymode 1 hm (by decide),
    bitChanged_or s.displaymode 0,
    bitChanged_and_not8 s.displaymode 0 hm (by decide),
    fun v c => command_after_control v c s, fun v m => command_after_mode v m s⟩

/-- Witness of C11: the freshly constructed instance `fast4`. -/
theorem flag_operations_witness :
    fast4.displaycontrol < 256 ∧ fast4.displaymode < 256 ∧
    display fast4 = command (0x08 ||| (fast4.displaycontrol ||| 0x04))
      { fast4 with displaycontrol := fast4.displaycontrol ||| 0x04 } :=
  ⟨by decide, by decide, (flag_operations fast4 (by decide) (by decide)).1⟩

/-! ## C17, C12: `writePin` and the backlight -/

theorem digitalPinToPort_eq_A_iff {pin : Nat} (hp : pin < 65536) :
    MCP23017_digitalPinToPort pin = MCP23017_GPIOA ↔ pin ≤ 0x00FF := by
  unfold MCP23017_digitalPinToPort
  rw [Nat.mod_eq_of_lt hp]
  constructor
  · intro h
    by_contra hc
    rw [if_pos (by omega)] at h
    exact absurd h (by decide)
  · intro h
    rw [if_neg (by omega)]

/-- C17: for every pin `p`, level and state, `writePin(p, level)` resolves `p` to port A
iff `p ≤ 0x00FF`, replaces the shadow byte of that port by `old | mask` when `level` is
non-zero and by `old & ~mask` when it is zero (`mask` the 8-bit mask of `p`), leaves the
other shadow byte and every other member unchanged, and emits exactly one transaction:
the register of the port and the new shadow byte. -/
theorem writePin_effect (pin level : Nat) (s : Driver) (hp : pin < 65536) :
    (MCP23017_digitalPinToPort pin = MCP23017_GPIOA ↔ pin ≤ 0x00FF) ∧
    (writePin pin level s).gpioa_value =
      (if pin ≤ 0x00FF then
        (if level ≠ 0 then s.gpioa_value ||| (MCP23017_digitalPinToBitMask pin % 256)
         else s.gpioa_value &&& not8 (MCP23017_digitalPinToBitMask pin % 256))
       else s.gpioa_value) ∧
    (writePin pin level s).gpiob_value =
      (if pin ≤ 0x00FF then s.gpiob_value
       else
        (if level ≠ 0 then s.gpiob_value ||| (MCP23017_digitalPinToBitMask pin % 256)
         else s.gpiob_value &&& not8 (MCP23017_digitalPinToBitMask pin % 256))) ∧
    (writePin pin level s).frame = s.frame ∧
    (writePin pin level s).trace = s.trace ++
      [Event.tx s.i2c_addr (if pin ≤ 0x00FF then MCP23017_GPIOA else MCP23017_GPIOB)
        (if pin ≤ 0x00FF then (writePin pin level s).gpioa_value
         else (writePin pin level s).gpiob_value)] := by
  have hiff := digitalPinToPort_eq_A_iff hp
  have ht := trace_writePin pin level s
  have ha := gpioa_writePin pin level s
  have hb := gpiob_writePin pin level s
  by_cases h : pin ≤ 0x00FF
  · have e : MCP23017_GPIOA = MCP23017_digitalPinToPort pin := (hiff.2 h).symm
    rw [if_pos e] at ha hb ht
    refine ⟨hiff, ?_, ?_, frame_writePin pin level s, ?_⟩
    · rw [if_pos h]
      exact ha
    · rw [if_pos h]
      exact hb
    · rw [if_pos h, if_pos h, ht, ← e]
  · have e : ¬ MCP23017_GPIOA = MCP23017_digitalPinToPort pin := fun e => h (hiff.1 e.symm)
    have eB : MCP23017_digitalPinToPort pin = MCP23017_GPIOB := by
      rcases digitalPinToPort_cases pin with h1 | h1
      · exact absurd h1.symm e
      · exact h1
    rw [if_neg e] at ha hb ht
    refine ⟨hiff, ?_, ?_, frame_writePin pin level s, ?_⟩
    · rw [if_neg h]
      exact ha
    · rw [if_neg h]
      exact hb
    · rw [if_neg h, if_neg h, ht, eB]

/-- Witness of C17: the enable pin PA5 of `fast4` driven high. -/
theorem writePin_effect_witness :
    MCP23017_PA5 < 65536 ∧
    (writePin MCP23017_PA5 HIGH fast4).gpioa_value =
      (if MCP23017_PA5 ≤ 0x00FF then
        (if HIGH ≠ 0 then
          fast4.gpioa_value ||| (MCP23017_digitalPinToBitMask MCP23017_PA5 % 256)
         else fast4.gpioa_value &&& not8 (MCP23017_digitalPinToBitMask MCP23017_PA5 % 256))
       else fast4.gpioa_value) ∧
    (writePin MCP23017_PA5 HIGH fast4).frame = fast4.frame :=
  ⟨by decide, (writePin_effect MCP23017_PA5 HIGH fast4 (by decide)).2.1,
    (writePin_effect MCP23017_PA5 HIGH fast4 (by decide)).2.2.2.1⟩

/-- C12: if no backlight pin was wired (`_backlight_pin = 0`), `backlight()` and
`noBacklight()` leave the whole state unchanged, so nothing is emitted; if one is wired,
they are `writePin(_backlight_pin, HIGH)` and `writePin(_backlight_pin, LOW)`:
`backlight()` sets and `noBacklight()` clears exactly the mask of that pin in the shadow
byte of its port, the other shadow byte and the other members are unchanged, and exactly
one transaction is emitted, carrying the register of the port and the new shadow byte. -/
theorem backlight_effect (s : Driver) :
    (s.backlight_pin = 0 → backlight s = s ∧ noBacklight s = s) ∧
    (s.backlight_pin ≠ 0 →
      backlight s = writePin s.backlight_pin HIGH s ∧
      noBacklight s = writePin s.backlight_pin LOW s ∧
      (backlight s).gpioa_value =
        (if MCP23017_GPIOA = MCP23017_digitalPinToPort s.backlight_pin then
          s.gpioa_value ||| (MCP23017_digitalPinToBitMask s.backlight_pin % 256)
         else s.gpioa_value) ∧
      (backlight s).gpiob_value =
        (if MCP23017_GPIOA = MCP23017_digitalPinToPort s.backlight_pin then s.gpiob_value
         else s.gpiob_value ||| (MCP23017_digitalPinToBitMask s.backlight_pin % 256)) ∧
      (noBacklight s).gpioa_value =
        (if MCP23017_GPIOA = MCP23017_digitalPinToPort s.backlight_pin then
          s.gpioa_value &&& not8 (MCP23017_digitalPinToBitMask s.backlight_pin % 256)
         else s.gpioa_value) ∧
      (noBacklight s).gpiob_value =
        (if MCP23017_GPIOA = MCP23017_digitalPinToPort s.backlight_pin then s.gpiob_value
         else s.gpiob_value &&& not8 (MCP23017_digitalPinToBitMask s.backlight_pin % 256)) ∧
      (backlight s).frame = s.frame ∧ (noBacklight s).frame = s.frame ∧
      (backlight s).trace = s.trace ++
        [Event.tx s.i2c_addr (MCP23017_digitalPinToPort s.backlight_pin)
          (if MCP23017_GPIOA = MCP23017_digitalPinToPort s.backlight_pin
           then (backlight s).gpioa_value else (backlight s).gpiob_value)] ∧
      (noBacklight s).trace = s.trace ++
        [Event.tx s.i2c_addr (MCP23017_digitalPinToPort s.backlight_pin)
          (if MCP23017_GPIOA = MCP23017_digitalPinToPort s.backlight_pin
           then (noBacklight s).gpioa_value else (noBacklight s).gpiob_value)]) := by
  have h1 : (HIGH : Nat) ≠ 0 := by decide
  have h0 : ¬ ((LOW : Nat) ≠ 0) := by decide
  constructor
  · intro h
    unfold backlight noBacklight
    rw [if_neg (fun e => e h.symm), if_neg (fun e => e h.symm)]
    exact ⟨rfl, rfl⟩
  · intro h
    have eb : backlight s = writePin s.backlight_pin HIGH s := by
      unfold backlight
      rw [if_pos (Ne.symm h)]
    have en : noBacklight s = writePin s.backlight_pin LOW s := by
      unfold noBacklight
      rw [if_pos (Ne.symm h)]
    refine ⟨eb, en, ?_, ?_, ?_, ?_, ?_, ?_, ?_, ?_⟩
    · rw [eb, gpioa_writePin]
      simp only [if_pos h1]
    · rw [eb, gpiob_writePin]
      simp only [if_pos h1]
    · rw [en, gpioa_writePin]
      simp only [if_neg h0]
    · rw [en, gpiob_writePin]
      simp only [if_neg h0]
    · rw [eb]
      exact frame_writePin _ _ _
    · rw [en]
      exact frame_writePin _ _ _
    · rw [eb]
      exact trace_writePin _ _ _
    · rw [en]
      exact trace_writePin _ _ _

/-- Witness of C12: `plain4` has no backlight pin, `fast4` has PA1. -/
theorem backlight_effect_witness :
    plain4.backlight_pin = 0 ∧ backlight plain4 = plain4 ∧ noBacklight plain4 = plain4 ∧
    fast4.backlight_pin ≠ 0 ∧
    backlight fast4 = writePin fast4.backlight_pin HIGH fast4 ∧
    noBacklight fast4 = writePin fast4.backlight_pin LOW fast4 :=
  ⟨rfl, ((backlight_effect plain4).1 rfl).1, ((backlight_effect plain4).1 rfl).2,
    by decide, ((backlight_effect fast4).2 (by decide)).1,
    ((backlight_effect fast4).2 (by decide)).2.1⟩

/-! ## C13: the shadow bytes and the last register writes -/

theorem lastWrite_append_tx (reg a r v : Nat) (t : List Event) :
    lastWrite reg (t ++ [Event.tx a r v]) = if r = reg then some v else lastWrite reg t := by
  unfold lastWrite
  rw [List.foldl_append]
  rfl

theorem lastWrite_append_delay (reg us : Nat) (t : List Event) :
    lastWrite reg (t ++ [Event.delay us]) = lastWrite reg t := by
  unfold lastWrite
  rw [List.foldl_append]
  rfl

theorem mirror_delayMicroseconds (us : Nat) (s : Driver) (h : Mirror s) :
    Mirror (delayMicroseconds us s) := by
  unfold Mirror delayMicroseconds
  dsimp only
  rw [lastWrite_append_delay, lastWrite_append_delay]
  exact h

theorem mirror_writePin (pin v : Nat) (s : Driver) (h : Mirror s) : Mirror (writePin pin v s) := by
  have ha := gpioa_writePin pin v s
  have hb := gpiob_writePin pin v s
  unfold Mirror
  rw [trace_writePin, lastWrite_append_tx, lastWrite_append_tx]
  rcases digitalPinToPort_cases pin with hp | hp
  · have e : MCP23017_GPIOA = MCP23017_digitalPinToPort pin := hp.symm
    rw [if_pos e] at hb
    rw [if_pos e, hp, if_pos rfl, if_neg (by decide), hb]
    exact ⟨rfl, h.2⟩
  · have e : ¬ MCP23017_GPIOA = MCP23017_digitalPinToPort pin := by
      rw [hp]
      decide
    rw [if_neg e] at ha
    rw [if_neg e, hp, if_neg (by decide), if_pos rfl, ha]
    exact ⟨h.1, rfl⟩

theorem mirror_pulseEnable (s : Driver) (h : Mirror s) : Mirror (pulseEnable s) := by
  unfold pulseEnable writeEnable
  exact mirror_delayMicroseconds _ _ (mirror_writePin _ _ _ (mirror_delayMicroseconds _ _
    (mirror_writePin _ _ _ (mirror_delayMicroseconds _ _ (mirror_writePin _ _ _ h)))))

theorem mirror_writeDataPins (v : Nat) (idx : List (Fin 8)) (s : Driver) (h : Mirror s) :
    Mirror (writeDataPins v idx s) := by
  induction idx generalizing s with
  | nil => exact h
  | cons i rest ih => exact ih _ (mirror_writePin _ _ _ h)

theorem mirror_write4bits (v : Nat) (s : Driver) (hv : validPort s.data_port) (h : Mirror s) :
    Mirror (write4bits v s) := by
  unfold write4bits
  dsimp only
  split_ifs with h0 hA
  · exact mirror_pulseEnable _ (mirror_writeDataPins _ _ _ h)
  · apply mirror_pulseEnable
    unfold Mirror
    rw [trace_writeRegister, lastWrite_append_tx, lastWrite_append_tx, gpioa_writeRegister,
      gpiob_writeRegister, ← hA, if_pos rfl, if_neg (by decide)]
    exact ⟨rfl, h.2⟩
  · have hB : s.data_port = MCP23017_GPIOB := by
      rcases hv with h1 | h1 | h1
      · exact absurd h1.symm h0
      · exact absurd h1.symm hA
      · exact h1
    apply mirror_pulseEnable
    unfold Mirror
    rw [trace_writeRegister, lastWrite_append_tx, lastWrite_append_tx, gpioa_writeRegister,
      gpiob_writeRegister, hB, if_neg (by decide), if_pos rfl]
    exact ⟨h.1, rfl⟩

theorem mirror_write8bits_slow (v : Nat) (s : Driver) (h0 : 0 = s.data_port) (h : Mirror s) :
    Mirror (write8bits v s) := by
  unfold write8bits
  dsimp only
  rw [if_pos h0]
  exact mirror_pulseEnable _ (mirror_writeDataPins _ _ _ h)

theorem write8bits_fast (v : Nat) (s : Driver) (h0 : 0 ≠ s.data_port) :
    write8bits v s = pulseEnable (writeRegister s.data_port v s) := by
  unfold write8bits
  dsimp only
  rw [if_neg h0]

/-- C13 (defect of the code): `writePin`, `write4bits` (slow path and consolidated fast
path) and the slow path of `write8bits` keep each shadow byte equal to the value most
recently written to its output register, but the consolidated fast path of `write8bits`
is `writeRegister(_data_port, value)` followed by the enable pulse, without any
assignment to the shadow byte.  On the instance `default8` of the one-argument
constructor (8-bit, data pins on port B) the state after `begin(16, 2)` is reachable,
the value most recently written to GPIOB is 0x06 and the shadow byte of port B is 0x00:
the shadow byte does not mirror its port. -/
theorem write8bits_fast_path_leaves_shadow_stale :
    (∀ (pin v : Nat) (s : Driver), Mirror s → Mirror (writePin pin v s)) ∧
    (∀ (v : Nat) (s : Driver), validPort s.data_port → Mirror s → Mirror (write4bits v s)) ∧
    (∀ (v : Nat) (s : Driver), 0 = s.data_port → Mirror s → Mirror (write8bits v s)) ∧
    (∀ (v : Nat) (s : Driver), 0 ≠ s.data_port →
      write8bits v s = pulseEnable (writeRegister s.data_port v s)) ∧
    Reachable (begin 16 2 LCD_5x8DOTS default8) ∧
    default8.displayfunction &&& LCD_8BITMODE ≠ 0 ∧
    default8.data_port = MCP23017_GPIOB ∧
    lastWrite MCP23017_GPIOB (begin 16 2 LCD_5x8DOTS default8).trace = some 0x06 ∧
    (begin 16 2 LCD_5x8DOTS default8).gpiob_value = 0x00 ∧
    ¬ Mirror (begin 16 2 LCD_5x8DOTS default8) := by
  refine ⟨mirror_writePin, mirror_write4bits, mirror_write8bits_slow, write8bits_fast,
    Reachable.step (Op.begin 16 2 LCD_5x8DOTS) default8 _ none
      (Reachable.constructed _ _ _ _ _ _ _ _ _ _ _ _ _ _ _) rfl,
    by decide, by decide, ?_, ?_, ?_⟩
  · set_option maxRecDepth 100000 in decide
  · set_option maxRecDepth 100000 in decide
  · set_option maxRecDepth 100000 in decide

/-! ## C14: the consolidated fast path of `write4bits` -/

theorem testBit_0x0f (i : Nat) : (0x0f : Nat).testBit i = decide (i < 4) := by
  have h : (0x0f : Nat) = 2 ^ 4 - 1 := by decide
  rw [h, Nat.testBit_two_pow_sub_one]

theorem testBit_0xf0 (i : Nat) : (0xf0 : Nat).testBit i = (decide (i < 8) ^^ decide (i < 4)) := by
  have h : (0xf0 : Nat) = (2 ^ 8 - 1) ^^^ (2 ^ 4 - 1) := by decide
  rw [h, Nat.testBit_xor, Nat.testBit_two_pow_sub_one, Nat.testBit_two_pow_sub_one]

/-- Bit `i` of the byte that the fast path of `write4bits` writes: bit `i` of the old
shadow byte in the low half, bit `i` of the value in the high half. -/
theorem testBit_merge_nibbles (old v i : Nat) :
    ((old &&& 0x0f) ||| (v &&& 0xf0)).testBit i =
      if i < 4 then old.testBit i else if i < 8 then v.testBit i else false := by
  rw [Nat.testBit_or, Nat.testBit_and, Nat.testBit_and, testBit_0x0f, testBit_0xf0]
  by_cases h4 : i < 4
  · have h8 : i < 8 := by omega
    simp [h4, h8]
  · by_cases h8 : i < 8
    · simp [h4, h8]
    · simp [h4, h8]

theorem merge_nibbles_low (old v : Nat) :
    ((old &&& 0x0f) ||| (v &&& 0xf0)) &&& 0x0f = old &&& 0x0f := by
  apply Nat.eq_of_testBit_eq
  intro i
  rw [Nat.testBit_and, testBit_merge_nibbles, Nat.testBit_and, testBit_0x0f]
  by_cases h4 : i < 4
  · simp [h4]
  · simp [h4]

theorem merge_nibbles_high (old v : Nat) :
    ((old &&& 0x0f) ||| (v &&& 0xf0)) &&& 0xf0 = v &&& 0xf0 := by
  apply Nat.eq_of_testBit_eq
  intro i
  rw [Nat.testBit_and, testBit_merge_nibbles, Nat.testBit_and, testBit_0xf0]
  by_cases h4 : i < 4
  · have h8 : i < 8 := by omega
    simp [h4, h8]
  · by_cases h8 : i < 8
    · simp [h4, h8]
    · simp [h4, h8]

/-- C14: when the four data pins are consolidated on port X, `write4bits(v)` is one
data transaction followed by the enable pulse; the data transaction writes
`(old_X & 0x0F) | (v & 0xF0)` to the register of X and stores it as the shadow byte of
X, the shadow byte of the other port is not changed by it; the low half of the new
byte is the low half of the old one and the high half is that of `v` (old 0xAB with
`v = 0xC0` gives 0xCB). -/
theorem write4bits_consolidated (v : Nat) (s : Driver) :
    (s.data_port = MCP23017_GPIOA →
      write4bits v s =
        pulseEnable (writeRegister MCP23017_GPIOA ((s.gpioa_value &&& 0x0f) ||| (v &&& 0xf0))
          { s with gpioa_value := (s.gpioa_value &&& 0x0f) ||| (v &&& 0xf0) }) ∧
      (writeRegister MCP23017_GPIOA ((s.gpioa_value &&& 0x0f) ||| (v &&& 0xf0))
          { s with gpioa_value := (s.gpioa_value &&& 0x0f) ||| (v &&& 0xf0) }).trace =
        s.trace ++ [Event.tx s.i2c_addr MCP23017_GPIOA
          ((s.gpioa_value &&& 0x0f) ||| (v &&& 0xf0))] ∧
      (writeRegister MCP23017_GPIOA ((s.gpioa_value &&& 0x0f) ||| (v &&& 0xf0))
          { s with gpioa_value := (s.gpioa_value &&& 0x0f) ||| (v &&& 0xf0) }).gpioa_value =
        (s.gpioa_value &&& 0x0f) ||| (v &&& 0xf0) ∧
      (writeRegister MCP23017_GPIOA ((s.gpioa_value &&& 0x0f) ||| (v &&& 0xf0))
          { s with gpioa_value := (s.gpioa_value &&& 0x0f) ||| (v &&& 0xf0) }).gpiob_value =
        s.gpiob_value) ∧
    (s.data_port = MCP23017_GPIOB →
      write4bits v s =
        pulseEnable (writeRegister MCP23017_GPIOB ((s.gpiob_value &&& 0x0f) ||| (v &&& 0xf0))
          { s with gpiob_value := (s.gpiob_value &&& 0x0f) ||| (v &&& 0xf0) }) ∧
      (writeRegister MCP23017_GPIOB ((s.gpiob_value &&& 0x0f) ||| (v &&& 0xf0))
          { s with gpiob_value := (s.gpiob_value &&& 0x0f) ||| (v &&& 0xf0) }).trace =
        s.trace ++ [Event.tx s.i2c_addr MCP23017_GPIOB
          ((s.gpiob_value &&& 0x0f) ||| (v &&& 0xf0))] ∧
      (writeRegister MCP23017_GPIOB ((s.gpiob_value &&& 0x0f) ||| (v &&& 0xf0))
          { s with gpiob_value := (s.gpiob_value &&& 0x0f) ||| (v &&& 0xf0) }).gpiob_value =
        (s.gpiob_value &&& 0x0f) ||| (v &&& 0xf0) ∧
      (writeRegister MCP23017_GPIOB ((s.gpiob_value &&& 0x0f) ||| (v &&& 0xf0))
          { s with gpiob_value := (s.gpiob_value &&& 0x0f) ||| (v &&& 0xf0) }).gpioa_value =
        s.gpioa_value) ∧
    (∀ old : Nat, ((old &&& 0x0f) ||| (v &&& 0xf0)) &&& 0x0f = old &&& 0x0f ∧
      ((old &&& 0x0f) ||| (v &&& 0xf0)) &&& 0xf0 = v &&& 0xf0) ∧
    (0xAB &&& 0x0f) ||| (0xC0 &&& 0xf0) = 0xCB := by
  refine ⟨?_, ?_, fun old => ⟨merge_nibbles_low old v, merge_nibbles_high old v⟩, by decide⟩
  · intro h
    refine ⟨?_, trace_writeRegister _ _ _, gpioa_writeRegister _ _ _,
      gpiob_writeRegister _ _ _⟩
    unfold write4bits
    dsimp only
    rw [h, if_neg (by decide), if_pos rfl]
  · intro h
    refine ⟨?_, trace_writeRegister _ _ _, gpiob_writeRegister _ _ _,
      gpioa_writeRegister _ _ _⟩
    unfold write4bits
    dsimp only
    rw [h, if_neg (by decide), if_neg (by decide)]

/-- Witness of C14: `fast4` (data pins consolidated on port B) and the value 0xC0. -/
theorem write4bits_consolidated_witness :
    fast4.data_port = MCP23017_GPIOB ∧
    write4bits 0xC0 fast4 =
      pulseEnable (writeRegister MCP23017_GPIOB ((fast4.gpiob_value &&& 0x0f) ||| (0xC0 &&& 0xf0))
        { fast4 with gpiob_value := (fast4.gpiob_value &&& 0x0f) ||| (0xC0 &&& 0xf0) }) :=
  ⟨by decide, ((write4bits_consolidated 0xC0 fast4).2.1 (by decide)).1⟩

/-! ## C15: the two pin macros -/

theorem digitalPinToPort_eq_B_iff {pin : Nat} (hp : pin < 65536) :
    MCP23017_digitalPinToPort pin = MCP23017_GPIOB ↔ 0x00FF < pin := by
  unfold MCP23017_digitalPinToPort
  rw [Nat.mod_eq_of_lt hp]
  constructor
  · intro h
    by_contra hc
    rw [if_neg hc] at h
    exact absurd h (by decide)
  · intro h
    rw [if_pos h]

theorem bitMask_of_one_hot : ∀ k : Nat, k < 16 →
    (∃ j, j < 8 ∧ MCP23017_digitalPinToBitMask (2 ^ k) % 256 = 2 ^ j) ∧
    MCP23017_digitalPinToBitMask (2 ^ k) % 256 = 2 ^ (k % 8) ∧
    (k < 8 → MCP23017_digitalPinToBitMask (2 ^ k) % 256 = 2 ^ k) ∧
    (8 ≤ k → MCP23017_digitalPinToBitMask (2 ^ k) % 256 = 2 ^ k >>> 8) := by
  decide

theorem bitMask_narrowed (p : Nat) (hp : p < 65536) :
    MCP23017_digitalPinToBitMask p % 256 = if p ≤ 0x00FF then p else p >>> 8 := by
  unfold MCP23017_digitalPinToBitMask
  rw [Nat.mod_eq_of_lt hp]
  by_cases h : p ≤ 0x00FF
  · rw [if_neg (by omega), if_pos h]
    exact Nat.mod_eq_of_lt (by omega)
  · rw [if_pos (by omega), if_neg h, Nat.shiftRight_eq_div_pow]
    exact Nat.mod_eq_of_lt (by omega)

theorem zero_ne_two_pow (j : Nat) : (0 : Nat) ≠ 2 ^ j :=
  Nat.ne_of_lt (Nat.two_pow_pos j)

/-- C15 (as amended): for every 16-bit pin value `p`, `MCP23017_digitalPinToPort(p)` is
the register of port A (0x12) iff `p ≤ 0x00FF` and the register of port B (0x13)
otherwise, and `MCP23017_digitalPinToBitMask(p)` narrowed to 8 bits is `p` itself on
port A and `p >> 8` on port B; for every `p` with a single set bit (`p = 2^k`, `k < 16`:
the sixteen pin constants) that mask has exactly one bit set, bit `k mod 8`; for the
sentinel `p = 0` (a pin that is not wired) the mask is 0 and has no bit set. -/
theorem resolve_pin (p : Nat) (hp : p < 65536) :
    (MCP23017_digitalPinToPort p = MCP23017_GPIOA ↔ p ≤ 0x00FF) ∧
    (MCP23017_digitalPinToPort p = MCP23017_GPIOB ↔ ¬ p ≤ 0x00FF) ∧
    (∀ k : Nat, k < 16 → p = 2 ^ k →
      (∃ j, j < 8 ∧ MCP23017_digitalPinToBitMask p % 256 = 2 ^ j) ∧
      MCP23017_digitalPinToBitMask p % 256 = 2 ^ (k % 8) ∧
      (p ≤ 0x00FF → MCP23017_digitalPinToBitMask p % 256 = p) ∧
      (¬ p ≤ 0x00FF → MCP23017_digitalPinToBitMask p % 256 = p >>> 8)) ∧
    MCP23017_digitalPinToBitMask p % 256 = (if p ≤ 0x00FF then p else p >>> 8) ∧
    (p = 0 → MCP23017_digitalPinToBitMask p % 256 = 0 ∧
      ∀ j : Nat, MCP23017_digitalPinToBitMask p % 256 ≠ 2 ^ j) := by
  refine ⟨digitalPinToPort_eq_A_iff hp, ?_, ?_, bitMask_narrowed p hp, ?_⟩
  · rw [digitalPinToPort_eq_B_iff hp]
    omega
  · intro k hk hpk
    subst hpk
    obtain ⟨h1, h2, h3, h4⟩ := bitMask_of_one_hot k hk
    refine ⟨h1, h2, fun hle => h3 ?_, fun hgt => h4 ?_⟩
    · by_contra hc
      have h8 : (2 : Nat) ^ 8 ≤ 2 ^ k := Nat.pow_le_pow_right (by decide) (by omega)
      omega
    · by_contra hc
      have h8 : (2 : Nat) ^ k ≤ 2 ^ 7 := Nat.pow_le_pow_right (by decide) (by omega)
      omega
  · intro h0
    subst h0
    exact ⟨rfl, zero_ne_two_pow⟩

/-- Witness of C15 (amended): the pin PB3. -/
theorem resolve_pin_witness :
    MCP23017_PB3 < 65536 ∧
    (MCP23017_digitalPinToPort MCP23017_PB3 = MCP23017_GPIOB ↔ ¬ MCP23017_PB3 ≤ 0x00FF) ∧
    MCP23017_digitalPinToPort MCP23017_PB3 = MCP23017_GPIOB ∧
    MCP23017_digitalPinToBitMask MCP23017_PB3 % 256 = 2 ^ (11 % 8) :=
  ⟨by decide, (resolve_pin MCP23017_PB3 (by decide)).2.1, by decide,
    ((resolve_pin MCP23017_PB3 (by decide)).2.2.1 11 (by decide) (by decide)).2.1⟩

/-- C15 (counterexample): the pin value 0, the sentinel of a pin that is not wired, is
on port A and its mask narrowed to 8 bits is 0, which has no bit set, not exactly one;
the driver does pass it to the two macros: on `plain4`, whose R/W pin is 0,
`writeRW(LOW)` is `writePin(0, LOW)` and writes the unchanged shadow byte to GPIOA. -/
theorem resolve_sentinel_mask_has_no_bit :
    (0 : Nat) < 65536 ∧
    MCP23017_digitalPinToPort 0 = MCP23017_GPIOA ∧
    MCP23017_digitalPinToBitMask 0 % 256 = 0 ∧
    (∀ j : Nat, MCP23017_digitalPinToBitMask 0 % 256 ≠ 2 ^ j) ∧
    ¬ (∃ j : Nat, j < 8 ∧ MCP23017_digitalPinToBitMask 0 % 256 = 2 ^ j) ∧
    plain4.rw_pin = 0 ∧
    writeRW LOW plain4 = writePin 0 LOW plain4 ∧
    (writeRW LOW plain4).trace = [Event.tx 0x20 MCP23017_GPIOA 0x00] := by
  refine ⟨by decide, by decide, by decide, zero_ne_two_pow, ?_, by decide, rfl, by decide⟩
  rintro ⟨j, _, hj⟩
  exact zero_ne_two_pow j hj

/-! ## C20: the index into the row offsets -/

/-- C20: for every `row` and every configured line count `numLines` with
`1 ≤ numLines ≤ 4`, the index with which `setCursor` reads the row offsets is `< 4` and
`< numLines`, so `setCursor` reads inside the four-entry table; the precondition is
needed: with `numLines = 0` the index is 255 and the read is out of bounds. -/
theorem setCursor_index_in_bounds (numlines row : Nat) (h1 : 1 ≤ numlines)
    (h4 : numlines ≤ 4) :
    cursorRow numlines row < 4 ∧ cursorRow numlines row < numlines ∧
    (∀ (col : Nat) (s : Driver), s.numlines = numlines → (setCursor col row s).isSome = true) ∧
    cursorRow 0 row = 255 ∧
    (∀ (col : Nat) (s : Driver), s.numlines = 0 → setCursor col row s = none) := by
  have hr := cursorRow_of_le_four numlines row h1 h4
  have h0 : cursorRow 0 row = 255 := by
    unfold cursorRow
    dsimp only
    split_ifs <;> first | rfl | omega
  refine ⟨by omega, by omega, ?_, h0, ?_⟩
  · intro col s hs
    have hlt : min row (numlines - 1) < 4 := by omega
    rw [setCursor_eq col row s ⟨min row (numlines - 1), hlt⟩ (by rw [hs]; exact hr)]
    rfl
  · intro col s hs
    unfold setCursor
    rw [hs, dif_neg (by rw [h0]; decide)]

/-- Witness of C20: a two-line display and row 9. -/
theorem setCursor_index_in_bounds_witness :
    1 ≤ 2 ∧ 2 ≤ 4 ∧ cursorRow 2 9 < 4 ∧ cursorRow 2 9 < 2 :=
  ⟨by decide, by decide, (setCursor_index_in_bounds 2 9 (by decide) (by decide)).1,
    (setCursor_index_in_bounds 2 9 (by decide) (by decide)).2.1⟩

/-! ## C16: the consolidation computed by `init` -/

theorem data_port_init_4bit (i2c_addr rs rw en bl d0 d1 d2 d3 d4 d5 d6 d7 : Nat) (s0 : Driver) :
    (init true i2c_addr rs rw en bl d0 d1 d2 d3 d4 d5 d6 d7 s0).data_port =
      if MCP23017_digitalPinToPort d4 = MCP23017_digitalPinToPort d5 ∧
          MCP23017_digitalPinToPort d4 = MCP23017_digitalPinToPort d6 ∧
          MCP23017_digitalPinToPort d4 = MCP23017_digitalPinToPort d7
      then MCP23017_digitalPinToPort d4 else 0 := by
  have e4 : dataPinsOf d0 d1 d2 d3 d4 d5 d6 d7 4 = d4 := rfl
  have e5 : dataPinsOf d0 d1 d2 d3 d4 d5 d6 d7 5 = d5 := rfl
  have e6 : dataPinsOf d0 d1 d2 d3 d4 d5 d6 d7 6 = d6 := rfl
  have e7 : dataPinsOf d0 d1 d2 d3 d4 d5 d6 d7 7 = d7 := rfl
  simp only [init, scanDataPort, e4, e5, e6, e7, if_true]
  generalize MCP23017_digitalPinToPort d4 = p4
  generalize MCP23017_digitalPinToPort d5 = p5
  generalize MCP23017_digitalPinToPort d6 = p6
  generalize MCP23017_digitalPinToPort d7 = p7
  split_ifs <;> omega

theorem data_port_init_8bit (i2c_addr rs rw en bl d0 d1 d2 d3 d4 d5 d6 d7 : Nat) (s0 : Driver) :
    (init false i2c_addr rs rw en bl d0 d1 d2 d3 d4 d5 d6 d7 s0).data_port =
      if MCP23017_digitalPinToPort d0 = MCP23017_digitalPinToPort d1 ∧
          MCP23017_digitalPinToPort d0 = MCP23017_digitalPinToPort d2 ∧
          MCP23017_digitalPinToPort d0 = MCP23017_digitalPinToPort d3 ∧
          MCP23017_digitalPinToPort d0 = MCP23017_digitalPinToPort d4 ∧
          MCP23017_digitalPinToPort d0 = MCP23017_digitalPinToPort d5 ∧
          MCP23017_digitalPinToPort d0 = MCP23017_digitalPinToPort d6 ∧
          MCP23017_digitalPinToPort d0 = MCP23017_digitalPinToPort d7
      then MCP23017_digitalPinToPort d0 else 0 := by
  have e0 : dataPinsOf d0 d1 d2 d3 d4 d5 d6 d7 0 = d0 := rfl
  have e1 : dataPinsOf d0 d1 d2 d3 d4 d5 d6 d7 1 = d1 := rfl
  have e2 : dataPinsOf d0 d1 d2 d3 d4 d5 d6 d7 2 = d2 := rfl
  have e3 : dataPinsOf d0 d1 d2 d3 d4 d5 d6 d7 3 = d3 := rfl
  have e4 : dataPinsOf d0 d1 d2 d3 d4 d5 d6 d7 4 = d4 := rfl
  have e5 : dataPinsOf d0 d1 d2 d3 d4 d5 d6 d7 5 = d5 := rfl
  have e6 : dataPinsOf d0 d1 d2 d3 d4 d5 d6 d7 6 = d6 := rfl
  have e7 : dataPinsOf d0 d1 d2 d3 d4 d5 d6 d7 7 = d7 := rfl
  simp only [init, scanDataPort, e0, e1, e2, e3, e4, e5, e6, e7, Bool.false_eq_true, if_false]
  generalize MCP23017_digitalPinToPort d0 = p0
  generalize MCP23017_digitalPinToPort d1 = p1
  generalize MCP23017_digitalPinToPort d2 = p2
  generalize MCP23017_digitalPinToPort d3 = p3
  generalize MCP23017_digitalPinToPort d4 = p4
  generalize MCP23017_digitalPinToPort d5 = p5
  generalize MCP23017_digitalPinToPort d6 = p6
  generalize MCP23017_digitalPinToPort d7 = p7
  split_ifs <;> omega

theorem ports_of_active_4bit (d0 d1 d2 d3 d4 d5 d6 d7 : Nat)
    (h5 : MCP23017_digitalPinToPort d4 = MCP23017_digitalPinToPort d5)
    (h6 : MCP23017_digitalPinToPort d4 = MCP23017_digitalPinToPort d6)
    (h7 : MCP23017_digitalPinToPort d4 = MCP23017_digitalPinToPort d7)
    (i : Fin 8) (hi : 4 ≤ i.val) :
    MCP23017_digitalPinToPort (dataPinsOf d0 d1 d2 d3 d4 d5 d6 d7 i) =
      MCP23017_digitalPinToPort d4 := by
  fin_cases i
  · exact absurd hi (by decide)
  · exact absurd hi (by decide)
  · exact absurd hi (by decide)
  · exact absurd hi (by decide)
  · rfl
  · exact h5.symm
  · exact h6.symm
  · exact h7.symm

theorem ports_of_active_8bit (d0 d1 d2 d3 d4 d5 d6 d7 : Nat)
    (h1 : MCP23017_digitalPinToPort d0 = MCP23017_digitalPinToPort d1)
    (h2 : MCP23017_digitalPinToPort d0 = MCP23017_digitalPinToPort d2)
    (h3 : MCP23017_digitalPinToPort d0 = MCP23017_digitalPinToPort d3)
    (h4 : MCP23017_digitalPinToPort d0 = MCP23017_digitalPinToPort d4)
    (h5 : MCP23017_digitalPinToPort d0 = MCP23017_digitalPinToPort d5)
    (h6 : MCP23017_digitalPinToPort d0 = MCP23017_digitalPinToPort d6)
    (h7 : MCP23017_digitalPinToPort d0 = MCP23017_digitalPinToPort d7)
    (i : Fin 8) :
    MCP23017_digitalPinToPort (dataPinsOf d0 d1 d2 d3 d4 d5 d6 d7 i) =
      MCP23017_digitalPinToPort d0 := by
  fin_cases i
  · rfl
  · exact h1.symm
  · exact h2.symm
  · exact h3.symm
  · exact h4.symm
  · exact h5.symm
  · exact h6.symm
  · exact h7.symm

/-- C16: for every wiring table and both transfer widths, the `_data_port` computed by
`init` is the common port (0x12 or 0x13) when every active data pin (entries 4..7 in
4-bit mode, 0..7 in 8-bit mode) maps to the same port, and 0 when two active data pins
map to different ports; in 4-bit mode the entries 0..3 do not affect the result. -/
theorem init_consolidation (i2c_addr rs rw en bl d0 d1 d2 d3 d4 d5 d6 d7 : Nat) (s0 : Driver) :
    ((∀ i j : Fin 8, 4 ≤ i.val → 4 ≤ j.val →
        MCP23017_digitalPinToPort (dataPinsOf d0 d1 d2 d3 d4 d5 d6 d7 i) =
          MCP23017_digitalPinToPort (dataPinsOf d0 d1 d2 d3 d4 d5 d6 d7 j)) →
      (init true i2c_addr rs rw en bl d0 d1 d2 d3 d4 d5 d6 d7 s0).data_port =
        MCP23017_digitalPinToPort d4) ∧
    ((∃ i j : Fin 8, 4 ≤ i.val ∧ 4 ≤ j.val ∧
        MCP23017_digitalPinToPort (dataPinsOf d0 d1 d2 d3 d4 d5 d6 d7 i) ≠
          MCP23017_digitalPinToPort (dataPinsOf d0 d1 d2 d3 d4 d5 d6 d7 j)) →
      (init true i2c_addr rs rw en bl d0 d1 d2 d3 d4 d5 d6 d7 s0).data_port = 0) ∧
    ((∀ i j : Fin 8,
        MCP23017_digitalPinToPort (dataPinsOf d0 d1 d2 d3 d4 d5 d6 d7 i) =
          MCP23017_digitalPinToPort (dataPinsOf d0 d1 d2 d3 d4 d5 d6 d7 j)) →
      (init false i2c_addr rs rw en bl d0 d1 d2 d3 d4 d5 d6 d7 s0).data_port =
        MCP23017_digitalPinToPort d0) ∧
    ((∃ i j : Fin 8,
        MCP23017_digitalPinToPort (dataPinsOf d0 d1 d2 d3 d4 d5 d6 d7 i) ≠
          MCP23017_digitalPinToPort (dataPinsOf d0 d1 d2 d3 d4 d5 d6 d7 j)) →
      (init false i2c_addr rs rw en bl d0 d1 d2 d3 d4 d5 d6 d7 s0).data_port = 0) ∧
    (MCP23017_digitalPinToPort d4 = MCP23017_GPIOA ∨
      MCP23017_digitalPinToPort d4 = MCP23017_GPIOB) ∧
    (MCP23017_digitalPinToPort d0 = MCP23017_GPIOA ∨
      MCP23017_digitalPinToPort d0 = MCP23017_GPIOB) ∧
    (∀ e0 e1 e2 e3 : Nat,
      (init true i2c_addr rs rw en bl e0 e1 e2 e3 d4 d5 d6 d7 s0).data_port =
        (init true i2c_addr rs rw en bl d0 d1 d2 d3 d4 d5 d6 d7 s0).data_port) := by
  refine ⟨?_, ?_, ?_, ?_, digitalPinToPort_cases d4, digitalPinToPort_cases d0, ?_⟩
  · intro h
    rw [data_port_init_4bit, if_pos ⟨h 4 5 (by decide) (by decide), h 4 6 (by decide) (by decide),
      h 4 7 (by decide) (by decide)⟩]
  · rintro ⟨i, j, hi, hj, hne⟩
    rw [data_port_init_4bit, if_neg]
    rintro ⟨h5, h6, h7⟩
    apply hne
    rw [ports_of_active_4bit d0 d1 d2 d3 d4 d5 d6 d7 h5 h6 h7 i hi,
      ports_of_active_4bit d0 d1 d2 d3 d4 d5 d6 d7 h5 h6 h7 j hj]
  · intro h
    rw [data_port_init_8bit, if_pos ⟨h 0 1, h 0 2, h 0 3, h 0 4, h 0 5, h 0 6, h 0 7⟩]
  · rintro ⟨i, j, hne⟩
    rw [data_port_init_8bit, if_neg]
    rintro ⟨h1, h2, h3, h4, h5, h6, h7⟩
    apply hne
    rw [ports_of_active_8bit d0 d1 d2 d3 d4 d5 d6 d7 h1 h2 h3 h4 h5 h6 h7 i,
      ports_of_active_8bit d0 d1 d2 d3 d4 d5 d6 d7 h1 h2 h3 h4 h5 h6 h7 j]
  · intro e0 e1 e2 e3
    rw [data_port_init_4bit, data_port_init_4bit]

/-- Witness of C16: the wiring of `fast4` (consolidated on port B) and the wiring of
`slow4` (data pins on both ports). -/
theorem init_consolidation_witness :
    fast4.data_port = MCP23017_digitalPinToPort MCP23017_PB4 ∧ slow4.data_port = 0 :=
  ⟨(init_consolidation 0x20 MCP23017_PA7 MCP23017_PA6 MCP23017_PA5 MCP23017_PA1 0 0 0 0
      MCP23017_PB4 MCP23017_PB5 MCP23017_PB6 MCP23017_PB7 (blank [] false)).1 (by decide),
    (init_consolidation 0x20 MCP23017_PA7 MCP23017_PA6 MCP23017_PA5 MCP23017_PA1 0 0 0 0
      MCP23017_PA0 MCP23017_PB1 MCP23017_PA2 MCP23017_PB3 (blank [] false)).2.1
      ⟨4, 5, by decide, by decide, by decide⟩⟩

/-! ## C18: the enable pulse -/

theorem en_pin_of_frame {s t : Driver} (h : t.frame = s.frame) : t.en_pin = s.en_pin := by
  have h1 : t.frame.en_pin = s.frame.en_pin := by rw [h]
  exact h1

theorem shadow_writePin (pin v : Nat) (s : Driver) :
    (writePin pin v s).shadow pin =
      if v ≠ 0 then s.shadow pin ||| (MCP23017_digitalPinToBitMask pin % 256)
      else s.shadow pin &&& not8 (MCP23017_digitalPinToBitMask pin % 256) := by
  unfold Driver.shadow
  rw [gpioa_writePin, gpiob_writePin]
  by_cases e : MCP23017_GPIOA = MCP23017_digitalPinToPort pin
  · simp only [if_pos e]
  · simp only [if_neg e]

theorem trace_writePin_shadow (pin v : Nat) (s : Driver) :
    (writePin pin v s).trace = s.trace ++
      [Event.tx s.i2c_addr (MCP23017_digitalPinToPort pin) ((writePin pin v s).shadow pin)] :=
  trace_writePin pin v s

theorem and_not8_idem (a m : Nat) : (a &&& not8 m) &&& not8 m = a &&& not8 m := by
  rw [Nat.and_assoc, Nat.and_self]

theorem and_not8_and (a m : Nat) (hm : m < 256) : (a &&& not8 m) &&& m = 0 := by
  apply Nat.eq_of_testBit_eq
  intro i
  rw [Nat.testBit_and, Nat.testBit_and, testBit_not8, Nat.zero_testBit]
  by_cases hi : i < 8
  · cases a.testBit i <;> cases m.testBit i <;> simp [hi]
  · rw [testBit_of_lt_256 hm (by omega)]
    simp

theorem or_and_self (a m : Nat) : (a ||| m) &&& m = m := by
  apply Nat.eq_of_testBit_eq
  intro i
  rw [Nat.testBit_and, Nat.testBit_or]
  cases a.testBit i <;> cases m.testBit i <;> rfl

theorem testBit_and_not8_of_clear (a m i : Nat) (ha : a < 256) (hm : m.testBit i = false) :
    (a &&& not8 m).testBit i = a.testBit i := by
  rw [Nat.testBit_and, testBit_not8, hm]
  by_cases hi : i < 8
  · simp [hi]
  · rw [testBit_of_lt_256 ha (by omega)]
    simp

/-- The enable pulse with the pin read once: the member `_en_pin` is not assigned. -/
theorem pulseEnable_eq (s : Driver) :
    pulseEnable s =
      (s |> writePin s.en_pin LOW |> delayMicroseconds 1
         |> writePin s.en_pin HIGH |> delayMicroseconds 1
         |> writePin s.en_pin LOW |> delayMicroseconds 100) := by
  have e1 : (delayMicroseconds 1 (writeEnable LOW s)).en_pin = s.en_pin :=
    en_pin_of_frame (by rw [frame_delayMicroseconds, frame_writeEnable])
  have e2 : (delayMicroseconds 1 (writeEnable HIGH (delayMicroseconds 1
      (writeEnable LOW s)))).en_pin = s.en_pin :=
    en_pin_of_frame (by rw [frame_delayMicroseconds, frame_writeEnable,
      frame_delayMicroseconds, frame_writeEnable])
  unfold pulseEnable
  have u : ∀ (v : Nat) (t : Driver), writeEnable v t = writePin t.en_pin v t := fun _ _ => rfl
  rw [u LOW (delayMicroseconds 1 (writeEnable HIGH (delayMicroseconds 1 (writeEnable LOW s)))),
    e2, u HIGH (delayMicroseconds 1 (writeEnable LOW s)), e1, u LOW s]

theorem trace_pulseEnable (s : Driver) : (pulseEnable s).trace = s.trace ++ pulseEvents s := by
  have hm : MCP23017_digitalPinToBitMask s.en_pin % 256 < 256 := Nat.mod_lt _ (by decide)
  have h1 : (HIGH : Nat) ≠ 0 := by decide
  have h0 : ¬ ((LOW : Nat) ≠ 0) := by decide
  have a1 : (writePin s.en_pin LOW s).i2c_addr = s.i2c_addr :=
    i2c_addr_of_frame (frame_writePin _ _ _)
  have a3 : (writePin s.en_pin HIGH (delayMicroseconds 1 (writePin s.en_pin LOW s))).i2c_addr
      = s.i2c_addr :=
    (i2c_addr_of_frame (frame_writePin _ _ _)).trans a1
  have sh1 : (writePin s.en_pin LOW s).shadow s.en_pin =
      s.shadow s.en_pin &&& not8 (MCP23017_digitalPinToBitMask s.en_pin % 256) := by
    rw [shadow_writePin, if_neg h0]
  have sh3 : (writePin s.en_pin HIGH (delayMicroseconds 1 (writePin s.en_pin LOW s))).shadow
      s.en_pin = (s.shadow s.en_pin &&& not8 (MCP23017_digitalPinToBitMask s.en_pin % 256)) |||
        (MCP23017_digitalPinToBitMask s.en_pin % 256) := by
    rw [shadow_writePin, if_pos h1]
    show (writePin s.en_pin LOW s).shadow s.en_pin ||| _ = _
    rw [sh1]
  have sh5 : (writePin s.en_pin LOW (delayMicroseconds 1 (writePin s.en_pin HIGH
      (delayMicroseconds 1 (writePin s.en_pin LOW s))))).shadow s.en_pin =
      s.shadow s.en_pin &&& not8 (MCP23017_digitalPinToBitMask s.en_pin % 256) := by
    rw [shadow_writePin, if_neg h0]
    show (writePin s.en_pin HIGH (delayMicroseconds 1 (writePin s.en_pin LOW s))).shadow
      s.en_pin &&& _ = _
    rw [sh3, or_and_not8 _ _ hm, and_not8_idem]
  rw [pulseEnable_eq]
  show (writePin s.en_pin LOW (delayMicroseconds 1 (writePin s.en_pin HIGH
    (delayMicroseconds 1 (writePin s.en_pin LOW s))))).trace ++ [Event.delay 100] = _
  rw [trace_writePin_shadow, sh5]
  show ((writePin s.en_pin HIGH (delayMicroseconds 1 (writePin s.en_pin LOW s))).trace ++
    [Event.delay 1]) ++ [Event.tx (writePin s.en_pin HIGH (delayMicroseconds 1
      (writePin s.en_pin LOW s))).i2c_addr _ _] ++ [Event.delay 100] = _
  rw [trace_writePin_shadow, sh3, a3]
  show ((((writePin s.en_pin LOW s).trace ++ [Event.delay 1]) ++
    [Event.tx (writePin s.en_pin LOW s).i2c_addr _ _]) ++ [Event.delay 1]) ++ _ ++ _ = _
  rw [trace_writePin_shadow, sh1, a1]
  simp only [pulseEvents, List.append_assoc, List.singleton_append, List.cons_append,
    List.nil_append]

theorem gpioa_delayMicroseconds (us : Nat) (s : Driver) :
    (delayMicroseconds us s).gpioa_value = s.gpioa_value := rfl

theorem gpiob_delayMicroseconds (us : Nat) (s : Driver) :
    (delayMicroseconds us s).gpiob_value = s.gpiob_value := rfl

theorem gpioa_pulseEnable (s : Driver) :
    (pulseEnable s).gpioa_value =
      if MCP23017_GPIOA = MCP23017_digitalPinToPort s.en_pin then
        s.gpioa_value &&& not8 (MCP23017_digitalPinToBitMask s.en_pin % 256)
      else s.gpioa_value := by
  have hm : MCP23017_digitalPinToBitMask s.en_pin % 256 < 256 := Nat.mod_lt _ (by decide)
  have h1 : (HIGH : Nat) ≠ 0 := by decide
  have h0 : ¬ ((LOW : Nat) ≠ 0) := by decide
  rw [pulseEnable_eq, gpioa_delayMicroseconds, gpioa_writePin, gpioa_delayMicroseconds,
    gpioa_writePin, gpioa_delayMicroseconds, gpioa_writePin]
  by_cases e : MCP23017_GPIOA = MCP23017_digitalPinToPort s.en_pin
  · simp only [if_pos e, if_pos h1, if_neg h0]
    rw [or_and_not8 _ _ hm, and_not8_idem]
  · simp only [if_neg e]

theorem gpiob_pulseEnable (s : Driver) :
    (pulseEnable s).gpiob_value =
      if MCP23017_GPIOA = MCP23017_digitalPinToPort s.en_pin then s.gpiob_value
      else s.gpiob_value &&& not8 (MCP23017_digitalPinToBitMask s.en_pin % 256) := by
  have hm : MCP23017_digitalPinToBitMask s.en_pin % 256 < 256 := Nat.mod_lt _ (by decide)
  have h1 : (HIGH : Nat) ≠ 0 := by decide
  have h0 : ¬ ((LOW : Nat) ≠ 0) := by decide
  rw [pulseEnable_eq, gpiob_delayMicroseconds, gpiob_writePin, gpiob_delayMicroseconds,
    gpiob_writePin, gpiob_delayMicroseconds, gpiob_writePin]
  by_cases e : MCP23017_GPIOA = MCP23017_digitalPinToPort s.en_pin
  · simp only [if_pos e]
  · simp only [if_neg e, if_pos h1, if_neg h0]
    rw [or_and_not8 _ _ hm, and_not8_idem]

theorem write4bits_ends_with_pulse (v : Nat) (s : Driver) :
    ∃ s1, write4bits v s = pulseEnable s1 ∧ s1.frame = s.frame ∧
      (write4bits v s).trace = s1.trace ++ pulseEvents s1 := by
  unfold write4bits
  dsimp only
  split_ifs
  · exact ⟨_, rfl, frame_writeDataPins _ _ _, trace_pulseEnable _⟩
  · exact ⟨_, rfl, (frame_writeRegister _ _ _).trans rfl, trace_pulseEnable _⟩
  · exact ⟨_, rfl, (frame_writeRegister _ _ _).trans rfl, trace_pulseEnable _⟩

theorem write8bits_ends_with_pulse (v : Nat) (s : Driver) :
    ∃ s1, write8bits v s = pulseEnable s1 ∧ s1.frame = s.frame ∧
      (write8bits v s).trace = s1.trace ++ pulseEvents s1 := by
  unfold write8bits
  dsimp only
  split_ifs
  · exact ⟨_, rfl, frame_writeDataPins _ _ _, trace_pulseEnable _⟩
  · exact ⟨_, rfl, frame_writeRegister _ _ _, trace_pulseEnable _⟩

/-- C18: for every state, `pulseEnable()` is exactly three writes of the enable pin,
low, high, low, each followed by its delay of 1 µs, 1 µs and 100 µs: on the bus the six
events `pulseEvents`, in which the enable bit of the written byte is 0, then set, then
0 again; afterwards the shadow byte of the enable pin's port is the old one with the
enable mask cleared (no other bit of it differs), the other shadow byte and the other
members are unchanged; and every `write4bits` / `write8bits` call, on the fast and on
the slow path, is some data write followed by exactly this pulse. -/
theorem pulseEnable_effect (s : Driver) (ha : s.gpioa_value < 256) (hb : s.gpiob_value < 256) :
    pulseEnable s =
      (s |> writePin s.en_pin LOW |> delayMicroseconds 1
         |> writePin s.en_pin HIGH |> delayMicroseconds 1
         |> writePin s.en_pin LOW |> delayMicroseconds 100) ∧
    (pulseEnable s).trace = s.trace ++ pulseEvents s ∧
    (s.shadow s.en_pin &&& not8 (MCP23017_digitalPinToBitMask s.en_pin % 256)) &&&
      (MCP23017_digitalPinToBitMask s.en_pin % 256) = 0 ∧
    ((s.shadow s.en_pin &&& not8 (MCP23017_digitalPinToBitMask s.en_pin % 256)) |||
      (MCP23017_digitalPinToBitMask s.en_pin % 256)) &&&
      (MCP23017_digitalPinToBitMask s.en_pin % 256) =
      MCP23017_digitalPinToBitMask s.en_pin % 256 ∧
    (pulseEnable s).gpioa_value =
      (if MCP23017_GPIOA = MCP23017_digitalPinToPort s.en_pin then
        s.gpioa_value &&& not8 (MCP23017_digitalPinToBitMask s.en_pin % 256)
       else s.gpioa_value) ∧
    (pulseEnable s).gpiob_value =
      (if MCP23017_GPIOA = MCP23017_digitalPinToPort s.en_pin then s.gpiob_value
       else s.gpiob_value &&& not8 (MCP23017_digitalPinToBitMask s.en_pin % 256)) ∧
    (∀ i : Nat, (MCP23017_digitalPinToBitMask s.en_pin % 256).testBit i = false →
      (pulseEnable s).gpioa_value.testBit i = s.gpioa_value.testBit i ∧
      (pulseEnable s).gpiob_value.testBit i = s.gpiob_value.testBit i) ∧
    (pulseEnable s).frame = s.frame ∧
    (∀ v : Nat, ∃ s1, write4bits v s = pulseEnable s1 ∧ s1.frame = s.frame ∧
      (write4bits v s).trace = s1.trace ++ pulseEvents s1) ∧
    (∀ v : Nat, ∃ s1, write8bits v s = pulseEnable s1 ∧ s1.frame = s.frame ∧
      (write8bits v s).trace = s1.trace ++ pulseEvents s1) := by
  have hm : MCP23017_digitalPinToBitMask s.en_pin % 256 < 256 := Nat.mod_lt _ (by decide)
  refine ⟨pulseEnable_eq s, trace_pulseEnable s, and_not8_and _ _ hm, or_and_self _ _,
    gpioa_pulseEnable s, gpiob_pulseEnable s, ?_, frame_pulseEnable s,
    fun v => write4bits_ends_with_pulse v s, fun v => write8bits_ends_with_pulse v s⟩
  intro i hi
  rw [gpioa_pulseEnable, gpiob_pulseEnable]
  by_cases e : MCP23017_GPIOA = MCP23017_digitalPinToPort s.en_pin
  · simp only [if_pos e]
    exact ⟨testBit_and_not8_of_clear _ _ _ ha hi, trivial⟩
  · simp only [if_neg e]
    exact ⟨trivial, testBit_and_not8_of_clear _ _ _ hb hi⟩

/-- Witness of C18: the freshly constructed `fast4`, whose enable pin is PA5. -/
theorem pulseEnable_effect_witness :
    fast4.gpioa_value < 256 ∧ fast4.gpiob_value < 256 ∧
    (pulseEnable fast4).trace = fast4.trace ++ pulseEvents fast4 ∧
    pulseEvents fast4 =
      [Event.tx 0x20 MCP23017_GPIOA 0x00, Event.delay 1, Event.tx 0x20 MCP23017_GPIOA 0x20,
        Event.delay 1, Event.tx 0x20 MCP23017_GPIOA 0x00, Event.delay 100] :=
  ⟨by decide, by decide, (pulseEnable_effect fast4 (by decide) (by decide)).2.1, by decide⟩

/-! ## C19: the fast path and the positions of the data pins -/

theorem shiftRight_and_one (x k : Nat) : (x >>> k) &&& 0x01 = (x.testBit k).toNat := by
  rw [Nat.toNat_testBit, Nat.shiftRight_eq_div_pow, Nat.and_one_is_mod]

theorem pinLevel_eq (byte k : Nat) :
    (if byte &&& 2 ^ k ≠ 0 then 1 else 0) = (byte >>> k) &&& 0x01 := by
  rw [shiftRight_and_one, Nat.and_two_pow]
  have hk : 0 < 2 ^ k := Nat.two_pow_pos k
  cases h : byte.testBit k
  · simp
  · simp only [Bool.toNat_true, Nat.one_mul]
    rw [if_pos (by omega)]

/-- The byte of the fast path of `write4bits` has bit `i` of the value at bit `i`, for
the four bits of the high half. -/
theorem merge_nibbles_bit (old v i : Nat) (h4 : 4 ≤ i) (h8 : i < 8) :
    (((old &&& 0x0f) ||| (v &&& 0xf0)) >>> i) &&& 0x01 = (v >>> i) &&& 0x01 := by
  rw [shiftRight_and_one, shiftRight_and_one, testBit_merge_nibbles,
    if_neg (by omega), if_pos h8]

/-- With the data pins `d4..d7` on the bits 4..7 of one port, in this order (as in
`fast4`), the byte of the fast path of `write4bits` carries the value. -/
theorem carries_fast4 (old v : Nat) :
    carries fast4.data_pins [4, 5, 6, 7] v ((old &&& 0x0f) ||| (v &&& 0xf0)) := by
  intro i hi
  simp only [List.mem_cons, List.mem_singleton, List.not_mem_nil, or_false] at hi
  rcases hi with rfl | rfl | rfl | rfl
  · exact (pinLevel_eq _ 4).trans (merge_nibbles_bit old v 4 (by decide) (by decide))
  · exact (pinLevel_eq _ 5).trans (merge_nibbles_bit old v 5 (by decide) (by decide))
  · exact (pinLevel_eq _ 6).trans (merge_nibbles_bit old v 6 (by decide) (by decide))
  · exact (pinLevel_eq _ 7).trans (merge_nibbles_bit old v 7 (by decide) (by decide))

/-- With the data pins `d0..d7` on the bits 0..7 of one port, in this order (as in
`default8`), the byte of the fast path of `write8bits`, the value itself, carries the
value. -/
theorem carries_default8 (v : Nat) :
    carries default8.data_pins [0, 1, 2, 3, 4, 5, 6, 7] v v := by
  intro i hi
  simp only [List.mem_cons, List.mem_singleton, List.not_mem_nil, or_false] at hi
  rcases hi with rfl | rfl | rfl | rfl | rfl | rfl | rfl | rfl
  · exact pinLevel_eq v 0
  · exact pinLevel_eq v 1
  · exact pinLevel_eq v 2
  · exact pinLevel_eq v 3
  · exact pinLevel_eq v 4
  · exact pinLevel_eq v 5
  · exact pinLevel_eq v 6
  · exact pinLevel_eq v 7

/-- C19 (the code departs from it): the wiring `lowNibble4` has four distinct one-hot
data pins `d4..d7` = PB0..PB3, all on port B, so construction selects the consolidated
fast path. The claim asks that the byte written by `write4bits(v)` has bit `i` of `v`
at the position of `d_i`. For `v = 0xA0` the fast path writes `0xA0` to GPIOB, which
puts level 0 on all four data pins (they are the bits 0..3), whereas the per-pin loop
on the same wiring leaves `0x0A` in GPIOB, the levels the claim asks for; in `begin` the
display wired this way is presented with the nibble 0 at every enable pulse. The fast
paths put bit `i` of the value on port bit `i`: they carry the value when `d_i` is
wired to bit `i` of the port (`fast4`, `default8`). -/
theorem fast_path_ignores_pin_positions :
    List.map lowNibble4.data_pins [4, 5, 6, 7] =
      [MCP23017_PB0, MCP23017_PB1, MCP23017_PB2, MCP23017_PB3] ∧
    lowNibble4.data_port = MCP23017_GPIOB ∧
    lowNibble4.displayfunction &&& LCD_8BITMODE = 0 ∧
    (write4bits 0xA0 lowNibble4).trace =
      [Event.tx 0x20 MCP23017_GPIOB 0xA0,
        Event.tx 0x20 MCP23017_GPIOA 0x00, Event.delay 1,
        Event.tx 0x20 MCP23017_GPIOA 0x20, Event.delay 1,
        Event.tx 0x20 MCP23017_GPIOA 0x00, Event.delay 100] ∧
    ¬ carries lowNibble4.data_pins [4, 5, 6, 7] 0xA0 0xA0 ∧
    List.map (fun i => pinLevel 0xA0 (lowNibble4.data_pins i)) [4, 5, 6, 7] = [0, 0, 0, 0] ∧
    List.map (fun i : Fin 8 => (0xA0 >>> i.val) &&& 0x01) [4, 5, 6, 7] = [0, 1, 0, 1] ∧
    (writeDataPins 0xA0 [4, 5, 6, 7] lowNibble4).gpiob_value = 0x0A ∧
    lastWrite MCP23017_GPIOB (writeDataPins 0xA0 [4, 5, 6, 7] lowNibble4).trace = some 0x0A ∧
    carries lowNibble4.data_pins [4, 5, 6, 7] 0xA0 0x0A ∧
    transfers (begin 16 2 LCD_5x8DOTS lowNibble4) =
      [(0, 0), (0, 0), (0, 0), (0, 0), (0, 0), (0, 0), (0, 0), (0, 0), (0, 0), (0, 0),
        (0, 0), (0, 0)] ∧
    (∀ old v : Nat,
      carries fast4.data_pins [4, 5, 6, 7] v ((old &&& 0x0f) ||| (v &&& 0xf0))) ∧
    (∀ v : Nat, carries default8.data_pins [0, 1, 2, 3, 4, 5, 6, 7] v v) := by
  refine ⟨by decide, by decide, by decide, ?_, by decide, by decide, by decide, ?_, ?_,
    by decide, ?_, carries_fast4, carries_default8⟩
  · set_option maxRecDepth 100000 in decide
  · set_option maxRecDepth 100000 in decide
  · set_option maxRecDepth 100000 in decide
  · set_option maxRecDepth 100000 in decide

/-! ## C21: the flag bytes stay inside their command -/

theorem flags_of_frame {s t : Driver} (h : t.frame = s.frame)
    (hs : s.displaycontrol ≤ 0x07 ∧ s.displaymode ≤ 0x03) :
    t.displaycontrol ≤ 0x07 ∧ t.displaymode ≤ 0x03 := by
  rw [displaycontrol_of_frame h, displaymode_of_frame h]
  exact hs

theorem frame_writeGlyph (charmap : Fin 8 → Nat) (idx : List (Fin 8)) (s : Driver) :
    (idx.foldl (fun st (i : Fin 8) => (write (charmap i) st).2) s).frame = s.frame := by
  induction idx generalizing s with
  | nil => rfl
  | cons i rest ih =>
    rw [List.foldl_cons, ih]
    exact frame_send _ _ _

theorem frame_createChar (location : Nat) (charmap : Fin 8 → Nat) (s : Driver) :
    (createChar location charmap s).frame = s.frame := by
  unfold createChar
  dsimp only
  rw [frame_writeGlyph, frame_command]

theorem frame_setCursor (col row : Nat) (s t : Driver) (h : setCursor col row s = some t) :
    t.frame = s.frame := by
  unfold setCursor at h
  split_ifs at h
  rw [Option.some.injEq] at h
  rw [← h]
  exact frame_command _ _

/-- The control flags stay within the three bits 0x04, 0x02, 0x01 under the six
assignments of the display-control operations, and the command byte built from them is
a DISPLAYCONTROL command. -/
theorem control_flag_bounds : ∀ c : Nat, c ≤ 0x07 →
    c ||| LCD_DISPLAYON ≤ 0x07 ∧ c &&& not8 LCD_DISPLAYON ≤ 0x07 ∧
    c ||| LCD_CURSORON ≤ 0x07 ∧ c &&& not8 LCD_CURSORON ≤ 0x07 ∧
    c ||| LCD_BLINKON ≤ 0x07 ∧ c &&& not8 LCD_BLINKON ≤ 0x07 ∧
    0x08 ≤ LCD_DISPLAYCONTROL ||| c ∧ LCD_DISPLAYCONTROL ||| c ≤ 0x0F := by
  decide

/-- The entry mode flags stay within the two bits 0x02, 0x01 under the four assignments
of the entry-mode operations, and the command byte built from them is an ENTRYMODESET
command. -/
theorem mode_flag_bounds : ∀ m : Nat, m ≤ 0x03 →
    m ||| LCD_ENTRYLEFT ≤ 0x03 ∧ m &&& not8 LCD_ENTRYLEFT ≤ 0x03 ∧
    m ||| LCD_ENTRYSHIFTINCREMENT ≤ 0x03 ∧ m &&& not8 LCD_ENTRYSHIFTINCREMENT ≤ 0x03 ∧
    0x04 ≤ LCD_ENTRYMODESET ||| m ∧ LCD_ENTRYMODESET ||| m ≤ 0x07 := by
  decide

theorem flags_command_control (v c : Nat) (s : Driver) (hc : c ≤ 0x07)
    (hs : s.displaymode ≤ 0x03) :
    (command v { s with displaycontrol := c }).displaycontrol ≤ 0x07 ∧
    (command v { s with displaycontrol := c }).displaymode ≤ 0x03 := by
  obtain ⟨h1, h2, _⟩ := command_after_control v c s
  rw [h1, h2]
  exact ⟨hc, hs⟩

theorem flags_command_mode (v m : Nat) (s : Driver) (hm : m ≤ 0x03)
    (hs : s.displaycontrol ≤ 0x07) :
    (command v { s with displaymode := m }).displaycontrol ≤ 0x07 ∧
    (command v { s with displaymode := m }).displaymode ≤ 0x03 := by
  obtain ⟨h1, h2, _⟩ := command_after_mode v m s
  rw [h1, h2]
  exact ⟨hs, hm⟩

/-- The commands that `begin` sends from its flag members: DISPLAYCONTROL with the
flags 0x04 and ENTRYMODESET with the flags 0x02. -/
theorem beginFinish_eq (s : Driver) :
    beginFinish s =
      (s |> functionSet
         |> (fun u => command 0x0C { u with displaycontrol := 0x04 })
         |> backlight |> clear
         |> (fun u => command 0x06 { u with displaymode := 0x02 })) := by
  have e1 : LCD_DISPLAYCONTROL |||
      (LCD_DISPLAYON ||| LCD_CURSOROFF ||| LCD_BLINKOFF ||| LCD_DISPLAYON) = 0x0C := by decide
  have e2 : LCD_DISPLAYON ||| LCD_CURSOROFF ||| LCD_BLINKOFF ||| LCD_DISPLAYON = 0x04 := by
    decide
  have e3 : LCD_ENTRYMODESET ||| (LCD_ENTRYLEFT ||| LCD_ENTRYSHIFTDECREMENT) = 0x06 := by
    decide
  have e4 : LCD_ENTRYLEFT ||| LCD_ENTRYSHIFTDECREMENT = 0x02 := by decide
  unfold beginFinish display
  dsimp only
  rw [e1, e2, e3, e4]

theorem flags_beginFinish (s : Driver) :
    (beginFinish s).displaycontrol = 0x04 ∧ (beginFinish s).displaymode = 0x02 := by
  rw [beginFinish_eq]
  dsimp only
  obtain ⟨h1, h2, _⟩ := command_after_mode 0x06 0x02
    (clear (backlight (command 0x0C { functionSet s with displaycontrol := 0x04 })))
  rw [h1, h2, displaycontrol_of_frame (frame_clear _),
    displaycontrol_of_frame (frame_backlight _)]
  exact ⟨(command_after_control 0x0C 0x04 (functionSet s)).1, rfl⟩

theorem flags_begin (cols lines dotsize : Nat) (s : Driver) :
    (begin cols lines dotsize s).displaycontrol = 0x04 ∧
    (begin cols lines dotsize s).displaymode = 0x02 :=
  flags_beginFinish _

/-- Every public operation keeps the two flag bytes in range. -/
theorem flags_run (op : Op) (s t : Driver) (r : Option Nat) (h : op.run s = some (r, t))
    (hs : s.displaycontrol ≤ 0x07 ∧ s.displaymode ≤ 0x03) :
    t.displaycontrol ≤ 0x07 ∧ t.displaymode ≤ 0x03 := by
  obtain ⟨c1, c2, c3, c4, c5, c6, _, _⟩ := control_flag_bounds s.displaycontrol hs.1
  obtain ⟨m1, m2, m3, m4, _, _⟩ := mode_flag_bounds s.displaymode hs.2
  cases op <;> simp only [Op.run, Option.some.injEq, Prod.mk.injEq,
    Option.map_eq_some'] at h
  case begin c l d =>
    rw [← h.2, (flags_begin c l d s).1, (flags_begin c l d s).2]
    exact ⟨by decide, by decide⟩
  case clear => rw [← h.2]; exact flags_of_frame (frame_clear s) hs
  case home => rw [← h.2]; exact flags_of_frame (frame_home s) hs
  case noDisplay => rw [← h.2]; exact flags_command_control _ _ s c2 hs.2
  case display => rw [← h.2]; exact flags_command_control _ _ s c1 hs.2
  case noBlink => rw [← h.2]; exact flags_command_control _ _ s c6 hs.2
  case blink => rw [← h.2]; exact flags_command_control _ _ s c5 hs.2
  case noCursor => rw [← h.2]; exact flags_command_control _ _ s c4 hs.2
  case cursor => rw [← h.2]; exact flags_command_control _ _ s c3 hs.2
  case scrollDisplayLeft => rw [← h.2]; exact flags_of_frame (frame_command _ s) hs
  case scrollDisplayRight => rw [← h.2]; exact flags_of_frame (frame_command _ s) hs
  case leftToRight => rw [← h.2]; exact flags_command_mode _ _ s m1 hs.1
  case rightToLeft => rw [← h.2]; exact flags_command_mode _ _ s m2 hs.1
  case noBacklight => rw [← h.2]; exact flags_of_frame (frame_noBacklight s) hs
  case backlight => rw [← h.2]; exact flags_of_frame (frame_backlight s) hs
  case autoscroll => rw [← h.2]; exact flags_command_mode _ _ s m3 hs.1
  case noAutoscroll => rw [← h.2]; exact flags_command_mode _ _ s m4 hs.1
  case setRowOffsets a b c d => rw [← h.2]; exact hs
  case createChar l m => rw [← h.2]; exact flags_of_frame (frame_createChar l m s) hs
  case setCursor c r0 =>
    obtain ⟨u, hu, hr⟩ := h
    rw [← hr.2]
    exact flags_of_frame (frame_setCursor c r0 s u hu) hs
  case write v => rw [← h.2]; exact flags_of_frame (frame_send v HIGH s) hs
  case command v => rw [← h.2]; exact flags_of_frame (frame_command v s) hs

/-- After `begin()` and any sequence of public operations the control flags are at most
0x07 and the entry mode flags at most 0x03. -/
theorem ready_flags (s : Driver) (h : Ready s) :
    s.displaycontrol ≤ 0x07 ∧ s.displaymode ≤ 0x03 := by
  induction h with
  | begun cols lines dotsize s _ =>
    rw [(flags_begin cols lines dotsize s).1, (flags_begin cols lines dotsize s).2]
    exact ⟨by decide, by decide⟩
  | step op s t r _ hrun ih => exact flags_run op s t r hrun ih

theorem control_byte_range (c : Nat) (hc : c ≤ 0x07) :
    0x08 ≤ LCD_DISPLAYCONTROL ||| c ∧ LCD_DISPLAYCONTROL ||| c ≤ 0x0F :=
  (control_flag_bounds c hc).2.2.2.2.2.2

theorem mode_byte_range (m : Nat) (hm : m ≤ 0x03) :
    0x04 ≤ LCD_ENTRYMODESET ||| m ∧ LCD_ENTRYMODESET ||| m ≤ 0x07 :=
  (mode_flag_bounds m hm).2.2.2.2

/-- The constructor does not assign the two flag members: they hold what the memory
held until `begin()` assigns them. -/
theorem flags_init (fourbitmode : Bool) (i2c_addr rs rw en bl d0 d1 d2 d3 d4 d5 d6 d7 : Nat)
    (s0 : Driver) :
    (init fourbitmode i2c_addr rs rw en bl d0 d1 d2 d3 d4 d5 d6 d7 s0).displaycontrol =
      s0.displaycontrol ∧
    (init fourbitmode i2c_addr rs rw en bl d0 d1 d2 d3 d4 d5 d6 d7 s0).displaymode =
      s0.displaymode := by
  unfold init
  exact ⟨rfl, rfl⟩

/-- C21: in every state reached by `begin()` followed by any sequence of public
operations, the control flags are at most 0x07 and the entry mode flags at most 0x03,
and they stay so under every further public operation. Hence each of `display`,
`noDisplay`, `cursor`, `noCursor`, `blink`, `noBlink` is one command whose byte
`LCD_DISPLAYCONTROL | flags` lies in 0x08..0x0F, each of `leftToRight`, `rightToLeft`,
`autoscroll`, `noAutoscroll` is one command whose byte `LCD_ENTRYMODESET | flags` lies
in 0x04..0x07, and the two such commands that `begin()` itself sends are 0x0C and
0x06: no flag bit reaches the opcode bit of another command. (The constructor does
not assign the two flag members, which is why the states are those after `begin()`.) -/
theorem flags_stay_in_range (s : Driver) (h : Ready s) :
    s.displaycontrol ≤ 0x07 ∧ s.displaymode ≤ 0x03 ∧
    (0x08 ≤ LCD_DISPLAYCONTROL ||| s.displaycontrol ∧
      LCD_DISPLAYCONTROL ||| s.displaycontrol ≤ 0x0F) ∧
    (0x04 ≤ LCD_ENTRYMODESET ||| s.displaymode ∧
      LCD_ENTRYMODESET ||| s.displaymode ≤ 0x07) ∧
    (display s = command (LCD_DISPLAYCONTROL ||| (s.displaycontrol ||| LCD_DISPLAYON))
        { s with displaycontrol := s.displaycontrol ||| LCD_DISPLAYON } ∧
      0x08 ≤ LCD_DISPLAYCONTROL ||| (s.displaycontrol ||| LCD_DISPLAYON) ∧
      LCD_DISPLAYCONTROL ||| (s.displaycontrol ||| LCD_DISPLAYON) ≤ 0x0F) ∧
    (noDisplay s = command (LCD_DISPLAYCONTROL ||| (s.displaycontrol &&& not8 LCD_DISPLAYON))
        { s with displaycontrol := s.displaycontrol &&& not8 LCD_DISPLAYON } ∧
      0x08 ≤ LCD_DISPLAYCONTROL ||| (s.displaycontrol &&& not8 LCD_DISPLAYON) ∧
      LCD_DISPLAYCONTROL ||| (s.displaycontrol &&& not8 LCD_DISPLAYON) ≤ 0x0F) ∧
    (cursor s = command (LCD_DISPLAYCONTROL ||| (s.displaycontrol ||| LCD_CURSORON))
        { s with displaycontrol := s.displaycontrol ||| LCD_CURSORON } ∧
      0x08 ≤ LCD_DISPLAYCONTROL ||| (s.displaycontrol ||| LCD_CURSORON) ∧
      LCD_DISPLAYCONTROL ||| (s.displaycontrol ||| LCD_CURSORON) ≤ 0x0F) ∧
    (noCursor s = command (LCD_DISPLAYCONTROL ||| (s.displaycontrol &&& not8 LCD_CURSORON))
        { s with displaycontrol := s.displaycontrol &&& not8 LCD_CURSORON } ∧
      0x08 ≤ LCD_DISPLAYCONTROL ||| (s.displaycontrol &&& not8 LCD_CURSORON) ∧
      LCD_DISPLAYCONTROL ||| (s.displaycontrol &&& not8 LCD_CURSORON) ≤ 0x0F) ∧
    (blink s = command (LCD_DISPLAYCONTROL ||| (s.displaycontrol ||| LCD_BLINKON))
        { s with displaycontrol := s.displaycontrol ||| LCD_BLINKON } ∧
      0x08 ≤ LCD_DISPLAYCONTROL ||| (s.displaycontrol ||| LCD_BLINKON) ∧
      LCD_DISPLAYCONTROL ||| (s.displaycontrol ||| LCD_BLINKON) ≤ 0x0F) ∧
    (noBlink s = command (LCD_DISPLAYCONTROL ||| (s.displaycontrol &&& not8 LCD_BLINKON))
        { s with displaycontrol := s.displaycontrol &&& not8 LCD_BLINKON } ∧
      0x08 ≤ LCD_DISPLAYCONTROL ||| (s.displaycontrol &&& not8 LCD_BLINKON) ∧
      LCD_DISPLAYCONTROL ||| (s.displaycontrol &&& not8 LCD_BLINKON) ≤ 0x0F) ∧
    (leftToRight s = command (LCD_ENTRYMODESET ||| (s.displaymode ||| LCD_ENTRYLEFT))
        { s with displaymode := s.displaymode ||| LCD_ENTRYLEFT } ∧
      0x04 ≤ LCD_ENTRYMODESET ||| (s.displaymode ||| LCD_ENTRYLEFT) ∧
      LCD_ENTRYMODESET ||| (s.displaymode ||| LCD_ENTRYLEFT) ≤ 0x07) ∧
    (rightToLeft s = command (LCD_ENTRYMODESET ||| (s.displaymode &&& not8 LCD_ENTRYLEFT))
        { s with displaymode := s.displaymode &&& not8 LCD_ENTRYLEFT } ∧
      0x04 ≤ LCD_ENTRYMODESET ||| (s.displaymode &&& not8 LCD_ENTRYLEFT) ∧
      LCD_ENTRYMODESET ||| (s.displaymode &&& not8 LCD_ENTRYLEFT) ≤ 0x07) ∧
    (autoscroll s = command (LCD_ENTRYMODESET ||| (s.displaymode ||| LCD_ENTRYSHIFTINCREMENT))
        { s with displaymode := s.displaymode ||| LCD_ENTRYSHIFTINCREMENT } ∧
      0x04 ≤ LCD_ENTRYMODESET ||| (s.displaymode ||| LCD_ENTRYSHIFTINCREMENT) ∧
      LCD_ENTRYMODESET ||| (s.displaymode ||| LCD_ENTRYSHIFTINCREMENT) ≤ 0x07) ∧
    (noAutoscroll s = command (LCD_ENTRYMODESET ||| (s.displaymode &&& not8 LCD_ENTRYSHIFTINCREMENT))
        { s with displaymode := s.displaymode &&& not8 LCD_ENTRYSHIFTINCREMENT } ∧
      0x04 ≤ LCD_ENTRYMODESET ||| (s.displaymode &&& not8 LCD_ENTRYSHIFTINCREMENT) ∧
      LCD_ENTRYMODESET ||| (s.displaymode &&& not8 LCD_ENTRYSHIFTINCREMENT) ≤ 0x07) ∧
    (∀ t : Driver, beginFinish t =
      (t |> functionSet
         |> (fun u => command 0x0C { u with displaycontrol := 0x04 })
         |> backlight |> clear
         |> (fun u => command 0x06 { u with displaymode := 0x02 }))) ∧
    (∀ cols lines dotsize : Nat,
      (begin cols lines dotsize s).displaycontrol = 0x04 ∧
      (begin cols lines dotsize s).displaymode = 0x02) ∧
    (∀ (op : Op) (r : Option Nat) (t : Driver), op.run s = some (r, t) →
      t.displaycontrol ≤ 0x07 ∧ t.displaymode ≤ 0x03) ∧
    (∀ (fourbitmode : Bool) (i2c_addr rs rw en bl d0 d1 d2 d3 d4 d5 d6 d7 : Nat)
        (s0 : Driver),
      (init fourbitmode i2c_addr rs rw en bl d0 d1 d2 d3 d4 d5 d6 d7 s0).displaycontrol =
        s0.displaycontrol ∧
      (init fourbitmode i2c_addr rs rw en bl d0 d1 d2 d3 d4 d5 d6 d7 s0).displaymode =
        s0.displaymode) := by
  obtain ⟨hc, hm⟩ := ready_flags s h
  obtain ⟨c1, c2, c3, c4, c5, c6, _, _⟩ := control_flag_bounds s.displaycontrol hc
  obtain ⟨m1, m2, m3, m4, _, _⟩ := mode_flag_bounds s.displaymode hm
  exact ⟨hc, hm, control_byte_range _ hc, mode_byte_range _ hm,
    ⟨rfl, control_byte_range _ c1⟩, ⟨rfl, control_byte_range _ c2⟩,
    ⟨rfl, control_byte_range _ c3⟩, ⟨rfl, control_byte_range _ c4⟩,
    ⟨rfl, control_byte_range _ c5⟩, ⟨rfl, control_byte_range _ c6⟩,
    ⟨rfl, mode_byte_range _ m1⟩, ⟨rfl, mode_byte_range _ m2⟩,
    ⟨rfl, mode_byte_range _ m3⟩, ⟨rfl, mode_byte_range _ m4⟩,
    beginFinish_eq, fun cols lines dotsize => flags_begin cols lines dotsize s,
    fun op r t hrun => flags_run op s t r hrun ⟨hc, hm⟩, flags_init⟩

/-- Witness of C21: `fast4` after `begin(16, 2)`, `cursor()` and `rightToLeft()`. -/
theorem flags_stay_in_range_witness :
    Ready (rightToLeft (cursor (begin 16 2 LCD_5x8DOTS fast4))) ∧
    (rightToLeft (cursor (begin 16 2 LCD_5x8DOTS fast4))).displaycontrol ≤ 0x07 ∧
    (rightToLeft (cursor (begin 16 2 LCD_5x8DOTS fast4))).displaymode ≤ 0x03 ∧
    (rightToLeft (cursor (begin 16 2 LCD_5x8DOTS fast4))).displaycontrol = 0x06 ∧
    (rightToLeft (cursor (begin 16 2 LCD_5x8DOTS fast4))).displaymode = 0x00 := by
  have hR : Ready (rightToLeft (cursor (begin 16 2 LCD_5x8DOTS fast4))) :=
    Ready.step Op.rightToLeft _ _ none
      (Ready.step Op.cursor _ _ none
        (Ready.begun 16 2 LCD_5x8DOTS fast4
          (Reachable.constructed _ _ _ _ _ _ _ _ _ _ _ _ _ _ _)) rfl) rfl
  refine ⟨hR, (flags_stay_in_range _ hR).1, (flags_stay_in_range _ hR).2.1, ?_, ?_⟩
  · set_option maxRecDepth 100000 in decide
  · set_option maxRecDepth 100000 in decide

/-! ## C2: what the display is presented with during `begin(16, 1)` -/

theorem run_append (p : Ports) (t1 t2 : List Event) :
    p.run (t1 ++ t2) = (p.run t1).run t2 := by
  induction t1 generalizing p with
  | nil => rfl
  | cons e rest ih =>
    cases e with
    | wireBegin => exact ih p
    | tx a reg v => exact ih (p.write reg v)
    | delay us => exact ih p

theorem latched_cons_tx (rs en : Nat) (l : List Nat) (p : Ports) (a reg v : Nat)
    (t : List Event) :
    latched rs en l p (Event.tx a reg v :: t) =
      (if p.level en = 0 ∧ (p.write reg v).level en = 1 then
        [((p.write reg v).level rs, (p.write reg v).value l)] else []) ++
        latched rs en l (p.write reg v) t := by
  rw [latched]
  split_ifs <;> rfl

theorem latched_append (rs en : Nat) (l : List Nat) (p : Ports) (t1 t2 : List Event) :
    latched rs en l p (t1 ++ t2) =
      latched rs en l p t1 ++ latched rs en l (p.run t1) t2 := by
  induction t1 generalizing p with
  | nil => rfl
  | cons e rest ih =>
    cases e with
    | wireBegin => exact ih p
    | delay us => exact ih p
    | tx a reg v =>
      rw [List.cons_append, latched_cons_tx, latched_cons_tx, ih, List.append_assoc]
      rfl

theorem ports_write_b (p : Ports) (reg v : Nat) :
    (p.write reg v).b = if reg = MCP23017_GPIOB then v else p.b := by
  unfold Ports.write
  by_cases hA : reg = MCP23017_GPIOA
  · rw [if_pos hA, if_neg (by rw [hA]; decide)]
  · rw [if_neg hA]
    split_ifs <;> rfl

theorem ports_write_a (p : Ports) (reg v : Nat) :
    (p.write reg v).a = if reg = MCP23017_GPIOA then v else p.a := by
  unfold Ports.write
  by_cases hA : reg = MCP23017_GPIOA
  · rw [if_pos hA, if_pos hA]
  · rw [if_neg hA, if_neg hA]
    split_ifs <;> rfl

theorem level_portB (p : Ports) (pin : Nat)
    (h : MCP23017_digitalPinToPort pin = MCP23017_GPIOB) :
    p.level pin = if p.b &&& (MCP23017_digitalPinToBitMask pin % 256) ≠ 0 then 1 else 0 := by
  have e : ¬ (MCP23017_GPIOB = MCP23017_GPIOA) := by decide
  unfold Ports.level
  dsimp only
  rw [h, if_neg e]

theorem value_portALines_b (a b : Nat) :
    Ports.value { a := a, b := b } portALines = Ports.value { a := a, b := 0 } portALines :=
  rfl

theorem value_portALines_byte : ∀ a : Nat, a < 256 →
    Ports.value { a := a, b := 0 } portALines = a := by
  set_option maxRecDepth 100000 in decide

theorem value_portALines (p : Ports) (h : p.a < 256) : p.value portALines = p.a :=
  (value_portALines_b p.a p.b).trans (value_portALines_byte p.a h)

theorem latched_cons_delay (rs en : Nat) (l : List Nat) (p : Ports) (us : Nat)
    (t : List Event) :
    latched rs en l p (Event.delay us :: t) = latched rs en l p t := rfl

theorem latched_nil (rs en : Nat) (l : List Nat) (p : Ports) :
    latched rs en l p [] = [] := rfl

theorem ports_write_B (p : Ports) (v : Nat) :
    p.write MCP23017_GPIOB v = { a := p.a, b := v } := rfl

theorem and_clear (g m e : Nat) (h : g &&& e = 0) : (g &&& m) &&& e = 0 := by
  rw [Nat.and_assoc, Nat.and_comm m e, ← Nat.and_assoc, h, Nat.zero_and]

theorem or_clear (g l e : Nat) (h : g &&& e = 0) (hl : l &&& e = 0) :
    (g ||| l) &&& e = 0 := by
  rw [Nat.and_distrib_right, h, hl]
  rfl

/-- What the display latches during one enable pulse: RS and enable are on port B with
disjoint masks, the latch of port B holds `g` with RS and enable low. -/
theorem latched_pulse (rs en : Nat) (p : Ports) (addr g : Nat)
    (hrs : MCP23017_digitalPinToPort rs = MCP23017_GPIOB)
    (hen : MCP23017_digitalPinToPort en = MCP23017_GPIOB)
    (hE0 : MCP23017_digitalPinToBitMask en % 256 ≠ 0)
    (hER : (MCP23017_digitalPinToBitMask en % 256) &&&
      (MCP23017_digitalPinToBitMask rs % 256) = 0)
    (hg : g &&& (MCP23017_digitalPinToBitMask en % 256) = 0)
    (hgR : g &&& (MCP23017_digitalPinToBitMask rs % 256) = 0)
    (hpb : p.b = g) (ha : p.a < 256) :
    latched rs en portALines p
      [Event.tx addr MCP23017_GPIOB (g &&& not8 (MCP23017_digitalPinToBitMask en % 256)),
        Event.delay 1,
        Event.tx addr MCP23017_GPIOB
          ((g &&& not8 (MCP23017_digitalPinToBitMask en % 256)) |||
            (MCP23017_digitalPinToBitMask en % 256)),
        Event.delay 1,
        Event.tx addr MCP23017_GPIOB (g &&& not8 (MCP23017_digitalPinToBitMask en % 256)),
        Event.delay 100] = [(0, p.a)] := by
  have h1 : (g &&& not8 (MCP23017_digitalPinToBitMask en % 256)) &&&
      (MCP23017_digitalPinToBitMask en % 256) = 0 := and_clear _ _ _ hg
  have h2 : ((g &&& not8 (MCP23017_digitalPinToBitMask en % 256)) |||
      (MCP23017_digitalPinToBitMask en % 256)) &&&
      (MCP23017_digitalPinToBitMask en % 256) = MCP23017_digitalPinToBitMask en % 256 :=
    or_and_self _ _
  have h3 : ((g &&& not8 (MCP23017_digitalPinToBitMask en % 256)) |||
      (MCP23017_digitalPinToBitMask en % 256)) &&&
      (MCP23017_digitalPinToBitMask rs % 256) = 0 :=
    or_clear _ _ _ (and_clear _ _ _ hgR) hER
  have hv : ∀ x : Nat, Ports.value { a := p.a, b := x } portALines = p.a :=
    fun x => value_portALines { a := p.a, b := x } ha
  simp only [latched_cons_tx, latched_cons_delay, latched_nil, ports_write_B,
    level_portB _ _ hen, level_portB _ _ hrs, hpb, hg, h1, h2, h3, hv]
  simp [hE0]

theorem wired_of_frame (rs en : Nat) {s t : Driver} (h : t.frame = s.frame)
    (hw : Wired rs en s) : Wired rs en t := by
  have h1 : Wired rs en s.frame := hw
  rw [← h] at h1
  exact h1

/-- A step that emits one register write which leaves enable low keeps the display in
step and presents nothing to it. -/
theorem inStep_tx (rs en : Nat) (s t : Driver) (out : List (Nat × Nat)) (a reg v : Nat)
    (h : InStep rs en s out) (hf : t.frame = s.frame)
    (htr : t.trace = s.trace ++ [Event.tx a reg v])
    (hb : t.gpiob_value = if reg = MCP23017_GPIOB then v else s.gpiob_value)
    (hE : t.gpiob_value &&& (MCP23017_digitalPinToBitMask en % 256) = 0) :
    InStep rs en t out := by
  obtain ⟨hw, hl, hpb, _⟩ := h
  have hen : MCP23017_digitalPinToPort en = MCP23017_GPIOB := hw.2.2.2.2.2.2.1
  have hnew : ((Ports.run { a := 0, b := 0 } s.trace).write reg v).b = t.gpiob_value := by
    rw [ports_write_b, hpb, hb]
  refine ⟨wired_of_frame rs en hf hw, ?_, ?_, hE⟩
  · rw [htr, latched_append, hl, latched_cons_tx, latched_nil, level_portB _ _ hen,
      level_portB _ _ hen, hnew, hE]
    simp
  · rw [htr, run_append]
    exact hnew

/-- A step that emits no register write keeps the display in step. -/
theorem inStep_silent (rs en : Nat) (s t : Driver) (out : List (Nat × Nat)) (e : Event)
    (h : InStep rs en s out) (hf : t.frame = s.frame)
    (htr : t.trace = s.trace ++ [e]) (he : ∀ a reg v, e ≠ Event.tx a reg v)
    (hb : t.gpiob_value = s.gpiob_value) : InStep rs en t out := by
  obtain ⟨hw, hl, hpb, hE⟩ := h
  refine ⟨wired_of_frame rs en hf hw, ?_, ?_, by rw [hb]; exact hE⟩
  · rw [htr, latched_append, hl]
    cases e with
    | wireBegin => exact List.append_nil _
    | delay us => exact List.append_nil _
    | tx a reg v => exact absurd rfl (he a reg v)
  · rw [htr, run_append, hb, ← hpb]
    cases e with
    | wireBegin => rfl
    | delay us => rfl
    | tx a reg v => exact absurd rfl (he a reg v)

theorem inStep_delayMicroseconds (rs en us : Nat) (s : Driver) (out : List (Nat × Nat))
    (h : InStep rs en s out) : InStep rs en (delayMicroseconds us s) out :=
  inStep_silent rs en s _ out (Event.delay us) h rfl rfl (fun _ _ _ => by simp) rfl

theorem inStep_wireBegin (rs en : Nat) (s : Driver) (out : List (Nat × Nat))
    (h : InStep rs en s out) : InStep rs en (wireBegin s) out :=
  inStep_silent rs en s _ out Event.wireBegin h rfl rfl (fun _ _ _ => by simp) rfl

/-- A register write that is not to GPIOB, or that writes to GPIOB the byte its shadow
holds. -/
theorem inStep_writeRegister (rs en reg v : Nat) (s : Driver) (out : List (Nat × Nat))
    (h : InStep rs en s out) (hv : reg = MCP23017_GPIOB → v = s.gpiob_value) :
    InStep rs en (writeRegister reg v s) out := by
  refine inStep_tx rs en s _ out s.i2c_addr reg v h (frame_writeRegister _ _ _)
    (trace_writeRegister _ _ _) ?_ ?_
  · rw [gpiob_writeRegister]
    split_ifs with hr
    · exact (hv hr).symm
    · rfl
  · rw [gpiob_writeRegister]
    exact h.2.2.2

/-- Writing a pin low, or writing high a pin whose mask on port B is disjoint from the
mask of the enable pin. -/
theorem inStep_writePin (rs en pin v : Nat) (s : Driver) (out : List (Nat × Nat))
    (h : InStep rs en s out)
    (hv : v ≠ 0 → MCP23017_digitalPinToPort pin = MCP23017_GPIOB →
      (MCP23017_digitalPinToBitMask pin % 256) &&&
        (MCP23017_digitalPinToBitMask en % 256) = 0) :
    InStep rs en (writePin pin v s) out := by
  have hE := h.2.2.2
  rcases digitalPinToPort_cases pin with hA | hB
  · have e : MCP23017_GPIOA = MCP23017_digitalPinToPort pin := hA.symm
    have hg : (writePin pin v s).gpiob_value = s.gpiob_value := by
      rw [gpiob_writePin, if_pos e]
    refine inStep_tx rs en s _ out s.i2c_addr (MCP23017_digitalPinToPort pin) _ h
      (frame_writePin _ _ _) (trace_writePin _ _ _) ?_ ?_
    · rw [hg, hA, if_neg (by decide)]
    · rw [hg]
      exact hE
  · have e : ¬ MCP23017_GPIOA = MCP23017_digitalPinToPort pin := by
      rw [hB]
      decide
    refine inStep_tx rs en s _ out s.i2c_addr (MCP23017_digitalPinToPort pin) _ h
      (frame_writePin _ _ _) (trace_writePin _ _ _) ?_ ?_
    · rw [if_neg e, hB, if_pos rfl]
    · rw [gpiob_writePin, if_neg e]
      split_ifs with hv0
      · exact or_clear _ _ _ hE (hv hv0 hB)
      · exact and_clear _ _ _ hE

/-- One enable pulse presents the byte on port A, with RS low, when RS is low. -/
theorem inStep_pulseEnable (rs en : Nat) (s : Driver) (out : List (Nat × Nat))
    (h : InStep rs en s out)
    (hR : s.gpiob_value &&& (MCP23017_digitalPinToBitMask rs % 256) = 0)
    (ha : (Ports.run { a := 0, b := 0 } s.trace).a < 256) :
    InStep rs en (pulseEnable s) (out ++ [(0, (Ports.run { a := 0, b := 0 } s.trace).a)]) := by
  obtain ⟨hw, hl, hpb, hE⟩ := h
  have hw2 := hw
  obtain ⟨_, henp, _, _, _, hrs, hen, hE0, hER, _⟩ := hw2
  have e : ¬ MCP23017_GPIOA = MCP23017_GPIOB := by decide
  have hsh : s.shadow s.en_pin = s.gpiob_value := by
    unfold Driver.shadow
    rw [henp, hen, if_neg e]
  have hev : pulseEvents s =
      [Event.tx s.i2c_addr MCP23017_GPIOB
          (s.gpiob_value &&& not8 (MCP23017_digitalPinToBitMask en % 256)),
        Event.delay 1,
        Event.tx s.i2c_addr MCP23017_GPIOB
          ((s.gpiob_value &&& not8 (MCP23017_digitalPinToBitMask en % 256)) |||
            (MCP23017_digitalPinToBitMask en % 256)),
        Event.delay 1,
        Event.tx s.i2c_addr MCP23017_GPIOB
          (s.gpiob_value &&& not8 (MCP23017_digitalPinToBitMask en % 256)),
        Event.delay 100] := by
    unfold pulseEvents
    rw [hsh, henp, hen]
  have hg : (pulseEnable s).gpiob_value =
      s.gpiob_value &&& not8 (MCP23017_digitalPinToBitMask en % 256) := by
    rw [gpiob_pulseEnable, henp, hen, if_neg e]
  refine ⟨wired_of_frame rs en (frame_pulseEnable s) hw, ?_, ?_, ?_⟩
  · rw [trace_pulseEnable, latched_append, hl, hev,
      latched_pulse rs en _ s.i2c_addr s.gpiob_value hrs hen hE0 hER hE hR hpb ha]
  · rw [trace_pulseEnable, run_append, hev, hg]
    rfl
  · rw [hg]
    exact and_clear _ _ _ hE

/-- In step, every command is presented to the display as the byte itself with RS
low. -/
theorem inStep_command (rs en b : Nat) (s : Driver) (out : List (Nat × Nat))
    (h : InStep rs en s out) (hb : b < 256) :
    InStep rs en (command b s) (out ++ [(0, b)]) := by
  have hw := h.1
  obtain ⟨hrsp, _, _, hport, hdf, hrs, _, _, _, _⟩ := hw
  have e : ¬ MCP23017_GPIOA = MCP23017_GPIOB := by decide
  have hlow : ¬ ((LOW : Nat) ≠ 0) := by decide
  have hR : MCP23017_digitalPinToBitMask rs % 256 < 256 := Nat.mod_lt _ (by decide)
  have hsend : command b s =
      (s |> writeRS LOW |> writeRW LOW |> writeRegister s.data_port b |> pulseEnable) :=
    send_8bit_consolidated b LOW s (by rw [hdf]; decide) (by rw [hport]; decide)
  rw [hsend, hport]
  -- RS low
  have a1 : InStep rs en (writeRS LOW s) out :=
    inStep_writePin rs en s.rs_pin LOW s out h (fun hv => absurd hv hlow)
  have r1 : (writeRS LOW s).gpiob_value &&& (MCP23017_digitalPinToBitMask rs % 256) = 0 := by
    unfold writeRS
    rw [gpiob_writePin, hrsp, hrs, if_neg e, if_neg hlow]
    exact and_not8_and _ _ hR
  -- R/W low
  have a2 : InStep rs en (writeRW LOW (writeRS LOW s)) out :=
    inStep_writePin rs en (writeRS LOW s).rw_pin LOW _ out a1 (fun hv => absurd hv hlow)
  have r2 : (writeRW LOW (writeRS LOW s)).gpiob_value &&&
      (MCP23017_digitalPinToBitMask rs % 256) = 0 := by
    unfold writeRW
    rw [gpiob_writePin]
    split_ifs
    · exact r1
    · exact and_clear _ _ _ r1
  -- the byte on port A
  have a3 : InStep rs en (writeRegister MCP23017_GPIOA b (writeRW LOW (writeRS LOW s))) out :=
    inStep_writeRegister rs en MCP23017_GPIOA b _ out a2 (fun hv => absurd hv e)
  have r3 : (writeRegister MCP23017_GPIOA b (writeRW LOW (writeRS LOW s))).gpiob_value &&&
      (MCP23017_digitalPinToBitMask rs % 256) = 0 := by
    rw [gpiob_writeRegister]
    exact r2
  have p3 : (Ports.run { a := 0, b := 0 }
      (writeRegister MCP23017_GPIOA b (writeRW LOW (writeRS LOW s))).trace).a = b := by
    rw [trace_writeRegister, run_append]
    rfl
  -- the pulse
  have a4 := inStep_pulseEnable rs en _ out a3 r3 (by rw [p3]; exact hb)
  rw [p3] at a4
  exact a4

theorem inStep_backlight (rs en : Nat) (s : Driver) (out : List (Nat × Nat))
    (h : InStep rs en s out) : InStep rs en (backlight s) out := by
  unfold backlight
  split_ifs
  · exact inStep_writePin rs en s.backlight_pin HIGH s out h
      (fun _ hB => h.1.2.2.2.2.2.2.2.2.2 hB)
  · exact h

theorem transfers_of_inStep (rs en : Nat) (s : Driver) (out : List (Nat × Nat))
    (h : InStep rs en s out) : transfers s = out := by
  obtain ⟨⟨hrsp, henp, hdp, _, hdf, _⟩, hl, _, _⟩ := h
  unfold transfers
  dsimp only
  rw [hdf, if_pos (by decide), hdp, hrsp, henp]
  exact hl

/-- On a driver in step whose shadow byte of port B is 0 (as after construction),
`begin(16, 1)` presents to the display, with RS low, 0x30 four times, then 0x0C, 0x01
and 0x06, and nothing else. -/
theorem inStep_begin_8bit (rs en : Nat) (s : Driver) (out : List (Nat × Nat))
    (h : InStep rs en s out) (h0 : s.gpiob_value = 0) :
    InStep rs en (begin 16 1 LCD_5x8DOTS s)
      (out ++ [(0, 0x30), (0, 0x30), (0, 0x30), (0, 0x30), (0, 0x0C), (0, 0x01), (0, 0x06)]) := by
  have hlow : ¬ ((LOW : Nat) ≠ 0) := by decide
  rw [begin_8bit_eq s h.1.2.2.2.2.1]
  have a1 : InStep rs en (setRowOffsets 0x00 0x40 16 0x50 { s with numlines := 1 }) out := h
  have a2 := inStep_wireBegin rs en _ out a1
  have a3 := inStep_writeRegister rs en MCP23017_IODIRA 0x00 _ out a2
    (fun hv => absurd hv (by decide))
  have a4 := inStep_writeRegister rs en MCP23017_IODIRB 0x00 _ out a3
    (fun hv => absurd hv (by decide))
  have a5 := inStep_writeRegister rs en MCP23017_GPIOA 0x00 _ out a4
    (fun hv => absurd hv (by decide))
  have a6 := inStep_writeRegister rs en MCP23017_GPIOB 0x00 _ out a5
    (fun _ => by
      simp only [gpiob_writeRegister]
      exact h0.symm)
  have a7 := inStep_delayMicroseconds rs en 50000 _ out a6
  have a8 : InStep rs en (writeRS LOW _) out :=
    inStep_writePin rs en _ LOW _ out a7 (fun hv => absurd hv hlow)
  have a9 : InStep rs en (writeEnable LOW _) out :=
    inStep_writePin rs en _ LOW _ out a8 (fun hv => absurd hv hlow)
  have a10 : InStep rs en (writeRW LOW _) out :=
    inStep_writePin rs en _ LOW _ out a9 (fun hv => absurd hv hlow)
  have b1 := inStep_command rs en 0x30 _ _ a10 (by decide)
  have b2 := inStep_command rs en 0x30 _ _ (inStep_delayMicroseconds rs en 4500 _ _ b1)
    (by decide)
  have b3 := inStep_command rs en 0x30 _ _ (inStep_delayMicroseconds rs en 150 _ _ b2)
    (by decide)
  have b4 := inStep_command rs en 0x30 _ _ b3 (by decide)
  have b5 : InStep rs en (command 0x0C { command 0x30 _ with displaycontrol := 0x04 }) _ :=
    inStep_command rs en 0x0C _ _ b4 (by decide)
  have b6 := inStep_backlight rs en _ _ b5
  have b7 := inStep_delayMicroseconds rs en 2000 _ _ (inStep_command rs en 0x01 _ _ b6 (by decide))
  have b8 : InStep rs en (command 0x06 { delayMicroseconds 2000 _ with displaymode := 0x02 }) _ :=
    inStep_command rs en 0x06 _ _ b7 (by decide)
  simp only [List.append_assoc, List.singleton_append, List.cons_append, List.nil_append] at b8
  exact b8

theorem portB_pin_facts : ∀ rs ∈ portBPins, ∀ en ∈ portBPins, rs ≠ en →
    MCP23017_digitalPinToPort rs = MCP23017_GPIOB ∧
    MCP23017_digitalPinToPort en = MCP23017_GPIOB ∧
    MCP23017_digitalPinToBitMask en % 256 ≠ 0 ∧
    (MCP23017_digitalPinToBitMask en % 256) &&& (MCP23017_digitalPinToBitMask rs % 256) = 0 := by
  decide

theorem backlight_pin_facts : ∀ bl ∈ 0 :: portBPins, ∀ en ∈ portBPins, bl ≠ en →
    MCP23017_digitalPinToPort bl = MCP23017_GPIOB →
    (MCP23017_digitalPinToBitMask bl % 256) &&& (MCP23017_digitalPinToBitMask en % 256) = 0 := by
  decide

/-- A freshly constructed 8-bit driver with `d0..d7` = PA0..PA7, RS and enable two
different pins of port B, and the backlight pin not wired or a pin of port B other than
enable, is in step with its display. -/
theorem inStep_init (i2c_addr rs rw en bl : Nat) (s0 : Driver) (h0 : s0.trace = [])
    (hrs : rs ∈ portBPins) (hen : en ∈ portBPins) (hne : rs ≠ en)
    (hbl : bl = 0 ∨ bl ∈ portBPins) (hble : bl ≠ en) :
    InStep rs en
      (init false i2c_addr rs rw en bl MCP23017_PA0 MCP23017_PA1 MCP23017_PA2 MCP23017_PA3
        MCP23017_PA4 MCP23017_PA5 MCP23017_PA6 MCP23017_PA7 s0) [] := by
  obtain ⟨f1, f2, f3, f4⟩ := portB_pin_facts rs hrs en hen hne
  have hmem : bl ∈ 0 :: portBPins := by
    rcases hbl with h | h
    · rw [h]
      exact List.mem_cons_self _ _
    · exact List.mem_cons_of_mem _ h
  refine ⟨⟨rfl, rfl, rfl, ?_, rfl, f1, f2, f3, f4, backlight_pin_facts bl hmem en hen hble⟩,
    ?_, ?_, ?_⟩
  · exact init_8bit_portA i2c_addr rs rw en bl _ _ _ _ _ _ _ _ s0 (by decide) (by decide)
      (by decide) (by decide) (by decide) (by decide) (by decide) (by decide)
  · show latched rs en portALines { a := 0, b := 0 } s0.trace = []
    rw [h0]
    rfl
  · show (Ports.run { a := 0, b := 0 } s0.trace).b = 0
    rw [h0]
    rfl
  · exact Nat.zero_and _

/-- C2 (as amended): for every instance constructed in 8-bit mode with all eight data
pins on port A, the data port is consolidated on GPIOA and `begin(16, 1)` is, in this
order: `Wire.begin()`, IODIRA := 0, IODIRB := 0, GPIOA := 0, GPIOB := 0, a delay of
50000 µs, RS, enable and R/W low, then FOUR command transfers of the byte 0x30 (the
three of the handshake, separated by delays of 4500 µs and 150 µs, and the final
function set), then the command 0x0C (DISPLAYCONTROL), then `backlight()`, then the
command 0x01 (CLEARDISPLAY) and a delay of 2000 µs, then the command 0x06
(ENTRYMODESET); each of these commands is RS low, R/W low, one write of the byte to
GPIOA and one enable pulse. When moreover `d0..d7` are PA0..PA7 in this order, RS and
enable are two different pins of port B and the backlight pin is not wired or a pin of
port B other than enable (any R/W pin, any I2C address, any transport status codes),
the display is presented with exactly seven transfers, all with RS low, of the bytes
0x30, 0x30, 0x30, 0x30, 0x0C, 0x01, 0x06. With the data pins on port A in another order
the same bytes are written to GPIOA but reach the display permuted: for `d0..d7` =
PA7..PA0 it is presented with 0x0C four times, then 0x30, 0x80, 0x60. -/
theorem begin_8bit_portA_sequence (i2c_addr rs rw en bl d0 d1 d2 d3 d4 d5 d6 d7 : Nat)
    (s0 : Driver)
    (h0 : d0 ≤ 0x00ff) (h1 : d1 ≤ 0x00ff) (h2 : d2 ≤ 0x00ff) (h3 : d3 ≤ 0x00ff)
    (h4 : d4 ≤ 0x00ff) (h5 : d5 ≤ 0x00ff) (h6 : d6 ≤ 0x00ff) (h7 : d7 ≤ 0x00ff) :
    (init false i2c_addr rs rw en bl d0 d1 d2 d3 d4 d5 d6 d7 s0).data_port = MCP23017_GPIOA ∧
    begin 16 1 LCD_5x8DOTS (init false i2c_addr rs rw en bl d0 d1 d2 d3 d4 d5 d6 d7 s0) =
      (init false i2c_addr rs rw en bl d0 d1 d2 d3 d4 d5 d6 d7 s0
        |> (fun t => { t with numlines := 1 })
        |> setRowOffsets 0x00 0x40 16 0x50
        |> wireBegin
        |> writeRegister MCP23017_IODIRA 0x00 |> writeRegister MCP23017_IODIRB 0x00
        |> writeRegister MCP23017_GPIOA 0x00 |> writeRegister MCP23017_GPIOB 0x00
        |> delayMicroseconds 50000
        |> writeRS LOW |> writeEnable LOW |> writeRW LOW
        |> command 0x30 |> delayMicroseconds 4500
        |> command 0x30 |> delayMicroseconds 150
        |> command 0x30
        |> command 0x30
        |> (fun t => { t with displaycontrol := 0x04 })
        |> command 0x0C
        |> backlight
        |> command 0x01 |> delayMicroseconds 2000
        |> (fun t => { t with displaymode := 0x02 })
        |> command 0x06) ∧
    (∀ (b : Nat) (t : Driver), t.data_port = MCP23017_GPIOA → t.displayfunction = 0x10 →
      command b t =
        (t |> writeRS LOW |> writeRW LOW |> writeRegister MCP23017_GPIOA b |> pulseEnable)) ∧
    ([d0, d1, d2, d3, d4, d5, d6, d7] = portALines → s0.trace = [] →
      rs ∈ portBPins → en ∈ portBPins → rs ≠ en → (bl = 0 ∨ bl ∈ portBPins) → bl ≠ en →
      transfers (begin 16 1 LCD_5x8DOTS
          (init false i2c_addr rs rw en bl d0 d1 d2 d3 d4 d5 d6 d7 s0)) =
        [(0, 0x30), (0, 0x30), (0, 0x30), (0, 0x30), (0, 0x0C), (0, 0x01), (0, 0x06)] ∧
      commandBytes (begin 16 1 LCD_5x8DOTS
          (init false i2c_addr rs rw en bl d0 d1 d2 d3 d4 d5 d6 d7 s0)) =
        [0x30, 0x30, 0x30, 0x30, 0x0C, 0x01, 0x06]) ∧
    reversedA8.data_port = MCP23017_GPIOA ∧
    commandBytes (begin 16 1 LCD_5x8DOTS reversedA8) =
      [0x0C, 0x0C, 0x0C, 0x0C, 0x30, 0x80, 0x60] := by
  refine ⟨init_8bit_portA i2c_addr rs rw en bl d0 d1 d2 d3 d4 d5 d6 d7 s0 h0 h1 h2 h3 h4 h5 h6 h7,
    begin_8bit_eq _ rfl, ?_, ?_, by decide, ?_⟩
  · intro b t hp hd
    have h := send_8bit_consolidated b LOW t (by rw [hd]; decide) (by rw [hp]; decide)
    rw [hp] at h
    exact h
  · intro hd htr hrs hen hne hbl hble
    simp only [portALines, List.cons.injEq, and_true] at hd
    obtain ⟨e0, e1, e2, e3, e4, e5, e6, e7⟩ := hd
    subst e0 e1 e2 e3 e4 e5 e6 e7
    have hi := inStep_init i2c_addr rs rw en bl s0 htr hrs hen hne hbl hble
    have hb := inStep_begin_8bit rs en _ [] hi rfl
    have ht := transfers_of_inStep rs en _ _ hb
    refine ⟨ht, ?_⟩
    unfold commandBytes
    rw [ht]
    rfl
  · set_option maxRecDepth 100000 in decide

/-- Witness of C2 (amended) at the instance `portA8`: data pins PA0..PA7, RS, R/W,
enable and backlight on PB0..PB3. -/
theorem begin_8bit_portA_sequence_witness :
    MCP23017_PA0 ≤ 0x00ff ∧ MCP23017_PA1 ≤ 0x00ff ∧ MCP23017_PA2 ≤ 0x00ff ∧
    MCP23017_PA3 ≤ 0x00ff ∧ MCP23017_PA4 ≤ 0x00ff ∧ MCP23017_PA5 ≤ 0x00ff ∧
    MCP23017_PA6 ≤ 0x00ff ∧ MCP23017_PA7 ≤ 0x00ff ∧
    portA8.data_port = MCP23017_GPIOA ∧
    begin 16 1 LCD_5x8DOTS portA8 =
      (portA8
        |> (fun t => { t with numlines := 1 })
        |> setRowOffsets 0x00 0x40 16 0x50
        |> wireBegin
        |> writeRegister MCP23017_IODIRA 0x00 |> writeRegister MCP23017_IODIRB 0x00
        |> writeRegister MCP23017_GPIOA 0x00 |> writeRegister MCP23017_GPIOB 0x00
        |> delayMicroseconds 50000
        |> writeRS LOW |> writeEnable LOW |> writeRW LOW
        |> command 0x30 |> delayMicroseconds 4500
        |> command 0x30 |> delayMicroseconds 150
        |> command 0x30
        |> command 0x30
        |> (fun t => { t with displaycontrol := 0x04 })
        |> command 0x0C
        |> backlight
        |> command 0x01 |> delayMicroseconds 2000
        |> (fun t => { t with displaymode := 0x02 })
        |> command 0x06) ∧
    (blank [] false).trace = [] ∧
    MCP23017_PB0 ∈ portBPins ∧ MCP23017_PB2 ∈ portBPins ∧ MCP23017_PB0 ≠ MCP23017_PB2 ∧
    (MCP23017_PB3 = 0 ∨ MCP23017_PB3 ∈ portBPins) ∧ MCP23017_PB3 ≠ MCP23017_PB2 ∧
    transfers (begin 16 1 LCD_5x8DOTS portA8) =
      [(0, 0x30), (0, 0x30), (0, 0x30), (0, 0x30), (0, 0x0C), (0, 0x01), (0, 0x06)] :=
  ⟨by decide, by decide, by decide, by decide, by decide, by decide, by decide, by decide,
    (begin_8bit_portA_sequence 0x20 MCP23017_PB0 MCP23017_PB1 MCP23017_PB2 MCP23017_PB3
      MCP23017_PA0 MCP23017_PA1 MCP23017_PA2 MCP23017_PA3 MCP23017_PA4 MCP23017_PA5
      MCP23017_PA6 MCP23017_PA7 (blank [] false) (by decide) (by decide) (by decide) (by decide)
      (by decide) (by decide) (by decide) (by decide)).1,
    (begin_8bit_portA_sequence 0x20 MCP23017_PB0 MCP23017_PB1 MCP23017_PB2 MCP23017_PB3
      MCP23017_PA0 MCP23017_PA1 MCP23017_PA2 MCP23017_PA3 MCP23017_PA4 MCP23017_PA5
      MCP23017_PA6 MCP23017_PA7 (blank [] false) (by decide) (by decide) (by decide) (by decide)
      (by decide) (by decide) (by decide) (by decide)).2.1,
    rfl, by decide, by decide, by decide, Or.inr (by decide), by decide,
    ((begin_8bit_portA_sequence 0x20 MCP23017_PB0 MCP23017_PB1 MCP23017_PB2 MCP23017_PB3
      MCP23017_PA0 MCP23017_PA1 MCP23017_PA2 MCP23017_PA3 MCP23017_PA4 MCP23017_PA5
      MCP23017_PA6 MCP23017_PA7 (blank [] false) (by decide) (by decide) (by decide) (by decide)
      (by decide) (by decide) (by decide) (by decide)).2.2.2.1 rfl rfl (by decide) (by decide)
      (by decide) (Or.inr (by decide)) (by decide)).1⟩

end LiquidCrystal_MCP23017_I2C
